import Mathlib

/-!
# Verification of the library-override reconciliation engine

Shallow embedding of `source/blender/blenkernel/intern/lib_override.c`
(the "library override" subsystem): data model, Override Record Store
operations, the Dependency Tagger, the Override Materializer, the Resync
Engine and the Reconciler / Apply Engine, together with theorems checking
the natural-language specification against this code.

Modelling conventions:
* C data-blocks (`ID`) live in a registry (`MainDB`) as an ordered
  association list keyed by a stable natural-number identity standing for
  the C pointer.  Pointer fields become `Option Nat` keys (`none` = NULL).
* The transient tag bit-set on an `ID` is modelled by a record of booleans
  restricted to the bits this subsystem uses (`LIB_TAG_DOIT`,
  `LIB_TAG_MISSING`, `LIB_TAG_OVERRIDE_LIBRARY_REFOK`); tag/mask
  parameters of the tagging functions become masks over the two transient
  bits, which covers every call site in the source.
* External collaborators (ID duplication, the RNA structural comparator
  and apply engine) are parameters of the model, constrained only where a
  theorem needs it; everything else is translated from the source.
-/

set_option linter.unusedVariables false

namespace LibOverride

/-! ## Tag bits and masks -/

/-- The transient / status tag bits of an `ID` used by this subsystem:
`LIB_TAG_DOIT`, `LIB_TAG_MISSING` and `LIB_TAG_OVERRIDE_LIBRARY_REFOK`. -/
structure Tags where
  doit : Bool := false
  missing : Bool := false
  refok : Bool := false
  deriving Repr, DecidableEq

/-- A mask over the two transient tag bits (`LIB_TAG_DOIT`,
`LIB_TAG_MISSING`); the `tag` / `missing_tag` parameters of the tagging
functions are such masks in every call site of the source. -/
structure TagMask where
  mdoit : Bool := false
  mmissing : Bool := false
  deriving Repr, DecidableEq

/-- C `id->tag & mask`, as a non-emptiness test. -/
def Tags.hasAny (t : Tags) (mk : TagMask) : Bool :=
  (t.doit && mk.mdoit) || (t.missing && mk.mmissing)

/-- C `id->tag |= mask`. -/
def Tags.orMask (t : Tags) (mk : TagMask) : Tags :=
  { t with doit := t.doit || mk.mdoit, missing := t.missing || mk.mmissing }

/-- C `id->tag &= ~mask`. -/
def Tags.andNotMask (t : Tags) (mk : TagMask) : Tags :=
  { t with doit := t.doit && !mk.mdoit, missing := t.missing && !mk.mmissing }

/-- C `maskA | maskB`. -/
def TagMask.union (a b : TagMask) : TagMask :=
  { mdoit := a.mdoit || b.mdoit, mmissing := a.mmissing || b.mmissing }

/-- The `LIB_TAG_DOIT` bit as a mask. -/
def maskDOIT : TagMask := { mdoit := true }

/-- The `LIB_TAG_MISSING` bit as a mask. -/
def maskMISSING : TagMask := { mmissing := true }

/-! ## The override record store data model -/

/-- `IDOverrideLibraryPropertyOperation`: one recorded edit.  The C `flag`
bit-field is restricted to the only bit this code inspects
(`IDOVERRIDE_LIBRARY_FLAG_IDPOINTER_MATCH_REFERENCE`). -/
structure OverrideOp where
  operation : Int := 0
  flag_idpointer_match_reference : Bool := false
  subitem_reference_name : Option String := none
  subitem_local_name : Option String := none
  subitem_reference_index : Int := -1
  subitem_local_index : Int := -1
  deriving Repr, DecidableEq

/-- `IDOverrideLibraryProperty`: one overridden RNA path with its ordered
operation list. -/
structure OverrideProp where
  rna_path : String
  operations : List OverrideOp := []
  deriving Repr, DecidableEq

/-- `IDOverrideLibrary`: the override link attached to a local override
data-block.  `reference = none` models an override template.  The
runtime-only lazily-built path index is rebuildable from `properties` and
carries no extra state, so it is not part of the model. -/
structure OverrideLib where
  reference : Option Nat := none
  properties : List OverrideProp := []
  storage : Option Nat := none
  deriving Repr, DecidableEq

/-- The `ID_XX` type code of a data-block (`GS(id->name)`). -/
inductive IDCode where
  | ID_OB : IDCode
  | ID_GR : IDCode
  | ID_ME : IDCode
  | ID_AR : IDCode
  | ID_KE : IDCode
  | ID_LI : IDCode
  deriving Repr, DecidableEq

/-- External `BKE_idtype_idcode_is_linkable`: which data-block types can be
linked from a library.  Shape-key data-blocks (`ID_KE`) are not directly
linkable; the container/object/data types handled here are. -/
def BKE_idtype_idcode_is_linkable : IDCode → Bool
  | .ID_KE => false
  | .ID_LI => false
  | _ => true

/-- One outgoing ID pointer of a data-block, with the per-relation flags
the `BKE_library_foreach_ID_link` iteration primitive reports
(`IDWALK_CB_EMBEDDED`, `IDWALK_CB_LOOPBACK`).  `target = none` is a NULL
pointer slot. -/
structure LinkEdge where
  target : Option Nat
  embedded : Bool := false
  loopback : Bool := false
  deriving Repr, DecidableEq

/-- A data-block (`ID`).  `content` abstracts the type-specific owned data
that `BKE_lib_id_swap` exchanges; `links` are the outgoing ID pointers
walked by the iteration primitive; `pose` models `ob->pose` as the list of
`pchan->custom` bone-shape pointers (meaningful for objects);
`key_ref` models `BKE_key_from_id` (the attached shape-key data-block). -/
structure IDRec where
  name : String
  idcode : IDCode
  lib : Option Nat := none
  tags : Tags := {}
  flag_embedded_override : Bool := false
  us : Nat := 0
  newid : Option Nat := none
  override_library : Option OverrideLib := none
  links : List LinkEdge := []
  content : Nat := 0
  ob_armature : Bool := false
  ob_data : Option Nat := none
  pose : Option (List (Option Nat)) := none
  pose_recalc : Bool := false
  key_ref : Option Nat := none
  deriving Repr, DecidableEq

/-- C macro `ID_IS_LINKED`. -/
def IDRec.is_linked (i : IDRec) : Bool := i.lib.isSome

/-- C macro `ID_IS_OVERRIDE_LIBRARY_REAL`: has an override link with a
non-NULL reference. -/
def IDRec.is_override_real (i : IDRec) : Bool :=
  match i.override_library with
  | some ov => ov.reference.isSome
  | none => false

/-- C macro `ID_IS_OVERRIDE_LIBRARY` (real override or embedded virtual
override). -/
def IDRec.is_override_any (i : IDRec) : Bool :=
  i.override_library.isSome || i.flag_embedded_override

/-- C macro `ID_MISSING`: the data-block is a placeholder for data the
linker could not find. -/
def IDRec.is_missing (i : IDRec) : Bool := i.tags.missing

/-- The registry (`Main`): ordered association list of data-blocks keyed by
identity, plus a fresh-key counter for newly allocated data-blocks.  The
order models the concatenated per-type list-bases (local data-blocks come
before linked ones, an ordering the resync code relies on and which theorems
state as a hypothesis where needed). -/
structure MainDB where
  ids : List (Nat × IDRec)
  nextKey : Nat := 0
  deriving Repr, DecidableEq

/-- Pointer dereference: look a data-block up by key. -/
def MainDB.lookup (m : MainDB) (k : Nat) : Option IDRec :=
  (m.ids.find? (fun p => p.1 = k)).map Prod.snd

/-- In-place mutation of one data-block. -/
def MainDB.updateId (m : MainDB) (k : Nat) (f : IDRec → IDRec) : MainDB :=
  { m with ids := m.ids.map (fun p => if p.1 = k then (p.1, f p.2) else p) }

/-- C `id_us_plus` (NULL-safe). -/
def id_us_plus (m : MainDB) (k : Option Nat) : MainDB :=
  match k with
  | none => m
  | some kk => m.updateId kk (fun i => { i with us := i.us + 1 })

/-- C `id_us_min` (NULL-safe; the C user count is clamped at its floor,
modelled by truncated subtraction). -/
def id_us_min (m : MainDB) (k : Option Nat) : MainDB :=
  match k with
  | none => m
  | some kk => m.updateId kk (fun i => { i with us := i.us - 1 })

/-! ## Override Record Store: find / copy / clear / init -/

/-- C `BLI_findstring_ptr` over an operation list: first element whose
string field at the given accessor equals the query string.  A `none`
field models a NULL `char *`, which never matches a (non-NULL) query. -/
def BLI_findstring_ptr (ops : List OverrideOp) (s : String)
    (field : OverrideOp → Option String) : Option OverrideOp :=
  ops.find? (fun o => field o = some s)

/-- C `BLI_listbase_bytes_find` over an operation list: first element whose
integer field equals the query value. -/
def BLI_listbase_bytes_find (ops : List OverrideOp) (v : Int)
    (field : OverrideOp → Int) : Option OverrideOp :=
  ops.find? (fun o => field o = v)

/-- `BKE_lib_override_library_property_operation_find`: find an operation
from its sub-item discriminators.  Returns the operation (or `none`) and
the value left in `r_strict`.  Matching tiers follow the source: by local
name, else by reference name (a NULL query name only matches a NULL stored
name: the C compares the two pointers when either is NULL), else by local
index then reference index, with a non-strict fallback accepting the
wildcard index `-1`. -/
def BKE_lib_override_library_property_operation_find
    (override_property : OverrideProp)
    (subitem_refname subitem_locname : Option String)
    (subitem_refindex subitem_locindex : Int)
    (strict : Bool) : Option OverrideOp × Bool :=
  let subitem_defindex : Int := -1
  match subitem_locname with
  | some locname =>
    (match BLI_findstring_ptr override_property.operations locname
        (fun o => o.subitem_local_name) with
     | none => (none, true)
     | some opop =>
       if subitem_refname = none ∨ opop.subitem_reference_name = none then
         -- pointer comparison: at least one side is NULL here
         (if subitem_refname = opop.subitem_reference_name then some opop else none, true)
       else
         -- both non-NULL: STREQ
         (if subitem_refname = opop.subitem_reference_name then some opop else none, true))
  | none =>
  match subitem_refname with
  | some refname =>
    (match BLI_findstring_ptr override_property.operations refname
        (fun o => o.subitem_reference_name) with
     | none => (none, true)
     | some opop =>
       if subitem_locname = none ∨ opop.subitem_local_name = none then
         (if subitem_locname = opop.subitem_local_name then some opop else none, true)
       else
         (if subitem_locname = opop.subitem_local_name then some opop else none, true))
  | none =>
  match BLI_listbase_bytes_find override_property.operations subitem_locindex
      (fun o => o.subitem_local_index) with
  | some opop =>
    (if subitem_refindex = -1 ∨ subitem_refindex = opop.subitem_reference_index then
       some opop
     else none, true)
  | none =>
  match BLI_listbase_bytes_find override_property.operations subitem_refindex
      (fun o => o.subitem_reference_index) with
  | some opop =>
    (if subitem_locindex = -1 ∨ subitem_locindex = opop.subitem_local_index then
       some opop
     else none, true)
  | none =>
  if !strict && subitem_locindex ≠ subitem_defindex then
    match BLI_listbase_bytes_find override_property.operations subitem_defindex
        (fun o => o.subitem_local_index) with
    | some opop => (some opop, false)
    | none => (none, true)
  else (none, true)

/-- `lib_override_library_property_operation_copy`: with value semantics
the by-value duplication of an operation (including its owned sub-item
name strings) is the identity. -/
def lib_override_library_property_operation_copy (opop : OverrideOp) : OverrideOp :=
  opop

/-- `lib_override_library_property_copy`: deep copy of a property record
and its operation list (value semantics). -/
def lib_override_library_property_copy (op : OverrideProp) : OverrideProp :=
  { op with operations := op.operations.map lib_override_library_property_operation_copy }

/-- `BKE_lib_override_library_clear` on the override link of data-block
`k`: frees every property (value semantics: empties the collection, which
also drops the runtime path index), optionally releases the reference's
user count.  The `storage` pointer is never touched. -/
def BKE_lib_override_library_clear (m : MainDB) (k : Nat) (do_id_user : Bool) : MainDB :=
  match m.lookup k with
  | none => m
  | some i =>
    match i.override_library with
    | none => m
    | some ov =>
      let m1 := m.updateId k (fun j =>
        { j with override_library := some { ov with properties := [] } })
      if do_id_user then id_us_min m1 ov.reference else m1

/-- `BKE_lib_override_library_free`: clear then free the link itself. -/
def BKE_lib_override_library_free (m : MainDB) (k : Nat) (do_id_user : Bool) : MainDB :=
  let m1 := BKE_lib_override_library_clear m k do_id_user
  m1.updateId k (fun j => { j with override_library := none })

/-- The `for` loop of `BKE_lib_override_library_init`: walk up the
override chain of the reference while the current ancestor is an override
with a non-NULL reference.  Fuel-bounded (the C loop would not terminate
on a cyclic chain); `none` means fuel ran out. -/
def ancestorWalk (m : MainDB) : Option Nat → Nat → Option (Option Nat)
  | _, 0 => none
  | none, _ + 1 => some none
  | some k, fuel + 1 =>
    match m.lookup k with
    | none => some (some k)
    | some i =>
      match i.override_library with
      | none => some (some k)
      | some ov =>
        match ov.reference with
        | none => some (some k)
        | some r => ancestorWalk m (some r) fuel

/-- The "generate new empty override" tail of
`BKE_lib_override_library_init`: allocate an empty link, set its
reference, take a user of the reference, clear the local data-block's
`LIB_TAG_OVERRIDE_LIBRARY_REFOK` tag.  This is also exactly what the
source's `BKE_lib_override_library_init(dst_id, NULL)` call inside
`BKE_lib_override_library_copy` does (with a NULL reference the chain walk
stops immediately), so the mutual recursion of the two C functions is
broken here. -/
def lib_override_init_empty (m : MainDB) (localKey : Nat) (referenceKey : Option Nat) : MainDB :=
  let m1 := m.updateId localKey (fun i =>
    { i with override_library := some { reference := referenceKey },
             tags := { i.tags with refok := false } })
  id_us_plus m1 referenceKey

/-- `BKE_lib_override_library_copy`: shallow or deep copy of a whole
override from `srcKey` to `dstKey`.  If the source is only a template, the
source itself becomes the reference of the destination. -/
def BKE_lib_override_library_copy (m : MainDB) (dstKey srcKey : Nat)
    (do_full_copy : Bool) : MainDB :=
  match m.lookup dstKey, m.lookup srcKey with
  | some dst, some src =>
    if dst.override_library.isSome && !src.override_library.isSome then
      -- destination had an override, source has none: free and return
      BKE_lib_override_library_free m dstKey true
    else if !dst.override_library.isSome && !src.override_library.isSome then
      -- virtual overrides of embedded data require no extra work
      m
    else
      let m1 := if dst.override_library.isSome then
          BKE_lib_override_library_clear m dstKey true
        else
          lib_override_init_empty m dstKey none
      match src.override_library with
      | none => m1
      | some sov =>
        let newref : Option Nat :=
          match sov.reference with
          | some r => some r
          | none => some srcKey
        let m2 := m1.updateId dstKey (fun i =>
          { i with override_library :=
              i.override_library.map (fun o => { o with reference := newref }) })
        let m3 := id_us_plus m2 newref
        let m4 := if do_full_copy then
            m3.updateId dstKey (fun i =>
              { i with override_library := i.override_library.map (fun o =>
                  { o with properties :=
                      sov.properties.map lib_override_library_property_copy }) })
          else m3
        m4.updateId dstKey (fun i => { i with tags := { i.tags with refok := false } })
  | _, _ => m

/-- `BKE_lib_override_library_init`: initialize overriding of
`referenceKey` by `localKey`.  If walking the reference's override chain
ends on an override template, clone that template's data and fix the
reference up to the requested one; otherwise generate a new empty
override. -/
def BKE_lib_override_library_init (m : MainDB) (localKey : Nat)
    (referenceKey : Option Nat) : MainDB :=
  match ancestorWalk m referenceKey (m.ids.length + 1) with
  | some (some ak) =>
    match (m.lookup ak).bind (fun i => i.override_library) with
    | some _ =>
      -- original ID has a template, use it
      let m1 := BKE_lib_override_library_copy m localKey ak true
      match (m1.lookup localKey).bind (fun i => i.override_library) with
      | some ov =>
        if ov.reference ≠ referenceKey then
          let m2 := id_us_min m1 ov.reference
          let m3 := m2.updateId localKey (fun i =>
            { i with override_library :=
                i.override_library.map (fun o => { o with reference := referenceKey }) })
          id_us_plus m3 referenceKey
        else m1
      | none => m1
    | none => lib_override_init_empty m localKey referenceKey
  | _ => lib_override_init_empty m localKey referenceKey

/-! ## Override Materializer: create overrides from tagged references -/

/-- External `BKE_id_copy`: full value duplicate of a data-block, appended
to the registry under a fresh key, local (`lib = NULL`), with one user,
cleared transient tags, no `newid` and no override data (the data-blocks
duplicated through this model are plain linked references).  A data-block
with an attached shape key gets its shape-key data-block duplicated along
(as the next fresh key).  The possibility of a NULL return (allocation /
non-copyable type) is modelled by the `copy_fails` oracle.  The copy's
name is locally uniquified by the host registry; since the observable
theorems only compare names after the resync name swap, the model keeps
the source name. -/
def BKE_id_copy (copy_fails : Nat → Bool) (m : MainDB) (srcKey : Nat) :
    Option Nat × MainDB :=
  if copy_fails srcKey then (none, m)
  else match m.lookup srcKey with
  | none => (none, m)
  | some src =>
    match src.key_ref with
    | none =>
      let nk := m.nextKey
      let cpy : IDRec :=
        { src with lib := none, us := 1, tags := {}, newid := none,
                   override_library := none }
      (some nk, { ids := m.ids ++ [(nk, cpy)], nextKey := nk + 1 })
    | some kk =>
      let nk := m.nextKey
      let kcopyKey := nk + 1
      let keyRec : IDRec :=
        match m.lookup kk with
        | some kr =>
          { kr with lib := none, us := 1, tags := {}, newid := none,
                    override_library := none }
        | none => { name := "Key", idcode := .ID_KE, us := 1 }
      let cpy : IDRec :=
        { src with lib := none, us := 1, tags := {}, newid := none,
                   override_library := none, key_ref := some kcopyKey }
      (some nk, { ids := m.ids ++ [(nk, cpy), (kcopyKey, keyRec)],
                  nextKey := nk + 2 })

/-- External `BKE_id_delete` (single data-block): removes the data-block
from the registry, releasing its override link's reference user count.
The rollback path of `BKE_lib_override_library_create_from_tag` can reach
this with a NULL pointer (an unprocessed or just-failed entry), modelled
as a no-op.  Residual user-count bookkeeping for other pointers of the
deleted data-block is outside the modelled observables. -/
def BKE_id_delete (m : MainDB) (k : Option Nat) : MainDB :=
  match k with
  | none => m
  | some kk =>
    let m1 := match (m.lookup kk).bind (fun i => i.override_library) with
      | some ov => id_us_min m ov.reference
      | none => m
    { m1 with ids := m1.ids.filter (fun p => p.1 ≠ kk) }

/-- `lib_override_library_create_from`: duplicate the reference, drop the
duplication's extra user count, initialize overriding, and flag the
duplicate's shape key (if any) as an embedded override. -/
def lib_override_library_create_from (copy_fails : Nat → Bool) (m : MainDB)
    (reference_id : Nat) : Option Nat × MainDB :=
  match BKE_id_copy copy_fails m reference_id with
  | (none, m1) => (none, m1)
  | (some localKey, m1) =>
    let m2 := id_us_min m1 (some localKey)
    let m3 := BKE_lib_override_library_init m2 localKey (some reference_id)
    let m4 := match (m3.lookup reference_id).bind (fun i => i.key_ref) with
      | some _ =>
        match (m3.lookup localKey).bind (fun i => i.key_ref) with
        | some lk =>
          m3.updateId lk (fun i => { i with flag_embedded_override := true })
        | none => m3
      | none => m3
    (some localKey, m4)

/-- The worklist of `BKE_lib_override_library_create_from_tag`: every
`DOIT`-tagged, linked, linkable data-block, in registry order. -/
def create_from_tag_todo (m : MainDB) : List Nat :=
  (m.ids.filter (fun p => p.2.tags.doit && p.2.lib.isSome &&
    BKE_idtype_idcode_is_linkable p.2.idcode)).map Prod.fst

/-- The creation loop of `BKE_lib_override_library_create_from_tag`: for
each worklist entry whose `newid` is not already set by the caller,
materialize an override (aborting the loop with failure if the copy
fails), then tag the counterpart `DOIT` and propagate shape-key
counterpart linkage. -/
def create_from_tag_loop (copy_fails : Nat → Bool) :
    MainDB → List Nat → Bool × MainDB
  | m, [] => (true, m)
  | m, rk :: rest =>
    match m.lookup rk with
    | none => create_from_tag_loop copy_fails m rest
    | some ref =>
      let step : Option MainDB :=
        if ref.newid.isSome then some m
        else match lib_override_library_create_from copy_fails m rk with
          | (none, _) => none
          | (some nk, m') =>
            some (m'.updateId rk (fun i => { i with newid := some nk }))
      match step with
      | none => (false, m)
      | some m1 =>
        let m2 := match (m1.lookup rk).bind (fun i => i.newid) with
          | some nk =>
            m1.updateId nk (fun i => { i with tags := { i.tags with doit := true } })
          | none => m1
        let m3 := match (m2.lookup rk).bind (fun i => i.key_ref) with
          | some refk =>
            let ma := m2.updateId refk
              (fun i => { i with tags := { i.tags with doit := true } })
            match (ma.lookup rk).bind (fun i => i.newid) with
            | some nk =>
              match (ma.lookup nk).bind (fun i => i.key_ref) with
              | some lk =>
                let mb := ma.updateId refk (fun i => { i with newid := some lk })
                mb.updateId lk
                  (fun i => { i with tags := { i.tags with doit := true } })
              | none => ma
            | none => ma
          | none => m2
        create_from_tag_loop copy_fails m3 rest

/-- One pointer remap. -/
def remapPtr (old new : Nat) (t : Option Nat) : Option Nat :=
  if t = some old then some new else t

/-- External `BKE_libblock_relink_ex` restricted to one data-block:
replace every ID pointer `old` with `new` (outgoing links, pose bone-shape
pointers, the shape-key pointer).  `ID_REMAP_SKIP_OVERRIDE_LIBRARY` is in
force at every modelled call site, so the override link's own
reference/storage pointers are not remapped. -/
def relink_id_skip_override (old new : Nat) (i : IDRec) : IDRec :=
  { i with
    links := i.links.map (fun e => { e with target := remapPtr old new e.target }),
    ob_data := remapPtr old new i.ob_data,
    pose := i.pose.map (fun l => l.map (remapPtr old new)),
    key_ref := remapPtr old new i.key_ref }

/-- Apply `g` to every `DOIT`-tagged local data-block (the shape of the
pointer-fixup passes: `other_id->tag & LIB_TAG_DOIT` and
`other_id->lib == NULL`). -/
def MainDB.mapTagged (m : MainDB) (g : IDRec → IDRec) : MainDB :=
  { m with ids := m.ids.map (fun p =>
      if p.2.tags.doit && !p.2.lib.isSome then (p.1, g p.2) else p) }

/-- The pointer-fixup pass of `BKE_lib_override_library_create_from_tag`:
for every worklist entry with a counterpart, remap all `DOIT`-tagged local
data-blocks' pointers from the reference (and its shape key) to the
counterpart (and its shape key). -/
def create_from_tag_remap (m : MainDB) : List Nat → MainDB
  | [] => m
  | rk :: rest =>
    match (m.lookup rk).bind (fun i => i.newid) with
    | none => create_from_tag_remap m rest
    | some localKey =>
      let refKeyKey := (m.lookup rk).bind (fun i => i.key_ref)
      let locKeyKey := (m.lookup localKey).bind (fun i => i.key_ref)
      let m1 := m.mapTagged (relink_id_skip_override rk localKey)
      let m2 := match refKeyKey, locKeyKey with
        | some rkk, some lkk => m1.mapTagged (relink_id_skip_override rkk lkk)
        | _, _ => m1
      create_from_tag_remap m2 rest

/-- The rollback pass of `BKE_lib_override_library_create_from_tag`:
delete every counterpart created so far and reset every worklist entry's
`newid`. -/
def create_from_tag_cleanup : MainDB → List Nat → MainDB
  | m0, [] => m0
  | m0, rk :: rest =>
    let m1 := BKE_id_delete m0 ((m0.lookup rk).bind (fun i => i.newid))
    let m2 := m1.updateId rk (fun i => { i with newid := none })
    create_from_tag_cleanup m2 rest

/-- `BKE_lib_override_library_create_from_tag`: collect the worklist,
materialize one override per entry (all-or-nothing: on any failure, roll
back every counterpart created so far and report failure), and on success
remap the new local data-blocks' pointers among themselves. -/
def BKE_lib_override_library_create_from_tag (copy_fails : Nat → Bool)
    (m : MainDB) : Bool × MainDB :=
  let todo := create_from_tag_todo m
  match create_from_tag_loop copy_fails m todo with
  | (true, m1) => (true, create_from_tag_remap m1 todo)
  | (false, m1) => (false, create_from_tag_cleanup m1 todo)

/-- The record of a freshly created override counterpart of reference
`rk` (original record `ref`, no shape key): the `BKE_id_copy` duplicate
with its extra user dropped, initialized as a fresh empty override of
`rk`, tagged `DOIT` by the worklist loop. -/
def counterpartRec (rk : Nat) (ref : IDRec) : IDRec :=
  { ref with lib := none, us := 0, newid := none,
             tags := { doit := true },
             override_library := some { reference := some rk } }

/-- The override link attached to data-block `k`, if any. -/
def overrideOf (m : MainDB) (k : Nat) : Option OverrideLib :=
  (m.lookup k).bind (fun i => i.override_library)

/-- The property list of the override link attached to data-block `k`
(the observable compared by deep-equality of override data). -/
def overridePropsOf (m : MainDB) (k : Nat) : Option (List OverrideProp) :=
  (overrideOf m k).map (fun o => o.properties)

/-- The `LIB_TAG_OVERRIDE_LIBRARY_REFOK` tag of data-block `k`. -/
def refokOf (m : MainDB) (k : Nat) : Option Bool :=
  (m.lookup k).map (fun i => i.tags.refok)

/-- The user count of data-block `k`. -/
def usOf (m : MainDB) (k : Nat) : Option Nat :=
  (m.lookup k).map (fun i => i.us)

/-- The name of data-block `k`. -/
def nameOf (m : MainDB) (k : Nat) : Option String :=
  (m.lookup k).map (fun i => i.name)

/-- The `newid` counterpart pointer of data-block `k`. -/
def newidOf (m : MainDB) (k : Nat) : Option (Option Nat) :=
  (m.lookup k).map (fun i => i.newid)

/-- The owning library of data-block `k`. -/
def libOf (m : MainDB) (k : Nat) : Option (Option Nat) :=
  (m.lookup k).map (fun i => i.lib)

/-- The type-specific content of data-block `k`, if present. -/
def contentOf (m : MainDB) (k : Nat) : Option Nat :=
  (m.lookup k).map (fun i => i.content)

/-- The tag bits of data-block `k`, if present. -/
def tagsOf (m : MainDB) (k : Nat) : Option Tags :=
  (m.lookup k).map (fun i => i.tags)

/-! ## Concrete instances used by witnesses and counterexamples -/

/-- A recorded operation on the sub-item named "LegA" locally and "Leg" in
the reference. -/
def c3op : OverrideOp :=
  { subitem_reference_name := some "Leg", subitem_local_name := some "LegA" }

/-- A property holding exactly the operation `c3op`. -/
def c3prop : OverrideProp := { rna_path := "legs", operations := [c3op] }

/-- A linked data-block with no override data. -/
def plainLinked (nm : String) : IDRec :=
  { name := nm, idcode := .ID_OB, lib := some 100, us := 1 }

/-- Registry for the `init` witness: a plain local data-block `0` and a
plain linked reference `1`. -/
def c4main : MainDB :=
  { ids := [(0, { name := "Chair", idcode := .ID_OB, us := 1 }),
            (1, plainLinked "Chair")],
    nextKey := 2 }

/-- A property with one replace operation, used as payload of override
links in counterexamples. -/
def cexProp : OverrideProp :=
  { rna_path := "location", operations := [{ operation := 1 }] }

/-- Registry for the clear-init-vs-copy counterexample: local override `1`
of linked source `10`, which is itself a (linked) override of `20` and
carries one recorded property; `20` is a plain linked data-block. -/
def c7main : MainDB :=
  { ids := [(1, { name := "Chair", idcode := .ID_OB, us := 1,
                  override_library := some { reference := some 10 } }),
            (10, { name := "Chair", idcode := .ID_OB, lib := some 100, us := 2,
                   override_library := some { reference := some 20,
                                              properties := [cexProp] } }),
            (20, { name := "Chair", idcode := .ID_OB, lib := some 200, us := 1 })],
    nextKey := 30 }

/-- Variant of `c7main` whose source `10` has an empty property list. -/
def c7mainEmpty : MainDB :=
  { ids := [(1, { name := "Chair", idcode := .ID_OB, us := 1,
                  override_library := some { reference := some 10 } }),
            (10, { name := "Chair", idcode := .ID_OB, lib := some 100, us := 2,
                   override_library := some { reference := some 20 } }),
            (20, { name := "Chair", idcode := .ID_OB, lib := some 200, us := 1 })],
    nextKey := 30 }

/-- Registry for the copy-from-template witness: fresh local `0`, local
template `5` (override link with NULL reference) carrying one property. -/
def c10main : MainDB :=
  { ids := [(0, { name := "Lamp", idcode := .ID_OB, us := 1 }),
            (5, { name := "LampTemplate", idcode := .ID_OB, us := 1,
                  override_library := some { reference := none,
                                             properties := [cexProp] } })],
    nextKey := 6 }

/-- Registry for the all-or-nothing witness: two `DOIT`-tagged linked
objects `10` and `11` that link to each other, and an untagged local `0`. -/
def c2main : MainDB :=
  { ids := [(0, { name := "Cube", idcode := .ID_OB, us := 1 }),
            (10, { name := "Chair", idcode := .ID_OB, lib := some 100, us := 1,
                   tags := { doit := true },
                   links := [{ target := some 11 }] }),
            (11, { name := "Table", idcode := .ID_OB, lib := some 100, us := 2,
                   tags := { doit := true } })],
    nextKey := 12 }

/-- `BKE_lib_override_library_operations_create`: skip override templates
(NULL reference) and references that are missing placeholders; otherwise
ensure the armature poses on both sides and let the RNA comparator
(`RNA_struct_override_matches`, an oracle here, like `BKE_pose_ensure`)
record new override operations, reporting whether any were created. -/
def BKE_lib_override_library_operations_create
    (pose_ensure : MainDB → Nat → MainDB)
    (rna_matches : MainDB → Nat → Nat → MainDB × Bool)
    (m : MainDB) (localKey : Nat) : Bool × MainDB :=
  match overrideOf m localKey with
  | none => (false, m)
  | some ov =>
    match ov.reference with
    | none => (false, m)
    | some refKey =>
      match m.lookup refKey with
      | none => (false, m)
      | some refRec =>
        if refRec.is_missing then (false, m)
        else
          let m1 :=
            if ((m.lookup localKey).map
                (fun i => i.idcode == IDCode.ID_OB && i.ob_armature)).getD
                false then
              pose_ensure (pose_ensure m localKey) refKey
            else m
          let res := rna_matches m1 localKey refKey
          (res.2, res.1)

/-- External `BKE_lib_id_swap`: exchange the two data-blocks' owned
contents (their type-specific data, outgoing pointers, pose and shape-key
attachment) while each keeps its ID base struct — name, library, tags,
user count, `newid` and override link stay in place. -/
def BKE_lib_id_swap (m : MainDB) (a b : Nat) : MainDB :=
  match m.lookup a, m.lookup b with
  | some ra, some rb =>
    (m.updateId a (fun i =>
      { i with
        content := rb.content, links := rb.links,
        ob_armature := rb.ob_armature, ob_data := rb.ob_data, pose := rb.pose,
        pose_recalc := rb.pose_recalc, key_ref := rb.key_ref })).updateId b
      (fun i =>
        { i with
          content := ra.content, links := ra.links,
          ob_armature := ra.ob_armature, ob_data := ra.ob_data, pose := ra.pose,
          pose_recalc := ra.pose_recalc, key_ref := ra.key_ref })
  | _, _ => m

/-- The armature cache invalidation at the end of
`BKE_lib_override_library_update`: every object with a pose whose data is
the updated armature gets `POSE_RECALC` and its pose bone pointers
cleared (`BKE_pose_clear_pointers`). -/
def lib_override_update_armature_pose_clear (m : MainDB) (localKey : Nat) :
    MainDB :=
  { m with ids := m.ids.map (fun p =>
      if p.2.pose.isSome && p.2.ob_data == some localKey then
        (p.1, { p.2 with
                pose_recalc := true,
                pose := (p.2.pose.map (fun l =>
                  l.map (fun _ => (none : Option Nat)))) })
      else p) }

/-- `BKE_lib_override_library_update`: skip non-real overrides and missing
references; recursively update a stale override-of-override reference
first (fuel bounds the chain walk); duplicate the reference into a shadow
copy carrying the local name, propagate the embedded shape-key flag, apply
the recorded operations onto the shadow (`RNA_struct_override_apply`, an
oracle over the records involved), swap owned contents so the local
data-block receives the merge result, swap shape keys alike and restore
their attachment, free the shadow, invalidate armature pose caches, free
the differential storage, and mark the local data-block `REFOK`. -/
def BKE_lib_override_library_update (copy_fails : Nat → Bool)
    (rna_apply : IDRec → IDRec → Option IDRec → OverrideLib → Nat) :
    Nat → MainDB → Nat → MainDB
  | 0, m, _ => m
  | fuel+1, m, localKey =>
    match (m.lookup localKey).bind (fun i => i.override_library) with
    | none => m
    | some ov =>
      match ov.reference with
      | none => m
      | some refKey =>
        match m.lookup refKey with
        | none => m
        | some refRec0 =>
          if refRec0.is_missing then m
          else
            let m1 :=
              if refRec0.override_library.isSome && !refRec0.tags.refok then
                BKE_lib_override_library_update copy_fails rna_apply fuel m
                  refKey
              else m
            match BKE_id_copy copy_fails m1 refKey with
            | (none, m2) => m2
            | (some tmpKey, m2) =>
              match m2.lookup localKey with
              | none => m2
              | some localRec =>
                let m3 := m2.updateId tmpKey
                  (fun i => { i with name := localRec.name })
                let tmpKeyK := (m3.lookup tmpKey).bind (fun i => i.key_ref)
                let m4 := match localRec.key_ref, tmpKeyK with
                  | some lk, some tk =>
                    match m3.lookup lk with
                    | some lkR =>
                      m3.updateId tk (fun i => { i with
                        flag_embedded_override := i.flag_embedded_override ||
                          lkR.flag_embedded_override })
                    | none => m3
                  | _, _ => m3
                let stor := ov.storage.bind (fun sk => m4.lookup sk)
                let m5 := match m4.lookup tmpKey, m4.lookup localKey with
                  | some tmpRec, some locRec =>
                    m4.updateId tmpKey (fun i => { i with
                      content := rna_apply tmpRec locRec stor ov })
                  | _, _ => m4
                let m6 := BKE_lib_id_swap m5 localKey tmpKey
                let m7 := match localRec.key_ref, tmpKeyK with
                  | some lk, some tk =>
                    let ms := BKE_lib_id_swap m6 lk tk
                    let ms2 := match ms.lookup lk with
                      | some lkR => ms.updateId tk (fun i => { i with
                          flag_embedded_override := i.flag_embedded_override ||
                            lkR.flag_embedded_override })
                      | none => ms
                    (ms2.updateId localKey
                        (fun i => { i with key_ref := some lk })).updateId
                      tmpKey (fun i => { i with key_ref := some tk })
                  | _, _ => m6
                let m8 := BKE_id_delete m7 (some tmpKey)
                let m9 := match m8.lookup localKey with
                  | some l9 =>
                    if l9.idcode == IDCode.ID_AR then
                      lib_override_update_armature_pose_clear m8 localKey
                    else m8
                  | none => m8
                let m10 := match ov.storage with
                  | some sk =>
                    (BKE_id_delete m9 (some sk)).updateId localKey
                      (fun i =>
                        { i with
                          override_library := i.override_library.map
                            (fun o : OverrideLib =>
                              { o with storage := none }) })
                  | none => m9
                m10.updateId localKey
                  (fun i => { i with tags := { i.tags with refok := true } })

/-- Override link of the update witness: local `1` overrides linked `10`. -/
def c6ov : OverrideLib := { reference := some 10 }

/-- Local override record for the update witness. -/
def c6li : IDRec :=
  { name := "Chair", idcode := .ID_OB, us := 3, content := 5,
    override_library := some c6ov }

/-- Linked reference record for the update witness. -/
def c6rr : IDRec :=
  { name := "ChairLib", idcode := .ID_OB, lib := some 100, us := 1,
    content := 7 }

/-- Registry for the update witness. -/
def c6main : MainDB := { ids := [(1, c6li), (10, c6rr)], nextKey := 11 }

/-- A concrete stand-in for `RNA_struct_override_apply` in the update
witness: merge the shadow's content with the local one. -/
def c6apply (dst src : IDRec) (_ : Option IDRec) (_ : OverrideLib) : Nat :=
  dst.content + src.content

/-- One callback invocation of `lib_override_linked_group_tag_cb` on the
edge `e` of `ownerKey`: returns the possibly-tagged registry and, when the
walk may recurse into the pointed id (`IDWALK_RET_NOP` on an actual id),
that id. Embedded/loopback pointers, NULL/self pointers, already-tagged
ids and foreign-library ids stop recursion; objects and collections of the
root's library get the tag (the missing tag for placeholders). -/
def lib_override_linked_group_tag_cb (libroot : Option Nat)
    (tagm missm : TagMask) (m : MainDB) (ownerKey : Nat) (e : LinkEdge) :
    MainDB × Option Nat :=
  if e.embedded || e.loopback then (m, none)
  else match e.target with
  | none => (m, none)
  | some idk =>
    if idk = ownerKey then (m, none)
    else match m.lookup idk with
      | none => (m, none)
      | some idr =>
        if idr.tags.hasAny (TagMask.union tagm missm) then (m, none)
        else if idr.lib ≠ libroot then (m, none)
        else
          let m1 :=
            if idr.idcode = .ID_OB ∨ idr.idcode = .ID_GR then
              (if idr.is_missing then
                m.updateId idk (fun i =>
                  { i with tags := i.tags.orMask missm })
               else
                m.updateId idk (fun i =>
                  { i with tags := i.tags.orMask tagm }))
            else m
          (m1, some idk)

/-- The recursing walk of `BKE_library_foreach_ID_link` with
`IDWALK_RECURSE` driving a link callback: a worklist of ids to process,
each processed once (`visited`), its outgoing pointers fed to the
callback in order, recursion targets stacked. -/
def group_tag_walk (cb : MainDB → Nat → LinkEdge → MainDB × Option Nat) :
    Nat → MainDB → List Nat → List Nat → MainDB
  | 0, m, _, _ => m
  | _ + 1, m, _, [] => m
  | fuel + 1, m, visited, owner :: rest =>
    if owner ∈ visited then
      group_tag_walk cb fuel m visited rest
    else match m.lookup owner with
      | none =>
        group_tag_walk cb fuel m (owner :: visited) rest
      | some orec =>
        match orec.links.foldl
          (fun (acc : MainDB × List Nat) e =>
            match acc with
            | (ma, ts) =>
              match cb ma owner e with
              | (m1, some t) => (m1, ts ++ [t])
              | (m1, none) => (m1, ts))
          (m, []) with
        | (m2, ts2) =>
          group_tag_walk cb fuel m2 (owner :: visited) (ts2.reverse ++ rest)

/-- Total number of outgoing id pointers in the registry (used to bound
the walk's worklist). -/
def mainTotalLinks (m : MainDB) : Nat :=
  (m.ids.map (fun p => p.2.links.length)).sum

/-- The bone-shape cleanup loop of `lib_override_linked_group_tag`: for
every tagged armature object with a pose, untag its pose channels' custom
bone-shape objects. -/
def boneshape_untag (m : MainDB) (tagm missm : TagMask) : MainDB :=
  m.ids.foldl (fun acc p =>
    match acc.lookup p.1 with
    | some ob =>
      if ob.ob_armature && ob.pose.isSome && ob.tags.hasAny tagm then
        (ob.pose.getD []).foldl (fun acc2 cust =>
          match cust with
          | some ck => acc2.updateId ck (fun i =>
              { i with tags := i.tags.andNotMask (TagMask.union tagm missm) })
          | none => acc2) acc
      else acc
    | none => acc) m

/-- `lib_override_hierarchy_dependencies_recursive_tag`: walk the
relations mapping (modelled as the list of ids still present in it,
initially all of them), removing each visited id, recursing into its
same-library non-loopback dependencies, tagging it whenever a dependency
ends up tagged, and reporting whether the id carries the tag.  An id no
longer in the relations mapping answers from its current tag state
without recursing.  Fuel bounds the nesting (one id leaves the mapping
per level, so any fuel beyond the registry size is enough). -/
def hierarchy_dependencies_recursive_tag (tagm missm : TagMask) :
    Nat → MainDB → List Nat → Nat → MainDB × List Nat × Bool
  | 0, m, rel, _ => (m, rel, false)
  | fuel + 1, m, rel, k =>
    if k ∉ rel then
      (m, rel,
        ((m.lookup k).map (fun i => i.tags.hasAny tagm)).getD false)
    else
      let rel1 := rel.erase k
      match m.lookup k with
      | none => (m, rel1, false)
      | some krec =>
        match krec.links.foldl
          (fun (acc : MainDB × List Nat) e =>
            match acc with
            | (ma, rela) =>
              if e.loopback then (ma, rela)
              else match e.target with
              | none => (ma, rela)
              | some dep =>
                match ma.lookup dep with
                | none => (ma, rela)
                | some deprec =>
                  if deprec.lib = krec.lib then
                    match hierarchy_dependencies_recursive_tag tagm missm
                      fuel ma rela dep with
                    | (mb, relb, tagged) =>
                      if tagged then
                        (mb.updateId k (fun i =>
                          { i with tags := i.tags.orMask tagm }), relb)
                      else (mb, relb)
                  else (ma, rela))
          (m, rel1) with
        | (m2, rel2) =>
          (m2, rel2,
            ((m2.lookup k).map (fun i => i.tags.hasAny tagm)).getD false)

/-- `lib_override_linked_group_tag`: build the relations mapping, run the
boundary walk from an object/collection root, untag bone shapes, then
complete the group with the dependency-closure pass. -/
def lib_override_linked_group_tag (m : MainDB) (rootKey : Nat)
    (tagm missm : TagMask) : MainDB :=
  let rel := m.ids.map Prod.fst
  let m1 := match m.lookup rootKey with
    | some rrec =>
      if rrec.idcode = .ID_OB ∨ rrec.idcode = .ID_GR then
        let mt := group_tag_walk
          (lib_override_linked_group_tag_cb rrec.lib tagm missm)
          (m.ids.length + 2 * mainTotalLinks m + 2) m [] [rootKey]
        boneshape_untag mt tagm missm
      else m
    | none => m
  (hierarchy_dependencies_recursive_tag tagm missm (m1.ids.length + 2) m1
    rel rootKey).1

/-- Registry for the tagger idempotence counterexample: linked root
object `1` uses mesh `2`; meshes `2` and `3` form a same-library cycle;
mesh `2` also uses object `4` (tagged by the boundary walk).  In the
dependency pass, mesh `3` reads mesh `2`'s tag while `2` is still in
progress (stale untagged state), so `3` stays untagged on the first run
and only gets tagged on the second. -/
def c9main : MainDB :=
  { ids := [(1, { name := "Root", idcode := .ID_OB, lib := some 100, us := 1,
                  links := [{ target := some 2 }] }),
            (2, { name := "MeshA", idcode := .ID_ME, lib := some 100,
                  us := 1,
                  links := [{ target := some 3 }, { target := some 4 }] }),
            (3, { name := "MeshB", idcode := .ID_ME, lib := some 100,
                  us := 1, links := [{ target := some 2 }] }),
            (4, { name := "Child", idcode := .ID_OB, lib := some 100,
                  us := 1 })],
    nextKey := 5 }

/-- One-entry registry whose only data-block is already `DOIT`-tagged,
for the short-circuit witness. -/
def c9tagged : MainDB :=
  { ids := [(7, { name := "T", idcode := .ID_OB, lib := some 100, us := 1,
                  tags := { doit := true } })],
    nextKey := 8 }

/-- One callback invocation of `lib_override_local_group_tag_cb`:
embedded/loopback/override-reference pointers, NULL/self pointers,
already-tagged ids, fully-local or linked ids and overrides of a foreign
reference library stop recursion; non-real overrides (shape keys) pass
through untouched; real overrides of the root's reference library get the
tag (the missing tag when their reference is a missing placeholder). -/
def lib_override_local_group_tag_cb (libref : Option Nat)
    (tagm missm : TagMask) (m : MainDB) (ownerKey : Nat) (e : LinkEdge) :
    MainDB × Option Nat :=
  if e.embedded || e.loopback then (m, none)
  else match e.target with
  | none => (m, none)
  | some idk =>
    if idk = ownerKey then (m, none)
    else match m.lookup idk with
      | none => (m, none)
      | some idr =>
        if idr.tags.hasAny (TagMask.union tagm missm) then (m, none)
        else if !idr.is_override_any || idr.is_linked then (m, none)
        else if !idr.is_override_real then (m, some idk)
        else
          match (idr.override_library.bind (fun o => o.reference)) with
          | none => (m, none)
          | some rk =>
            match m.lookup rk with
            | none => (m, none)
            | some rr =>
              if rr.lib ≠ libref then (m, none)
              else if rr.tags.missing then
                (m.updateId idk (fun i =>
                  { i with tags := i.tags.orMask missm }), some idk)
              else
                (m.updateId idk (fun i =>
                  { i with tags := i.tags.orMask tagm }), some idk)

/-- `lib_override_local_group_tag`: walk the local override group from the
root, tagging the real overrides whose reference lives in the root's
reference library. -/
def lib_override_local_group_tag (m : MainDB) (rootKey : Nat)
    (tagm missm : TagMask) : MainDB :=
  match (m.lookup rootKey).bind (fun i => i.override_library) with
  | some ov =>
    let libref := (ov.reference.bind (fun rk =>
      (m.lookup rk).map (fun r => r.lib))).getD none
    group_tag_walk (lib_override_local_group_tag_cb libref tagm missm)
      (m.ids.length + 2 * mainTotalLinks m + 2) m [] [rootKey]
  | none => m

/-- The tagging prefix of `BKE_lib_override_library_resync`: tag the local
root `DOIT`, tag its local override group, then tag the linked group of
its reference. -/
def resync_tag_phase (m : MainDB) (rootKey : Nat) : MainDB :=
  let m0 := m.updateId rootKey (fun i =>
    { i with tags := { i.tags with doit := true } })
  let m1 := lib_override_local_group_tag m0 rootKey maskDOIT maskMISSING
  match (m0.lookup rootKey).bind (fun i => i.override_library) with
  | some ov =>
    match ov.reference with
    | some refRoot => lib_override_linked_group_tag m1 refRoot maskDOIT
        maskMISSING
    | none => m1
  | none => m1

/-- The `linkedref_to_old_override` mapping of resync: for each
`DOIT`-tagged real override in registry order, record (reference, that
override), keeping the first seen per reference. -/
def resync_linkedref_to_old (m : MainDB) : List (Nat × Nat) :=
  m.ids.foldl (fun acc p =>
    if p.2.tags.doit && p.2.is_override_real then
      match p.2.override_library.bind (fun o => o.reference) with
      | some rk =>
        if acc.any (fun q => q.1 = rk) then acc else acc ++ [(rk, p.1)]
      | none => acc
    else acc) []

/-- `BLI_listbase_swaplinks`: exchange the registry slots of two
data-blocks (each keeps its key and record, the positions swap). -/
def MainDB.swapSlots (m : MainDB) (a b : Nat) : MainDB :=
  match m.lookup a, m.lookup b with
  | some ra, some rb =>
    { m with ids := m.ids.map (fun p =>
        if p.1 = a then (b, rb) else if p.1 = b then (a, ra) else p) }
  | _, _ => m

/-- `BKE_libblock_remap(old, new, ID_REMAP_SKIP_INDIRECT_USAGE)`: remap
every directly-owned id pointer from `old` to `new` in every local
data-block (linked data-blocks are indirect usage and stay untouched). -/
def libblock_remap_skip_indirect (m : MainDB) (oldK newK : Nat) : MainDB :=
  { m with ids := m.ids.map (fun p =>
      if p.2.lib.isSome then p
      else (p.1, relink_id_skip_override oldK newK p.2)) }

/-- The identity-swap loop of resync (first `FOREACH_MAIN` pass after
creation): for every `DOIT`-tagged linked reference with a counterpart and
a matching old override, swap the names and registry slots of old and new
override, remap every local user of the old override to the new one, and
transplant the old override's rules onto the new one
(`BLI_duplicatelist` + `lib_override_library_property_copy`, the
identity on values). -/
def resync_swap_phase (m : MainDB) (gh : List (Nat × Nat)) : MainDB :=
  (m.ids.map Prod.fst).foldl (fun acc k =>
    match acc.lookup k with
    | none => acc
    | some i =>
      if i.tags.doit && i.newid.isSome && i.lib.isSome then
        match i.newid, gh.find? (fun q => q.1 = k) with
        | some nk, some q =>
          match acc.lookup q.2, acc.lookup nk with
          | some oldR, some newR =>
            let acc1 := (acc.updateId q.2 (fun j =>
              { j with name := newR.name })).updateId nk
              (fun j => { j with name := oldR.name })
            let acc2 := acc1.swapSlots q.2 nk
            let acc3 := libblock_remap_skip_indirect acc2 q.2 nk
            acc3.updateId nk (fun j =>
              { j with
                override_library := j.override_library.map
                  (fun o =>
                    { o with
                      properties :=
                        (oldR.override_library.map
                          (fun oo => oo.properties)).getD [] }) })
          | _, _ => acc
        | _, _ => acc
      else acc) m

/-- The rule-application loop of resync (second pass, after all swaps and
remaps): for the same selection, drop every operation flagged "id pointer
matches reference", drop properties left without operations, then apply
the transplanted rules onto the new override with the old one as source
(`RNA_struct_override_apply`, the oracle). -/
def resync_apply_phase
    (rna_apply : IDRec → IDRec → Option IDRec → OverrideLib → Nat)
    (m : MainDB) (gh : List (Nat × Nat)) : MainDB :=
  (m.ids.map Prod.fst).foldl (fun acc k =>
    match acc.lookup k with
    | none => acc
    | some i =>
      if i.tags.doit && i.newid.isSome && i.lib.isSome then
        match i.newid, gh.find? (fun q => q.1 = k) with
        | some nk, some q =>
          match acc.lookup q.2 with
          | some oldR =>
            let acc1 := acc.updateId nk (fun j =>
              { j with
                override_library := j.override_library.map
                  (fun o =>
                    { o with
                      properties :=
                        (o.properties.map (fun pr =>
                          { pr with
                            operations := pr.operations.filter (fun op =>
                              !op.flag_idpointer_match_reference) })).filter
                          (fun pr => !pr.operations.isEmpty) }) })
            match acc1.lookup nk with
            | some newR1 =>
              acc1.updateId nk (fun j =>
                { j with
                  content := rna_apply newR1 oldR none
                    (newR1.override_library.getD {}) })
            | none => acc1
          | none => acc
        | _, _ => acc
      else acc) m

/-- The deletion-selection loop of resync: clear `DOIT` from every tagged
id, moving the tag from each matched counterpart onto its old override
(so the old overrides end up selected), and select local overrides whose
data went missing (clearing their missing tag). -/
def resync_delete_select (m : MainDB) (gh : List (Nat × Nat)) : MainDB :=
  (((m.ids.filter (fun p => !p.2.lib.isSome)).map Prod.fst) ++
    ((m.ids.filter (fun p => p.2.lib.isSome)).map Prod.fst)).foldl
    (fun acc k =>
    match acc.lookup k with
    | none => acc
    | some i =>
      if i.tags.doit then
        let acc1 : MainDB := match i.newid, i.lib with
          | some nk, some _ =>
            match gh.find? (fun q => q.1 = k) with
            | some q =>
              (acc.updateId nk (fun j =>
                { j with tags := { j.tags with doit := false } })).updateId
                q.2 (fun j => { j with tags := { j.tags with doit := true } })
            | none => acc
          | _, _ => acc
        acc1.updateId k (fun j =>
          { j with tags := { j.tags with doit := false } })
      else if i.tags.missing && !i.lib.isSome then
        acc.updateId k (fun j =>
          { j with tags := { j.tags with doit := true, missing := false } })
      else acc) m

/-- External `BKE_id_multi_tagged_delete`: remove every `DOIT`-tagged
data-block from the registry. -/
def multi_tagged_delete (m : MainDB) : MainDB :=
  { m with ids := m.ids.filter (fun p => !p.2.tags.doit) }

/-- External `BKE_main_id_clear_newpoins`: reset every `newid`. -/
def main_clear_newpoins (m : MainDB) : MainDB :=
  { m with ids := m.ids.map (fun p => (p.1, { p.2 with newid := none })) }

/-- External `BKE_main_id_tag_all(LIB_TAG_DOIT, false)`. -/
def main_tag_all_clear_doit (m : MainDB) : MainDB :=
  { m with ids := m.ids.map (fun p =>
      (p.1, { p.2 with tags := { p.2.tags with doit := false } })) }

/-- `BKE_lib_override_library_resync`: tag the local and linked groups,
remember which linked reference had which old override, materialize new
overrides for the whole tagged linked group (each `FOREACH_MAIN` pass
visits the local data-blocks before the linked ones, the listbase
invariant the deletion-selection loop relies on), aborting with failure if
that fails, tags left in place), swap identities between old and new
overrides and remap users, apply the transplanted rules, select and
delete the old overrides, and clear the transient state
(`lib_override_library_create_post_process` only instantiates new
objects in collections, outside these observables). -/
def BKE_lib_override_library_resync (copy_fails : Nat → Bool)
    (rna_apply : IDRec → IDRec → Option IDRec → OverrideLib → Nat)
    (m : MainDB) (rootKey : Nat) : Bool × MainDB :=
  let mT := resync_tag_phase m rootKey
  let gh := resync_linkedref_to_old mT
  match BKE_lib_override_library_create_from_tag copy_fails mT with
  | (false, mF) => (false, mF)
  | (true, mC) =>
    let mD := resync_swap_phase mC gh
    let mE := resync_apply_phase rna_apply mD gh
    let mG := resync_delete_select mE gh
    let mH := multi_tagged_delete mG
    (true, main_tag_all_clear_doit (main_clear_newpoins mH))

/-- Registry for the resync-failure witness: local override `1` of linked
object `10`, which uses linked object `11`; the tagging phases tag `1`
(local group) and `10`, `11` (linked group). -/
def c8main : MainDB :=
  { ids := [(1, { name := "Root", idcode := .ID_OB, us := 1,
                  override_library := some { reference := some 10 } }),
            (10, { name := "RootLib", idcode := .ID_OB, lib := some 100,
                   us := 1, links := [{ target := some 11 }] }),
            (11, { name := "ChildLib", idcode := .ID_OB, lib := some 100,
                   us := 1 })],
    nextKey := 12 }

/-- Registry family for the resync identity-preservation claim: local
override `1` (of linked `10`, carrying rules `ps`) and plain local user
`2` pointing at it; linked reference `10` uses linked object `11`.  Names,
use counts, contents and the rule list are arbitrary. -/
def c1main (nmR nmU nmRR nmC : String) (uR uU uRR uC cR cU cRR cC : Nat)
    (ps : List OverrideProp) : MainDB :=
  { ids := [(1, { name := nmR, idcode := .ID_OB, us := uR, content := cR,
                  override_library := some { reference := some 10,
                                             properties := ps } }),
            (2, { name := nmU, idcode := .ID_OB, us := uU, content := cU,
                  links := [{ target := some 1 }] }),
            (10, { name := nmRR, idcode := .ID_OB, lib := some 100,
                   us := uRR, content := cRR,
                   links := [{ target := some 11 }] }),
            (11, { name := nmC, idcode := .ID_OB, lib := some 100, us := uC,
                   content := cC })],
    nextKey := 12 }

/-! ## Theorems -/

/-- Updating key `k` only affects lookups of `k`, through `f`. -/
theorem MainDB.lookup_updateId (m : MainDB) (k k' : Nat) (f : IDRec → IDRec) :
    (m.updateId k f).lookup k' =
      if k' = k then (m.lookup k').map f else m.lookup k' := by
  unfold MainDB.lookup MainDB.updateId
  simp only
  induction m.ids with
  | nil => simp
  | cons p l ih =>
    simp only [List.map_cons]
    by_cases h1 : p.1 = k
    · by_cases h2 : p.1 = k'
      · have hkk : k' = k := by rw [← h2, h1]
        rw [List.find?_cons_of_pos _ (by simp [h1, h2, hkk]),
            List.find?_cons_of_pos _ (by simp [h2]), if_pos hkk]
        simp [h1]
      · have h2' : ¬ k = k' := fun hc => h2 (by rw [h1, hc])
        rw [List.find?_cons_of_neg _ (by simp [h1]; exact h2'),
            List.find?_cons_of_neg _ (by simp [h2]), ih]
    · by_cases h2 : p.1 = k'
      · have hkk : ¬ k' = k := fun hc => h1 (by rw [h2, hc])
        rw [List.find?_cons_of_pos _ (by simp [h2, hkk]),
            List.find?_cons_of_pos _ (by simp [h2]), if_neg hkk]
        simp [h1]
      · rw [List.find?_cons_of_neg _ (by simp [h1, h2]),
            List.find?_cons_of_neg _ (by simp [h2]), ih]

/-- By-value duplication of an operation list is the identity. -/
theorem op_copy_list_id (l : List OverrideOp) :
    l.map lib_override_library_property_operation_copy = l := by
  induction l with
  | nil => rfl
  | cons a t ih => simp [lib_override_library_property_operation_copy, ih]

/-- By-value duplication of a property list is the identity. -/
theorem prop_copy_list_id (l : List OverrideProp) :
    l.map lib_override_library_property_copy = l := by
  induction l with
  | nil => rfl
  | cons p t ih =>
    simp [lib_override_library_property_copy, op_copy_list_id, ih]

/-- Where the ancestor walk of `init` can stop: on a data-block outside
the registry, one without an override link, or an override template. -/
theorem ancestorWalk_stop (m : MainDB) (s : Option Nat) (fuel : Nat) (ak : Nat)
    (h : ancestorWalk m s fuel = some (some ak)) :
    m.lookup ak = none ∨
    (∃ i, m.lookup ak = some i ∧ i.override_library = none) ∨
    (∃ i ov, m.lookup ak = some i ∧ i.override_library = some ov ∧
      ov.reference = none) := by
  induction fuel generalizing s with
  | zero => simp [ancestorWalk] at h
  | succ n ih =>
    match s with
    | none => simp [ancestorWalk] at h
    | some k =>
      rw [ancestorWalk] at h
      cases hk : m.lookup k with
      | none =>
        simp only [hk, Option.some.injEq] at h
        subst h
        exact Or.inl hk
      | some i =>
        simp only [hk] at h
        cases hov : i.override_library with
        | none =>
          simp only [hov, Option.some.injEq] at h
          subst h
          exact Or.inr (Or.inl ⟨i, hk, hov⟩)
        | some ov =>
          simp only [hov] at h
          cases href : ov.reference with
          | none =>
            simp only [href, Option.some.injEq] at h
            subst h
            exact Or.inr (Or.inr ⟨i, ov, hk, hov, href⟩)
          | some r =>
            simp only [href] at h
            exact ih (some r) h

/-- Mutating a data-block in place keeps the key list. -/
theorem MainDB.updateId_keys (m : MainDB) (k : Nat) (f : IDRec → IDRec) :
    (m.updateId k f).ids.map Prod.fst = m.ids.map Prod.fst := by
  unfold MainDB.updateId
  simp only
  induction m.ids with
  | nil => rfl
  | cons p l ih =>
    by_cases h : p.1 = k <;> simp [h, ih]

/-- A lookup fails exactly when the key is absent. -/
theorem MainDB.lookup_eq_none_iff (m : MainDB) (k : Nat) :
    m.lookup k = none ↔ k ∉ m.ids.map Prod.fst := by
  unfold MainDB.lookup
  induction m.ids with
  | nil => simp
  | cons p l ih =>
    by_cases h : p.1 = k
    · rw [List.find?_cons_of_pos _ (by simp [h])]
      simp [h]
    · rw [List.find?_cons_of_neg _ (by simp [h])]
      simp only [List.map_cons, List.mem_cons]
      rw [ih]
      constructor
      · rintro hh (hc | hc)
        · exact h hc.symm
        · exact hh hc
      · exact fun hh hc => hh (Or.inr hc)

/-- Lookup over a concatenated registry: the left part wins. -/
theorem MainDB.lookup_mk_append (l1 l2 : List (Nat × IDRec)) (n1 n2 k : Nat) :
    (MainDB.mk (l1 ++ l2) n2).lookup k =
      (match (MainDB.mk l1 n1).lookup k with
       | some r => some r
       | none => (MainDB.mk l2 n1).lookup k) := by
  unfold MainDB.lookup
  simp only
  induction l1 with
  | nil => simp
  | cons p l ih =>
    by_cases h : p.1 = k
    · rw [List.cons_append, List.find?_cons_of_pos _ (by simp [h]),
          List.find?_cons_of_pos _ (by simp [h])]
      simp
    · rw [List.cons_append, List.find?_cons_of_neg _ (by simp [h]),
          List.find?_cons_of_neg _ (by simp [h])]
      exact ih

/-- Lookup through the tagged-local map pass. -/
theorem MainDB.lookup_mapTagged (m : MainDB) (g : IDRec → IDRec) (k : Nat) :
    (m.mapTagged g).lookup k =
      (m.lookup k).map (fun i =>
        if i.tags.doit && !i.lib.isSome then g i else i) := by
  unfold MainDB.lookup MainDB.mapTagged
  simp only
  induction m.ids with
  | nil => simp
  | cons p l ih =>
    simp only [List.map_cons]
    by_cases h : p.1 = k
    · by_cases hc : (p.2.tags.doit && !p.2.lib.isSome) = true
      · rw [if_pos hc, List.find?_cons_of_pos _ (by simp [h]),
            List.find?_cons_of_pos _ (by simp [h])]
        show some (g p.2) =
          some (if (p.2.tags.doit && !p.2.lib.isSome) = true then g p.2 else p.2)
        rw [if_pos hc]
      · rw [if_neg hc, List.find?_cons_of_pos _ (by simp [h]),
            List.find?_cons_of_pos _ (by simp [h])]
        show some p.2 =
          some (if (p.2.tags.doit && !p.2.lib.isSome) = true then g p.2 else p.2)
        rw [if_neg hc]
    · by_cases hc : (p.2.tags.doit && !p.2.lib.isSome) = true
      · rw [if_pos hc, List.find?_cons_of_neg _ (by simp [h]),
            List.find?_cons_of_neg _ (by simp [h])]
        exact ih
      · rw [if_neg hc, List.find?_cons_of_neg _ (by simp [h]),
            List.find?_cons_of_neg _ (by simp [h])]
        exact ih

/-- The tagged-local map pass keeps the key list. -/
theorem MainDB.mapTagged_keys (m : MainDB) (g : IDRec → IDRec) :
    (m.mapTagged g).ids.map Prod.fst = m.ids.map Prod.fst := by
  unfold MainDB.mapTagged
  simp only
  induction m.ids with
  | nil => rfl
  | cons p l ih =>
    simp only [List.map_cons]
    rw [ih]
    congr 1
    split <;> rfl

/-- One tagged-local relink pass preserves every observable other than the
remapped pointers. -/
theorem mapTagged_relink_obs (m : MainDB) (old nw k : Nat) :
    newidOf (m.mapTagged (relink_id_skip_override old nw)) k = newidOf m k ∧
    overrideOf (m.mapTagged (relink_id_skip_override old nw)) k = overrideOf m k ∧
    libOf (m.mapTagged (relink_id_skip_override old nw)) k = libOf m k ∧
    usOf (m.mapTagged (relink_id_skip_override old nw)) k = usOf m k ∧
    nameOf (m.mapTagged (relink_id_skip_override old nw)) k = nameOf m k ∧
    ((m.mapTagged (relink_id_skip_override old nw)).lookup k = none ↔
      m.lookup k = none) := by
  unfold newidOf overrideOf libOf usOf nameOf
  cases h : m.lookup k with
  | none => simp [MainDB.lookup_mapTagged, h]
  | some v =>
    by_cases hd : v.tags.doit = true
    · by_cases hl : v.lib = none <;>
        simp [MainDB.lookup_mapTagged, h, hd, hl, relink_id_skip_override]
    · simp [MainDB.lookup_mapTagged, h, hd, relink_id_skip_override]

/-- The whole pointer-fixup pass preserves every observable other than the
remapped pointers. -/
theorem remap_observables (l : List Nat) (m : MainDB) (k : Nat) :
    newidOf (create_from_tag_remap m l) k = newidOf m k ∧
    overrideOf (create_from_tag_remap m l) k = overrideOf m k ∧
    libOf (create_from_tag_remap m l) k = libOf m k ∧
    usOf (create_from_tag_remap m l) k = usOf m k ∧
    nameOf (create_from_tag_remap m l) k = nameOf m k ∧
    ((create_from_tag_remap m l).lookup k = none ↔ m.lookup k = none) := by
  induction l generalizing m with
  | nil =>
    simp [create_from_tag_remap]
  | cons rk rest ih =>
    rw [create_from_tag_remap]
    cases hnv : (m.lookup rk).bind (fun i => i.newid) with
    | none => exact ih m
    | some localKey =>
      simp only
      have h1 := mapTagged_relink_obs m rk localKey k
      cases hrkk : (m.lookup rk).bind (fun i => i.key_ref) with
      | none =>
        have h2 := ih (m.mapTagged (relink_id_skip_override rk localKey))
        exact ⟨h2.1.trans h1.1, h2.2.1.trans h1.2.1, h2.2.2.1.trans h1.2.2.1,
          h2.2.2.2.1.trans h1.2.2.2.1, h2.2.2.2.2.1.trans h1.2.2.2.2.1,
          h2.2.2.2.2.2.trans h1.2.2.2.2.2⟩
      | some rkk =>
        cases hmlk : (m.lookup localKey).bind (fun i => i.key_ref) with
        | none =>
          have h2 := ih (m.mapTagged (relink_id_skip_override rk localKey))
          exact ⟨h2.1.trans h1.1, h2.2.1.trans h1.2.1, h2.2.2.1.trans h1.2.2.1,
            h2.2.2.2.1.trans h1.2.2.2.1, h2.2.2.2.2.1.trans h1.2.2.2.2.1,
            h2.2.2.2.2.2.trans h1.2.2.2.2.2⟩
        | some lkk =>
          have h3 := mapTagged_relink_obs
            (m.mapTagged (relink_id_skip_override rk localKey)) rkk lkk k
          have h2 := ih ((m.mapTagged (relink_id_skip_override rk localKey)).mapTagged
            (relink_id_skip_override rkk lkk))
          exact ⟨(h2.1.trans h3.1).trans h1.1,
            (h2.2.1.trans h3.2.1).trans h1.2.1,
            (h2.2.2.1.trans h3.2.2.1).trans h1.2.2.1,
            (h2.2.2.2.1.trans h3.2.2.2.1).trans h1.2.2.2.1,
            (h2.2.2.2.2.1.trans h3.2.2.2.2.1).trans h1.2.2.2.2.1,
            (h2.2.2.2.2.2.trans h3.2.2.2.2.2).trans h1.2.2.2.2.2⟩

/-- A successful lookup means the key is present. -/
theorem MainDB.mem_keys_of_lookup (m : MainDB) (k : Nat) (i : IDRec)
    (h : m.lookup k = some i) : k ∈ m.ids.map Prod.fst := by
  by_contra hmem
  rw [← MainDB.lookup_eq_none_iff] at hmem
  rw [hmem] at h
  exact Option.noConfusion h

/-- Keys present in a bounded registry are below the fresh-key counter. -/
theorem MainDB.lookup_lt_nextKey (m : MainDB) (k : Nat) (i : IDRec)
    (hbound : ∀ p ∈ m.ids, p.1 < m.nextKey)
    (h : m.lookup k = some i) : k < m.nextKey := by
  obtain ⟨p, hp, hpk⟩ := List.mem_map.mp (MainDB.mem_keys_of_lookup m k i h)
  exact hpk ▸ hbound p hp

/-- The fresh key is absent from a bounded registry. -/
theorem MainDB.lookup_nextKey_none (m : MainDB)
    (hbound : ∀ p ∈ m.ids, p.1 < m.nextKey) :
    m.lookup m.nextKey = none := by
  rw [MainDB.lookup_eq_none_iff]
  intro hmem
  obtain ⟨p, hp, hpk⟩ := List.mem_map.mp hmem
  have := hbound p hp
  omega

/-- Reconstructing a registry from its own field list changes nothing for
lookups. -/
theorem MainDB.lookup_mk_self (m : MainDB) (n k : Nat) :
    (MainDB.mk m.ids n).lookup k = m.lookup k := rfl

/-- Specification of `lib_override_library_create_from` on a plain linked
reference with no shape key: the counterpart appears under the fresh key as
an empty override of the reference, which gains one user. -/
theorem create_from_spec (copy_fails : Nat → Bool) (m : MainDB) (rk : Nat)
    (ri : IDRec)
    (hri : m.lookup rk = some ri)
    (hov : ri.override_library = none) (hkey : ri.key_ref = none)
    (hfail : copy_fails rk = false)
    (hbound : ∀ p ∈ m.ids, p.1 < m.nextKey) :
    ∃ mc, lib_override_library_create_from copy_fails m rk =
        (some m.nextKey, mc) ∧
      mc.nextKey = m.nextKey + 1 ∧
      mc.lookup rk = some { ri with us := ri.us + 1 } ∧
      mc.lookup m.nextKey = some
        { ri with lib := none, us := 0, tags := {}, newid := none,
                  override_library := some { reference := some rk } } ∧
      (∀ k, k ≠ rk → k ≠ m.nextKey → mc.lookup k = m.lookup k) ∧
      mc.ids.map Prod.fst = m.ids.map Prod.fst ++ [m.nextKey] := by
  have hrkne : rk ≠ m.nextKey :=
    Nat.ne_of_lt (MainDB.lookup_lt_nextKey m rk ri hbound hri)
  have hnklook : m.lookup m.nextKey = none := MainDB.lookup_nextKey_none m hbound
  have hcopy : BKE_id_copy copy_fails m rk =
      (some m.nextKey,
       MainDB.mk
         (m.ids ++ [(m.nextKey,
            { ri with lib := none, us := 1, tags := {}, newid := none,
                      override_library := none, key_ref := none })])
         (m.nextKey + 1)) := by
    rw [BKE_id_copy, if_neg (by simp [hfail])]
    simp only [hri, hkey]
  have hmalook : ∀ k, (MainDB.mk
      (m.ids ++ [(m.nextKey,
        { ri with lib := none, us := 1, tags := {}, newid := none,
                  override_library := none, key_ref := none })])
      (m.nextKey + 1)).lookup k =
      (if k = m.nextKey then
        some { ri with lib := none, us := 1, tags := {}, newid := none,
                       override_library := none, key_ref := none }
       else m.lookup k) := by
    intro k
    rw [MainDB.lookup_mk_append _ _ m.nextKey]
    rw [MainDB.lookup_mk_self]
    by_cases hk : k = m.nextKey
    · subst hk
      rw [hnklook, if_pos rfl]
      simp [MainDB.lookup]
    · rw [if_neg hk]
      have hk2 : ¬ m.nextKey = k := fun hc => hk hc.symm
      cases hlk : m.lookup k with
      | none => simp [MainDB.lookup, List.find?, hk2]
      | some v => rfl
  have hm2rk : ((MainDB.mk
      (m.ids ++ [(m.nextKey,
        { ri with lib := none, us := 1, tags := {}, newid := none,
                  override_library := none, key_ref := none })])
      (m.nextKey + 1)).updateId m.nextKey
        (fun i => { i with us := i.us - 1 })).lookup rk = some ri := by
    rw [MainDB.lookup_updateId, if_neg hrkne, hmalook, if_neg hrkne, hri]
  have hwalk2 : ∀ fuel, ancestorWalk ((MainDB.mk
      (m.ids ++ [(m.nextKey,
        { ri with lib := none, us := 1, tags := {}, newid := none,
                  override_library := none, key_ref := none })])
      (m.nextKey + 1)).updateId m.nextKey
        (fun i => { i with us := i.us - 1 })) (some rk) (fuel + 1) =
      some (some rk) := by
    intro fuel
    rw [ancestorWalk]
    simp only [hm2rk, hov]
  have hmcrk : (((((MainDB.mk
      (m.ids ++ [(m.nextKey,
        { ri with lib := none, us := 1, tags := {}, newid := none,
                  override_library := none, key_ref := none })])
      (m.nextKey + 1)).updateId m.nextKey
        (fun i => { i with us := i.us - 1 })).updateId m.nextKey
        (fun i =>
          { i with override_library := some { reference := some rk },
                   tags := { i.tags with refok := false } })).updateId rk
        (fun i => { i with us := i.us + 1 })).lookup rk) =
      some { ri with us := ri.us + 1 } := by
    rw [MainDB.lookup_updateId, if_pos rfl, MainDB.lookup_updateId,
      if_neg hrkne, hm2rk]
    rfl
  refine ⟨((((MainDB.mk
      (m.ids ++ [(m.nextKey,
        { ri with lib := none, us := 1, tags := {}, newid := none,
                  override_library := none, key_ref := none })])
      (m.nextKey + 1)).updateId m.nextKey
        (fun i => { i with us := i.us - 1 })).updateId m.nextKey
        (fun i =>
          { i with override_library := some { reference := some rk },
                   tags := { i.tags with refok := false } })).updateId rk
        (fun i => { i with us := i.us + 1 })), ?_, ?_, ?_, ?_, ?_, ?_⟩
  · rw [lib_override_library_create_from, hcopy]
    simp only [id_us_min, BKE_lib_override_library_init, hwalk2, hm2rk, hov,
      Option.bind, lib_override_init_empty, id_us_plus, hmcrk, hkey]
  · rfl
  · exact hmcrk
  · rw [MainDB.lookup_updateId, if_neg (Ne.symm hrkne), MainDB.lookup_updateId,
      if_pos rfl, MainDB.lookup_updateId, if_pos rfl, hmalook, if_pos rfl]
    simp [hkey]
  · intro k hk1 hk2
    rw [MainDB.lookup_updateId, if_neg hk1, MainDB.lookup_updateId, if_neg hk2,
      MainDB.lookup_updateId, if_neg hk2, hmalook, if_neg hk2]
  · rw [MainDB.updateId_keys, MainDB.updateId_keys, MainDB.updateId_keys]
    simp

/-- One iteration of the creation loop on a fresh (no counterpart yet)
linked entry: appends the counterpart under the next fresh key, links it
up, and recurses on the remainder of the worklist. -/
theorem create_step (copy_fails : Nat → Bool) (m : MainDB) (rk : Nat)
    (rest : List Nat) (ri : IDRec)
    (hri : m.lookup rk = some ri) (hnew : ri.newid = none)
    (hov : ri.override_library = none) (hkey : ri.key_ref = none)
    (hfail : copy_fails rk = false)
    (hbound : ∀ p ∈ m.ids, p.1 < m.nextKey) :
    ∃ m3, create_from_tag_loop copy_fails m (rk :: rest) =
        create_from_tag_loop copy_fails m3 rest ∧
      m3.nextKey = m.nextKey + 1 ∧
      m3.lookup rk = some { ri with us := ri.us + 1, newid := some m.nextKey } ∧
      m3.lookup m.nextKey = some (counterpartRec rk ri) ∧
      (∀ k, k ≠ rk → k ≠ m.nextKey → m3.lookup k = m.lookup k) ∧
      m3.ids.map Prod.fst = m.ids.map Prod.fst ++ [m.nextKey] := by
  have hrkne : rk ≠ m.nextKey :=
    Nat.ne_of_lt (MainDB.lookup_lt_nextKey m rk ri hbound hri)
  obtain ⟨mc, hcf, hcnext, hcrk, hcnk, hcframe, hckeys⟩ :=
    create_from_spec copy_fails m rk ri hri hov hkey hfail hbound
  have hm5rk : (mc.updateId rk
      (fun i => { i with newid := some m.nextKey })).lookup rk =
      some { ri with us := ri.us + 1, newid := some m.nextKey } := by
    rw [MainDB.lookup_updateId, if_pos rfl, hcrk]
    rfl
  have hm6rk : ((mc.updateId rk
      (fun i => { i with newid := some m.nextKey })).updateId m.nextKey
        (fun i => { i with tags := { i.tags with doit := true } })).lookup rk =
      some { ri with us := ri.us + 1, newid := some m.nextKey } := by
    rw [MainDB.lookup_updateId, if_neg hrkne, hm5rk]
  refine ⟨((mc.updateId rk
      (fun i => { i with newid := some m.nextKey })).updateId m.nextKey
        (fun i => { i with tags := { i.tags with doit := true } })), ?_, ?_, ?_,
    ?_, ?_, ?_⟩
  · rw [create_from_tag_loop]
    simp only [hri, hnew, Option.isSome_none, Bool.false_eq_true, if_false, hcf,
      hm5rk, hm6rk, Option.bind, hkey]
  · exact hcnext
  · exact hm6rk
  · rw [MainDB.lookup_updateId, if_pos rfl, MainDB.lookup_updateId,
      if_neg (Ne.symm hrkne), hcnk]
    rfl
  · intro k hk1 hk2
    rw [MainDB.lookup_updateId, if_neg hk2, MainDB.lookup_updateId, if_neg hk1]
    exact hcframe k hk1 hk2
  · rw [MainDB.updateId_keys, MainDB.updateId_keys]
    exact hckeys

/-- With distinct keys, find? locates exactly a present entry. -/
theorem find_of_mem_nodup (l : List (Nat × IDRec)) (p : Nat × IDRec)
    (hp : p ∈ l) (hnodup : (l.map Prod.fst).Nodup) :
    l.find? (fun q => q.1 = p.1) = some p := by
  induction l with
  | nil => cases hp
  | cons q l ih =>
    rcases List.mem_cons.mp hp with hq | hq
    · subst hq
      rw [List.find?_cons_of_pos _ (by simp)]
    · have hne : q.1 ≠ p.1 := by
        intro hc
        have : p.1 ∈ l.map Prod.fst := List.mem_map_of_mem Prod.fst hq
        rw [← hc] at this
        exact (List.nodup_cons.mp hnodup).1 this
      rw [List.find?_cons_of_neg _ (by simp [hne])]
      exact ih hq (List.nodup_cons.mp hnodup).2

/-- With distinct keys, a present entry is what lookup returns. -/
theorem MainDB.lookup_of_mem_nodup (m : MainDB) (p : Nat × IDRec)
    (hp : p ∈ m.ids) (hnodup : (m.ids.map Prod.fst).Nodup) :
    m.lookup p.1 = some p.2 := by
  unfold MainDB.lookup
  rw [find_of_mem_nodup m.ids p hp hnodup]
  rfl

/-- The worklist keys are distinct when the registry keys are. -/
theorem todo_nodup (m : MainDB) (hnodup : (m.ids.map Prod.fst).Nodup) :
    (create_from_tag_todo m).Nodup :=
  hnodup.sublist ((List.filter_sublist m.ids).map Prod.fst)

/-- What membership in the worklist means. -/
theorem mem_todo_spec (m : MainDB) (rk : Nat)
    (hnodup : (m.ids.map Prod.fst).Nodup)
    (h : rk ∈ create_from_tag_todo m) :
    ∃ ri, m.lookup rk = some ri ∧ ri.tags.doit = true ∧ ri.lib.isSome = true ∧
      BKE_idtype_idcode_is_linkable ri.idcode = true := by
  unfold create_from_tag_todo at h
  obtain ⟨p, hp, hpk⟩ := List.mem_map.mp h
  have hmem := List.mem_of_mem_filter hp
  have hflt := List.of_mem_filter hp
  simp only [Bool.and_eq_true] at hflt
  refine ⟨p.2, ?_, hflt.1.1, hflt.1.2, hflt.2⟩
  rw [← hpk]
  exact MainDB.lookup_of_mem_nodup m p hmem hnodup

/-- Success path of the creation loop: with no failures and a worklist of
fresh linked plain entries, every entry ends with exactly one counterpart,
nothing else is touched, and every id under a fresh key is the counterpart
of exactly one worklist entry. -/
theorem loop_success_spec (copy_fails : Nat → Bool) (rest : List Nat)
    (m : MainDB)
    (hents : ∀ rk ∈ rest, ∃ ri, m.lookup rk = some ri ∧ ri.newid = none ∧
      ri.override_library = none ∧ ri.key_ref = none)
    (hbound : ∀ p ∈ m.ids, p.1 < m.nextKey)
    (hnd : rest.Nodup)
    (hfail : ∀ rk ∈ rest, copy_fails rk = false) :
    ∃ m', create_from_tag_loop copy_fails m rest = (true, m') ∧
      m.nextKey ≤ m'.nextKey ∧
      (∀ p ∈ m'.ids, p.1 < m'.nextKey) ∧
      (∀ rk ∈ rest, ∃ ck ri, m.nextKey ≤ ck ∧ m.lookup rk = some ri ∧
        m'.lookup rk = some { ri with us := ri.us + 1, newid := some ck } ∧
        m'.lookup ck = some (counterpartRec rk ri)) ∧
      (∀ k, k ∉ rest → k < m.nextKey → m'.lookup k = m.lookup k) ∧
      (∀ c, m.nextKey ≤ c → ∀ ci, m'.lookup c = some ci →
        ∃ rk ri, rk ∈ rest ∧ m.lookup rk = some ri ∧ ci = counterpartRec rk ri ∧
          m'.lookup rk = some { ri with us := ri.us + 1, newid := some c }) := by
  induction rest generalizing m with
  | nil =>
    refine ⟨m, rfl, Nat.le_refl _, hbound, ?_, ?_, ?_⟩
    · intro rk hrk; cases hrk
    · intro k _ _; rfl
    · intro c hc ci hci
      have := MainDB.lookup_lt_nextKey m c ci hbound hci
      omega
  | cons rk rest ih =>
    obtain ⟨ri, hri, hnew, hov, hkey⟩ := hents rk (List.mem_cons_self rk rest)
    have hrklt : rk < m.nextKey := MainDB.lookup_lt_nextKey m rk ri hbound hri
    obtain ⟨m3, hstep, h3next, h3rk, h3nk, h3frame, h3keys⟩ :=
      create_step copy_fails m rk rest ri hri hnew hov hkey
        (hfail rk (List.mem_cons_self rk rest)) hbound
    have hrestlt : ∀ rk2 ∈ rest, rk2 < m.nextKey := by
      intro rk2 h2
      obtain ⟨ri2, hri2, _, _, _⟩ := hents rk2 (List.mem_cons_of_mem rk h2)
      exact MainDB.lookup_lt_nextKey m rk2 ri2 hbound hri2
    have hrknotin : rk ∉ rest := (List.nodup_cons.mp hnd).1
    have h3bound : ∀ p ∈ m3.ids, p.1 < m3.nextKey := by
      intro p hp
      have : p.1 ∈ m3.ids.map Prod.fst := List.mem_map_of_mem Prod.fst hp
      rw [h3keys] at this
      rcases List.mem_append.mp this with hl | hr
      · obtain ⟨q, hq, hqk⟩ := List.mem_map.mp hl
        have := hbound q hq
        omega
      · have : p.1 = m.nextKey := List.mem_singleton.mp hr
        omega
    have h3ents : ∀ rk2 ∈ rest, ∃ ri2, m3.lookup rk2 = some ri2 ∧
        ri2.newid = none ∧ ri2.override_library = none ∧ ri2.key_ref = none := by
      intro rk2 h2
      obtain ⟨ri2, hri2, ha, hb, hc⟩ := hents rk2 (List.mem_cons_of_mem rk h2)
      refine ⟨ri2, ?_, ha, hb, hc⟩
      rw [h3frame rk2 (fun hc2 => hrknotin (hc2 ▸ h2))
        (Nat.ne_of_lt (hrestlt rk2 h2))]
      exact hri2
    obtain ⟨m', heq, hnext, hbound', hperent, hframe, hcover⟩ :=
      ih m3 h3ents h3bound (List.nodup_cons.mp hnd).2
        (fun rk2 h2 => hfail rk2 (List.mem_cons_of_mem rk h2))
    refine ⟨m', hstep.trans heq, by omega, hbound', ?_, ?_, ?_⟩
    · intro rk2 h2
      rcases List.mem_cons.mp h2 with h2 | h2
      · subst h2
        refine ⟨m.nextKey, ri, Nat.le_refl _, hri, ?_, ?_⟩
        · rw [hframe rk2 hrknotin (by omega)]
          exact h3rk
        · rw [hframe m.nextKey (fun hc => by
              have := hrestlt m.nextKey hc; omega) (by omega)]
          exact h3nk
      · obtain ⟨ck, ri2, hckb, hri2, hl1, hl2⟩ := hperent rk2 h2
        refine ⟨ck, ri2, by omega, ?_, hl1, hl2⟩
        rw [h3frame rk2 (fun hc2 => hrknotin (hc2 ▸ h2))
          (Nat.ne_of_lt (hrestlt rk2 h2))] at hri2
        exact hri2
    · intro k hk hklt
      have hk1 : k ≠ rk := fun hc => hk (hc ▸ List.mem_cons_self rk rest)
      have hk2 : k ∉ rest := fun hc => hk (List.mem_cons_of_mem rk hc)
      rw [hframe k hk2 (by omega), h3frame k hk1 (Nat.ne_of_lt hklt)]
    · intro c hc ci hci
      by_cases hcc : m3.nextKey ≤ c
      · obtain ⟨rk2, ri2, h2, hri2, hcieq, hl⟩ := hcover c hcc ci hci
        rw [h3frame rk2 (fun hc2 => hrknotin (hc2 ▸ h2))
          (Nat.ne_of_lt (hrestlt rk2 h2))] at hri2
        exact ⟨rk2, ri2, List.mem_cons_of_mem rk h2, hri2, hcieq, hl⟩
      · have hceq : c = m.nextKey := by omega
        subst hceq
        rw [hframe m.nextKey (fun hc2 => by
            have := hrestlt m.nextKey hc2; omega) (by omega), h3nk] at hci
        refine ⟨rk, ri, List.mem_cons_self rk rest, hri, ?_, ?_⟩
        · exact (Option.some_inj.mp hci).symm
        · rw [hframe rk hrknotin (by omega)]
          exact h3rk


/-- Finding a key in a list with one key filtered out. -/
theorem find_filter_keyne (l : List (Nat × IDRec)) (kk k : Nat) :
    (l.filter (fun p => p.1 ≠ kk)).find? (fun p => p.1 = k) =
      if k = kk then none else l.find? (fun p => p.1 = k) := by
  induction l with
  | nil => simp
  | cons q l ih =>
    rcases eq_or_ne q.1 kk with hq | hq
    · rw [List.filter_cons_of_neg (by simp [hq]), ih]
      rcases eq_or_ne k kk with hk | hk
      · simp [hk]
      · rw [if_neg hk, if_neg hk,
          List.find?_cons_of_neg _ (by simp only [hq, decide_eq_true_eq]; exact Ne.symm hk)]
    · rw [List.filter_cons_of_pos (by simp [hq])]
      rcases eq_or_ne q.1 k with hqk | hqk
      · rw [List.find?_cons_of_pos _ (by simp [hqk]),
          if_neg (fun hc => hq (hqk.trans hc)),
          List.find?_cons_of_pos _ (by simp [hqk])]
      · rw [List.find?_cons_of_neg _ (by simp [hqk]), ih]
        rcases eq_or_ne k kk with hk | hk
        · simp [hk]
        · rw [if_neg hk, if_neg hk, List.find?_cons_of_neg _ (by simp [hqk])]

/-- Dropping one key from the registry, seen through lookup. -/
theorem MainDB.lookup_filterKey (mm : MainDB) (kk k : Nat) :
    ({ mm with ids := mm.ids.filter (fun p => p.1 ≠ kk) } : MainDB).lookup k =
      if k = kk then none else mm.lookup k := by
  unfold MainDB.lookup
  simp only
  rw [find_filter_keyne]
  rcases eq_or_ne k kk with h | h
  · simp [h]
  · simp [h]

/-- Deleting an id removes it from the registry. -/
theorem MainDB.lookup_delete_self (m : MainDB) (kk : Nat) :
    (BKE_id_delete m (some kk)).lookup kk = none := by
  cases hov : (m.lookup kk).bind (fun i => i.override_library) with
  | none =>
    have h1 : BKE_id_delete m (some kk) =
        { m with ids := m.ids.filter (fun p => p.1 ≠ kk) } := by
      simp [BKE_id_delete, hov]
    rw [h1, MainDB.lookup_filterKey, if_pos rfl]
  | some ov =>
    have h1 : BKE_id_delete m (some kk) = { id_us_min m ov.reference with
        ids := (id_us_min m ov.reference).ids.filter (fun p => p.1 ≠ kk) } := by
      simp [BKE_id_delete, hov]
    rw [h1, MainDB.lookup_filterKey, if_pos rfl]

/-- `id_us_min` changes no `newid` field. -/
theorem newidOf_us_min (m : MainDB) (ok : Option Nat) (k : Nat) :
    newidOf (id_us_min m ok) k = newidOf m k := by
  cases ok with
  | none => rfl
  | some kk =>
    unfold newidOf id_us_min
    rw [MainDB.lookup_updateId]
    rcases eq_or_ne k kk with h | h
    · rw [if_pos h]
      cases m.lookup k <;> rfl
    · rw [if_neg h]

/-- Deleting one id leaves every other id present with its `newid`. -/
theorem newidOf_delete (m : MainDB) (kk k : Nat) (hne : k ≠ kk) :
    newidOf (BKE_id_delete m (some kk)) k = newidOf m k := by
  cases hov : (m.lookup kk).bind (fun i => i.override_library) with
  | none =>
    have h1 : BKE_id_delete m (some kk) =
        { m with ids := m.ids.filter (fun p => p.1 ≠ kk) } := by
      simp [BKE_id_delete, hov]
    rw [h1]
    unfold newidOf
    rw [MainDB.lookup_filterKey, if_neg hne]
  | some ov =>
    have h1 : BKE_id_delete m (some kk) = { id_us_min m ov.reference with
        ids := (id_us_min m ov.reference).ids.filter (fun p => p.1 ≠ kk) } := by
      simp [BKE_id_delete, hov]
    have h2 : newidOf (BKE_id_delete m (some kk)) k =
        newidOf (id_us_min m ov.reference) k := by
      rw [h1]
      unfold newidOf
      rw [MainDB.lookup_filterKey, if_neg hne]
    rw [h2, newidOf_us_min]

/-- `id_us_min` changes no tag. -/
theorem tagsOf_us_min (m : MainDB) (ok : Option Nat) (k : Nat) :
    tagsOf (id_us_min m ok) k = tagsOf m k := by
  cases ok with
  | none => rfl
  | some kk =>
    unfold tagsOf id_us_min
    rw [MainDB.lookup_updateId]
    rcases eq_or_ne k kk with h | h
    · rw [if_pos h]
      cases m.lookup k <;> rfl
    · rw [if_neg h]

/-- Deleting one id leaves every other id's tags in place. -/
theorem tagsOf_delete (m : MainDB) (kk k : Nat) (hne : k ≠ kk) :
    tagsOf (BKE_id_delete m (some kk)) k = tagsOf m k := by
  cases hov : (m.lookup kk).bind (fun i => i.override_library) with
  | none =>
    have h1 : BKE_id_delete m (some kk) =
        { m with ids := m.ids.filter (fun p => p.1 ≠ kk) } := by
      simp [BKE_id_delete, hov]
    rw [h1]
    unfold tagsOf
    rw [MainDB.lookup_filterKey, if_neg hne]
  | some ov =>
    have h1 : BKE_id_delete m (some kk) = { id_us_min m ov.reference with
        ids := (id_us_min m ov.reference).ids.filter (fun p => p.1 ≠ kk) } := by
      simp [BKE_id_delete, hov]
    have h2 : tagsOf (BKE_id_delete m (some kk)) k =
        tagsOf (id_us_min m ov.reference) k := by
      rw [h1]
      unfold tagsOf
      rw [MainDB.lookup_filterKey, if_neg hne]
    rw [h2, tagsOf_us_min]

/-- Updating one id leaves every other id alone, seen through `tagsOf`. -/
theorem tagsOf_updateId_ne (m : MainDB) (t k : Nat) (f : IDRec → IDRec)
    (hne : k ≠ t) : tagsOf (m.updateId t f) k = tagsOf m k := by
  unfold tagsOf
  rw [MainDB.lookup_updateId, if_neg hne]


/-- Clearing a `newid` back-pointer changes no tag. -/
theorem tagsOf_set_newid (m : MainDB) (t k : Nat) :
    tagsOf (m.updateId t (fun i => { i with newid := none })) k =
      tagsOf m k := by
  unfold tagsOf
  rw [MainDB.lookup_updateId]
  rcases eq_or_ne k t with h | h
  · rw [if_pos h]
    cases m.lookup k <;> rfl
  · rw [if_neg h]

/-- A failing copy aborts the loop immediately, leaving the registry as it
stood at that step. -/
theorem loop_fail_head (copy_fails : Nat → Bool) (m : MainDB) (rk : Nat)
    (rest : List Nat) (ri : IDRec)
    (hri : m.lookup rk = some ri) (hnew : ri.newid = none)
    (hfail : copy_fails rk = true) :
    create_from_tag_loop copy_fails m (rk :: rest) = (false, m) := by
  unfold create_from_tag_loop
  rw [hri]
  simp [hnew, hfail, lib_override_library_create_from, BKE_id_copy]

/-- Failure path of the creation loop: some copy fails, the loop reports
failure, every worklist entry either is untouched or carries a back-pointer
(`newid`) to its counterpart under a fresh key, every id under a fresh key
is pointed to by some worklist entry, and those back-pointers are
injective. -/
theorem loop_failure_spec (copy_fails : Nat → Bool) (rest : List Nat)
    (m : MainDB)
    (hents : ∀ rk ∈ rest, ∃ ri, m.lookup rk = some ri ∧ ri.newid = none ∧
      ri.override_library = none ∧ ri.key_ref = none)
    (hbound : ∀ p ∈ m.ids, p.1 < m.nextKey)
    (hnd : rest.Nodup)
    (hfail : ∃ rk ∈ rest, copy_fails rk = true) :
    ∃ m', create_from_tag_loop copy_fails m rest = (false, m') ∧
      (∀ rk ∈ rest, ∃ nv, newidOf m' rk = some nv ∧
        (nv = none ∨ ∃ ck, m.nextKey ≤ ck ∧ nv = some ck)) ∧
      (∀ k, k ∉ rest → k < m.nextKey → m'.lookup k = m.lookup k) ∧
      (∀ c, m.nextKey ≤ c → ∀ ci, m'.lookup c = some ci →
        ∃ rk ∈ rest, newidOf m' rk = some (some c)) ∧
      (∀ rk1 ∈ rest, ∀ rk2 ∈ rest, ∀ c, newidOf m' rk1 = some (some c) →
        newidOf m' rk2 = some (some c) → rk1 = rk2) ∧
      (∀ k, k < m.nextKey → tagsOf m' k = tagsOf m k) := by
  induction rest generalizing m with
  | nil =>
    obtain ⟨rk, hrk, _⟩ := hfail
    cases hrk
  | cons rk rest ih =>
    obtain ⟨ri, hri, hnew, hov, hkey⟩ := hents rk (List.mem_cons_self rk rest)
    have hrklt : rk < m.nextKey := MainDB.lookup_lt_nextKey m rk ri hbound hri
    by_cases hf : copy_fails rk = true
    · refine ⟨m, loop_fail_head copy_fails m rk rest ri hri hnew hf, ?_, ?_, ?_, ?_,
        fun k _ => rfl⟩
      · intro rk2 h2
        obtain ⟨ri2, hri2, hnew2, _, _⟩ := hents rk2 h2
        refine ⟨none, ?_, Or.inl rfl⟩
        unfold newidOf
        rw [hri2]
        simp [hnew2]
      · intro k _ _; rfl
      · intro c hc ci hci
        have := MainDB.lookup_lt_nextKey m c ci hbound hci
        omega
      · intro rk1 h1 rk2 h2 c hc1 hc2
        obtain ⟨ri1, hri1, hnew1, _, _⟩ := hents rk1 h1
        unfold newidOf at hc1
        rw [hri1] at hc1
        simp [hnew1] at hc1
    · have hff : copy_fails rk = false := by
        cases h : copy_fails rk with
        | true => exact absurd h hf
        | false => rfl
      obtain ⟨m3, hstep, h3next, h3rk, h3nk, h3frame, h3keys⟩ :=
        create_step copy_fails m rk rest ri hri hnew hov hkey hff hbound
      have hrestlt : ∀ rk2 ∈ rest, rk2 < m.nextKey := by
        intro rk2 h2
        obtain ⟨ri2, hri2, _, _, _⟩ := hents rk2 (List.mem_cons_of_mem rk h2)
        exact MainDB.lookup_lt_nextKey m rk2 ri2 hbound hri2
      have hrknotin : rk ∉ rest := (List.nodup_cons.mp hnd).1
      have h3bound : ∀ p ∈ m3.ids, p.1 < m3.nextKey := by
        intro p hp
        have : p.1 ∈ m3.ids.map Prod.fst := List.mem_map_of_mem Prod.fst hp
        rw [h3keys] at this
        rcases List.mem_append.mp this with hl | hr
        · obtain ⟨q, hq, hqk⟩ := List.mem_map.mp hl
          have := hbound q hq
          omega
        · have : p.1 = m.nextKey := List.mem_singleton.mp hr
          omega
      have h3ents : ∀ rk2 ∈ rest, ∃ ri2, m3.lookup rk2 = some ri2 ∧
          ri2.newid = none ∧ ri2.override_library = none ∧ ri2.key_ref = none := by
        intro rk2 h2
        obtain ⟨ri2, hri2, ha, hb, hc⟩ := hents rk2 (List.mem_cons_of_mem rk h2)
        refine ⟨ri2, ?_, ha, hb, hc⟩
        rw [h3frame rk2 (fun hc2 => hrknotin (hc2 ▸ h2))
          (Nat.ne_of_lt (hrestlt rk2 h2))]
        exact hri2
      have hfailr : ∃ rk2 ∈ rest, copy_fails rk2 = true := by
        obtain ⟨rk0, hrk0, hrk0f⟩ := hfail
        rcases List.mem_cons.mp hrk0 with h0 | h0
        · subst h0; exact absurd hrk0f hf
        · exact ⟨rk0, h0, hrk0f⟩
      obtain ⟨m', heq, hF1, hF2, hF3, hF4, hF5⟩ :=
        ih m3 h3ents h3bound (List.nodup_cons.mp hnd).2 hfailr
      have hheadnew : newidOf m' rk = some (some m.nextKey) := by
        unfold newidOf
        rw [hF2 rk hrknotin (by omega), h3rk]
        rfl
      refine ⟨m', hstep.trans heq, ?_, ?_, ?_, ?_, ?_⟩
      · intro rk2 h2
        rcases List.mem_cons.mp h2 with h2 | h2
        · subst h2
          exact ⟨some m.nextKey, hheadnew,
            Or.inr ⟨m.nextKey, Nat.le_refl _, rfl⟩⟩
        · obtain ⟨nv, hnv, hd⟩ := hF1 rk2 h2
          refine ⟨nv, hnv, ?_⟩
          rcases hd with hd | ⟨ck, hck, hd⟩
          · exact Or.inl hd
          · exact Or.inr ⟨ck, by omega, hd⟩
      · intro k hk hklt
        have hk1 : k ≠ rk := fun hc => hk (hc ▸ List.mem_cons_self rk rest)
        have hk2 : k ∉ rest := fun hc => hk (List.mem_cons_of_mem rk hc)
        rw [hF2 k hk2 (by omega), h3frame k hk1 (Nat.ne_of_lt hklt)]
      · intro c hc ci hci
        by_cases hcc : m3.nextKey ≤ c
        · obtain ⟨rk2, h2, hnv⟩ := hF3 c hcc ci hci
          exact ⟨rk2, List.mem_cons_of_mem rk h2, hnv⟩
        · have hceq : c = m.nextKey := by omega
          subst hceq
          exact ⟨rk, List.mem_cons_self rk rest, hheadnew⟩
      · intro rk1 h1 rk2 h2 c hc1 hc2
        rcases List.mem_cons.mp h1 with he1 | hm1
        · rcases List.mem_cons.mp h2 with he2 | hm2
          · rw [he1, he2]
          · rw [he1, hheadnew] at hc1
            have hcnk : m.nextKey = c :=
              Option.some_inj.mp (Option.some_inj.mp hc1)
            obtain ⟨nv, hnv, hd⟩ := hF1 rk2 hm2
            have hnvc : nv = some c := by
              rw [hnv] at hc2
              exact Option.some_inj.mp hc2
            rcases hd with hd | ⟨ck, hck, hd⟩
            · rw [hnvc] at hd; cases hd
            · rw [hnvc] at hd
              have hcck : c = ck := Option.some_inj.mp hd
              omega
        · rcases List.mem_cons.mp h2 with he2 | hm2
          · rw [he2, hheadnew] at hc2
            have hcnk : m.nextKey = c :=
              Option.some_inj.mp (Option.some_inj.mp hc2)
            obtain ⟨nv, hnv, hd⟩ := hF1 rk1 hm1
            have hnvc : nv = some c := by
              rw [hnv] at hc1
              exact Option.some_inj.mp hc1
            rcases hd with hd | ⟨ck, hck, hd⟩
            · rw [hnvc] at hd; cases hd
            · rw [hnvc] at hd
              have hcck : c = ck := Option.some_inj.mp hd
              omega
          · exact hF4 rk1 hm1 rk2 hm2 c hc1 hc2
      · intro k hk
        rcases eq_or_ne k rk with he | hne
        · subst he
          rw [hF5 k (by omega)]
          unfold tagsOf
          rw [h3rk, hri]
          rfl
        · rw [hF5 k (by omega)]
          unfold tagsOf
          rw [h3frame k hne (Nat.ne_of_lt hk)]


/-- Updating one id leaves every other id alone, seen through `newid`. -/
theorem newidOf_updateId_ne (m : MainDB) (t k : Nat) (f : IDRec → IDRec)
    (hne : k ≠ t) : newidOf (m.updateId t f) k = newidOf m k := by
  unfold newidOf
  rw [MainDB.lookup_updateId, if_neg hne]

/-- Rollback pass of `BKE_lib_override_library_create_from_tag`: deleting
each counterpart through the `newid` back-pointers and resetting those
pointers removes every id under a fresh key and leaves every worklist
entry with a cleared `newid`. -/
theorem cleanup_spec (rl : List Nat) (m : MainDB) (B : Nat)
    (hlt : ∀ rk ∈ rl, rk < B)
    (hents : ∀ rk ∈ rl, ∃ nv, newidOf m rk = some nv ∧
      (nv = none ∨ ∃ ck, B ≤ ck ∧ nv = some ck))
    (hcover : ∀ c, B ≤ c → ∀ ci, m.lookup c = some ci →
      ∃ rk ∈ rl, newidOf m rk = some (some c))
    (hinj : ∀ rk1 ∈ rl, ∀ rk2 ∈ rl, ∀ c, newidOf m rk1 = some (some c) →
      newidOf m rk2 = some (some c) → rk1 = rk2)
    (hnd : rl.Nodup) :
    (∀ rk ∈ rl, newidOf (create_from_tag_cleanup m rl) rk = some none) ∧
    (∀ c, B ≤ c → (create_from_tag_cleanup m rl).lookup c = none) ∧
    (∀ k, k ∉ rl → k < B →
      newidOf (create_from_tag_cleanup m rl) k = newidOf m k) ∧
    (∀ k, k < B → tagsOf (create_from_tag_cleanup m rl) k = tagsOf m k) := by
  induction rl generalizing m with
  | nil =>
    refine ⟨fun rk h => absurd h (List.not_mem_nil rk), ?_, fun k _ _ => rfl,
      fun k _ => rfl⟩
    intro c hc
    simp only [create_from_tag_cleanup]
    cases hmc : MainDB.lookup m c with
    | none => rfl
    | some ci =>
      obtain ⟨rk, hrk, _⟩ := hcover c hc ci hmc
      exact absurd hrk (List.not_mem_nil rk)
  | cons rk rl ih =>
    obtain ⟨nv, hnv, hd⟩ := hents rk (List.mem_cons_self rk rl)
    have hrkB : rk < B := hlt rk (List.mem_cons_self rk rl)
    have hrknotin : rk ∉ rl := (List.nodup_cons.mp hnd).1
    have hrllt : ∀ rk2 ∈ rl, rk2 < B :=
      fun rk2 h2 => hlt rk2 (List.mem_cons_of_mem rk h2)
    cases hmj : m.lookup rk with
    | none =>
      rw [newidOf, hmj] at hnv
      cases hnv
    | some j =>
      have hjnv : j.newid = nv := by
        rw [newidOf, hmj] at hnv
        exact Option.some_inj.mp hnv
      rcases hd with hdnone | ⟨ck, hckB, hdsome⟩
      · subst hdnone
        have hred : create_from_tag_cleanup m (rk :: rl) =
            create_from_tag_cleanup
              (m.updateId rk (fun i => { i with newid := none })) rl := by
          simp only [create_from_tag_cleanup, hmj, Option.some_bind, hjnv,
            BKE_id_delete]
        set m2 := m.updateId rk (fun i => { i with newid := none }) with hm2
        have h2trans : ∀ k, k ≠ rk → newidOf m2 k = newidOf m k :=
          fun k hk => newidOf_updateId_ne m rk k _ hk
        have h2lk : ∀ k, k ≠ rk → m2.lookup k = m.lookup k := by
          intro k hk
          rw [hm2, MainDB.lookup_updateId, if_neg hk]
        obtain ⟨hC1, hC2, hC3, hC4⟩ := ih m2 hrllt
          (fun rk2 h2 => by
            obtain ⟨nv2, hnv2, hd2⟩ := hents rk2 (List.mem_cons_of_mem rk h2)
            exact ⟨nv2, (h2trans rk2
              (fun hc => hrknotin (hc ▸ h2))).trans hnv2, hd2⟩)
          (fun c hc ci hci => by
            have hcne : c ≠ rk := fun hceq => by omega
            rw [h2lk c hcne] at hci
            obtain ⟨rk0, hrk0, hnv0⟩ := hcover c hc ci hci
            rcases List.mem_cons.mp hrk0 with h0 | h0
            · subst h0
              rw [hnv] at hnv0
              cases Option.some_inj.mp hnv0
            · exact ⟨rk0, h0, (h2trans rk0
                (fun hceq => hrknotin (hceq ▸ h0))).trans hnv0⟩)
          (fun rk1 h1 rk2 h2 c hc1 hc2 => by
            rw [h2trans rk1 (fun hceq => hrknotin (hceq ▸ h1))] at hc1
            rw [h2trans rk2 (fun hceq => hrknotin (hceq ▸ h2))] at hc2
            exact hinj rk1 (List.mem_cons_of_mem rk h1)
              rk2 (List.mem_cons_of_mem rk h2) c hc1 hc2)
          (List.nodup_cons.mp hnd).2
        refine ⟨?_, ?_, ?_, ?_⟩
        · intro rk2 h2
          rw [hred]
          rcases List.mem_cons.mp h2 with h0 | h0
          · subst h0
            rw [hC3 rk2 hrknotin hrkB, hm2, newidOf,
              MainDB.lookup_updateId, if_pos rfl, hmj]
            rfl
          · exact hC1 rk2 h0
        · intro c hc
          rw [hred]
          exact hC2 c hc
        · intro k hk hkB
          rw [hred, hC3 k (fun hc => hk (List.mem_cons_of_mem rk hc)) hkB]
          exact h2trans k (fun hc => hk (hc ▸ List.mem_cons_self rk rl))
        · intro k hkB
          rw [hred, hC4 k hkB, hm2, tagsOf_set_newid]
      · subst hdsome
        have hred : create_from_tag_cleanup m (rk :: rl) =
            create_from_tag_cleanup
              ((BKE_id_delete m (some ck)).updateId rk
                (fun i => { i with newid := none })) rl := by
          simp only [create_from_tag_cleanup, hmj, Option.some_bind, hjnv]
        set m1 := BKE_id_delete m (some ck) with hm1
        set m2 := m1.updateId rk (fun i => { i with newid := none }) with hm2
        have h2trans : ∀ k, k ≠ rk → k ≠ ck → newidOf m2 k = newidOf m k := by
          intro k hk hkc
          rw [hm2, newidOf_updateId_ne _ _ _ _ hk, hm1, newidOf_delete _ _ _ hkc]
        obtain ⟨hC1, hC2, hC3, hC4⟩ := ih m2 hrllt
          (fun rk2 h2 => by
            obtain ⟨nv2, hnv2, hd2⟩ := hents rk2 (List.mem_cons_of_mem rk h2)
            refine ⟨nv2, ?_, hd2⟩
            rw [h2trans rk2 (fun hc => hrknotin (hc ▸ h2))
              (fun hc => by have := hrllt rk2 h2; omega)]
            exact hnv2)
          (fun c hc ci hci => by
            have hcne : c ≠ rk := fun hceq => by omega
            rw [hm2, MainDB.lookup_updateId, if_neg hcne] at hci
            have hcck : c ≠ ck := by
              intro hceq
              rw [hceq, hm1, MainDB.lookup_delete_self] at hci
              cases hci
            have hmc : ∃ cj, m.lookup c = some cj := by
              have hnn : newidOf m c = newidOf m1 c :=
                (newidOf_delete m ck c hcck).symm ▸ rfl
              rw [newidOf, newidOf] at hnn
              rw [hci] at hnn
              cases hmc2 : m.lookup c with
              | none => rw [hmc2] at hnn; cases hnn
              | some cj => exact ⟨cj, rfl⟩
            obtain ⟨cj, hcj⟩ := hmc
            obtain ⟨rk0, hrk0, hnv0⟩ := hcover c hc cj hcj
            rcases List.mem_cons.mp hrk0 with h0 | h0
            · subst h0
              rw [hnv] at hnv0
              have : some ck = some c := Option.some_inj.mp hnv0
              exact absurd (Option.some_inj.mp this) hcck.symm
            · refine ⟨rk0, h0, ?_⟩
              rw [h2trans rk0 (fun hceq => hrknotin (hceq ▸ h0))
                (fun hceq => by have := hrllt rk0 h0; omega)]
              exact hnv0)
          (fun rk1 h1 rk2 h2 c hc1 hc2 => by
            rw [h2trans rk1 (fun hceq => hrknotin (hceq ▸ h1))
              (fun hceq => by have := hrllt rk1 h1; omega)] at hc1
            rw [h2trans rk2 (fun hceq => hrknotin (hceq ▸ h2))
              (fun hceq => by have := hrllt rk2 h2; omega)] at hc2
            exact hinj rk1 (List.mem_cons_of_mem rk h1)
              rk2 (List.mem_cons_of_mem rk h2) c hc1 hc2)
          (List.nodup_cons.mp hnd).2
        refine ⟨?_, ?_, ?_, ?_⟩
        · intro rk2 h2
          rw [hred]
          rcases List.mem_cons.mp h2 with h0 | h0
          · subst h0
            rw [hC3 rk2 hrknotin hrkB, hm2, newidOf,
              MainDB.lookup_updateId, if_pos rfl]
            have hrkck : rk2 ≠ ck := by omega
            have h1nn : newidOf m1 rk2 = newidOf m rk2 := by
              rw [hm1]
              exact newidOf_delete m ck rk2 hrkck
            rw [newidOf, newidOf, hmj] at h1nn
            cases hm1rk : m1.lookup rk2 with
            | none => rw [hm1rk] at h1nn; cases h1nn
            | some j1 => rfl
          · exact hC1 rk2 h0
        · intro c hc
          rw [hred]
          exact hC2 c hc
        · intro k hk hkB
          rw [hred, hC3 k (fun hc => hk (List.mem_cons_of_mem rk hc)) hkB]
          exact h2trans k (fun hc => hk (hc ▸ List.mem_cons_self rk rl))
            (by omega)
        · intro k hkB
          rw [hred, hC4 k hkB, hm2, tagsOf_set_newid, hm1,
            tagsOf_delete m ck k (by omega)]


/-- A successful lookup comes from a registry entry. -/
theorem MainDB.entry_mem_of_lookup (m : MainDB) (k : Nat) (i : IDRec)
    (h : m.lookup k = some i) : (k, i) ∈ m.ids := by
  unfold MainDB.lookup at h
  cases hf : m.ids.find? (fun p => p.1 = k) with
  | none => rw [hf] at h; cases h
  | some p =>
    rw [hf] at h
    have hp := List.mem_of_find?_eq_some hf
    have hpk : p.1 = k := by
      have := List.find?_some hf
      simpa using this
    have hpi : p.2 = i := Option.some_inj.mp h
    have hpe : p = (k, i) := Prod.ext hpk hpi
    rw [← hpe]
    exact hp

/-- Claim C2: `BKE_lib_override_library_create_from_tag` is all-or-nothing
over its tagged worklist. If no copy fails it returns `true` having created
exactly one override counterpart per `DOIT`-tagged, linked, linkable
reference entity (the reference's `newid` points at the counterpart, its
user count grew by one, the counterpart is a local id carrying the
reference's name and a fresh empty override link back to the reference),
and every id under a fresh key is such a counterpart. If any copy fails it
returns `false`, every counterpart created so far is deleted (no id under a
fresh key remains) and every worklist entry's `newid` is reset to null. -/
theorem claim_C2 (copy_fails : Nat → Bool) (m : MainDB)
    (hnodup : (m.ids.map Prod.fst).Nodup)
    (hbound : ∀ p ∈ m.ids, p.1 < m.nextKey)
    (hplain : ∀ p ∈ m.ids, p.2.tags.doit = true → p.2.lib.isSome = true →
      p.2.newid = none ∧ p.2.override_library = none ∧ p.2.key_ref = none) :
    ((∀ rk ∈ create_from_tag_todo m, copy_fails rk = false) →
      ∃ mfin, BKE_lib_override_library_create_from_tag copy_fails m =
          (true, mfin) ∧
        (∀ rk ∈ create_from_tag_todo m, ∃ ck ri, m.nextKey ≤ ck ∧
          m.lookup rk = some ri ∧
          newidOf mfin rk = some (some ck) ∧
          usOf mfin rk = some (ri.us + 1) ∧
          overrideOf mfin ck =
            some { reference := some rk, properties := [], storage := none } ∧
          libOf mfin ck = some none ∧
          nameOf mfin ck = some ri.name) ∧
        (∀ c, m.nextKey ≤ c → mfin.lookup c ≠ none →
          ∃ rk, rk ∈ create_from_tag_todo m ∧
            newidOf mfin rk = some (some c))) ∧
    ((∃ rk ∈ create_from_tag_todo m, copy_fails rk = true) →
      ∃ mfin, BKE_lib_override_library_create_from_tag copy_fails m =
          (false, mfin) ∧
        (∀ rk ∈ create_from_tag_todo m, newidOf mfin rk = some none) ∧
        (∀ c, m.nextKey ≤ c → mfin.lookup c = none)) := by
  have hents : ∀ rk ∈ create_from_tag_todo m, ∃ ri, m.lookup rk = some ri ∧
      ri.newid = none ∧ ri.override_library = none ∧ ri.key_ref = none := by
    intro rk hrk
    obtain ⟨ri, hri, hdoit, hlib, _⟩ := mem_todo_spec m rk hnodup hrk
    have hmem := MainDB.entry_mem_of_lookup m rk ri hri
    obtain ⟨ha, hb, hc⟩ := hplain (rk, ri) hmem hdoit hlib
    exact ⟨ri, hri, ha, hb, hc⟩
  have hlt : ∀ rk ∈ create_from_tag_todo m, rk < m.nextKey := by
    intro rk hrk
    obtain ⟨ri, hri, _, _, _⟩ := hents rk hrk
    exact MainDB.lookup_lt_nextKey m rk ri hbound hri
  have hnd := todo_nodup m hnodup
  constructor
  · intro hok
    obtain ⟨m1, hloop, _, _, hperent, _, hcover⟩ :=
      loop_success_spec copy_fails (create_from_tag_todo m) m hents hbound hnd hok
    refine ⟨create_from_tag_remap m1 (create_from_tag_todo m), ?_, ?_, ?_⟩
    · simp only [BKE_lib_override_library_create_from_tag, hloop]
    · intro rk hrk
      obtain ⟨ck, ri, hckB, hri, hl1, hl2⟩ := hperent rk hrk
      obtain ⟨hno, hoo, hlo, huo, hnmo, _⟩ :=
        remap_observables (create_from_tag_todo m) m1 rk
      obtain ⟨hno2, hoo2, hlo2, huo2, hnmo2, _⟩ :=
        remap_observables (create_from_tag_todo m) m1 ck
      refine ⟨ck, ri, hckB, hri, ?_, ?_, ?_, ?_, ?_⟩
      · rw [hno, newidOf, hl1]; rfl
      · rw [huo, usOf, hl1]; rfl
      · rw [hoo2, overrideOf, hl2]; rfl
      · rw [hlo2, libOf, hl2]; rfl
      · rw [hnmo2, nameOf, hl2]; rfl
    · intro c hc hcs
      obtain ⟨_, _, _, _, _, hnone⟩ :=
        remap_observables (create_from_tag_todo m) m1 c
      have hm1c : m1.lookup c ≠ none := fun hn => hcs (hnone.mpr hn)
      cases hm1c2 : m1.lookup c with
      | none => exact absurd hm1c2 hm1c
      | some ci =>
        obtain ⟨rk, ri, hrk, _, _, hl⟩ := hcover c hc ci hm1c2
        obtain ⟨hno, _, _, _, _, _⟩ :=
          remap_observables (create_from_tag_todo m) m1 rk
        refine ⟨rk, hrk, ?_⟩
        rw [hno, newidOf, hl]
        rfl
  · intro hbad
    obtain ⟨m1, hloop, hF1, _, hF3, hF4, _⟩ :=
      loop_failure_spec copy_fails (create_from_tag_todo m) m hents hbound hnd hbad
    obtain ⟨hC1, hC2, _⟩ :=
      cleanup_spec (create_from_tag_todo m) m1 m.nextKey hlt hF1 hF3 hF4 hnd
    refine ⟨create_from_tag_cleanup m1 (create_from_tag_todo m), ?_, hC1, hC2⟩
    simp only [BKE_lib_override_library_create_from_tag, hloop]

/-- Witness for claim C2 on a concrete registry with a never-failing copy. -/
theorem claim_C2_witness :
    ((∀ rk ∈ create_from_tag_todo c2main, (fun _ : Nat => false) rk = false) →
      ∃ mfin, BKE_lib_override_library_create_from_tag (fun _ : Nat => false) c2main =
          (true, mfin) ∧
        (∀ rk ∈ create_from_tag_todo c2main, ∃ ck ri, c2main.nextKey ≤ ck ∧
          c2main.lookup rk = some ri ∧
          newidOf mfin rk = some (some ck) ∧
          usOf mfin rk = some (ri.us + 1) ∧
          overrideOf mfin ck =
            some { reference := some rk, properties := [], storage := none } ∧
          libOf mfin ck = some none ∧
          nameOf mfin ck = some ri.name) ∧
        (∀ c, c2main.nextKey ≤ c → mfin.lookup c ≠ none →
          ∃ rk, rk ∈ create_from_tag_todo c2main ∧
            newidOf mfin rk = some (some c))) ∧
    ((∃ rk ∈ create_from_tag_todo c2main, (fun _ : Nat => false) rk = true) →
      ∃ mfin, BKE_lib_override_library_create_from_tag (fun _ : Nat => false) c2main =
          (false, mfin) ∧
        (∀ rk ∈ create_from_tag_todo c2main, newidOf mfin rk = some none) ∧
        (∀ c, c2main.nextKey ≤ c → mfin.lookup c = none)) :=
  claim_C2 (fun _ => false) c2main (by decide) (by decide) (by decide)


/-- Claim C5: on an entity whose override link is a template (NULL
reference), `BKE_lib_override_library_operations_create` returns `false`
and mutates nothing — not even through the comparator or pose machinery —
and the same holds when the reference is a missing placeholder. -/
theorem claim_C5 (pose_ensure : MainDB → Nat → MainDB)
    (rna_matches : MainDB → Nat → Nat → MainDB × Bool)
    (m : MainDB) (k : Nat) (ov : OverrideLib)
    (hov : overrideOf m k = some ov)
    (htm : ov.reference = none ∨ ∃ rk rr, ov.reference = some rk ∧
      m.lookup rk = some rr ∧ rr.is_missing = true) :
    BKE_lib_override_library_operations_create pose_ensure rna_matches m k =
      (false, m) := by
  rcases htm with hnone | ⟨rk, rr, href, hlook, hmiss⟩
  · simp only [BKE_lib_override_library_operations_create, hov, hnone]
  · simp only [BKE_lib_override_library_operations_create, hov, href, hlook,
      hmiss, IDRec.is_missing]
    simp [IDRec.is_missing] at hmiss
    simp [hmiss]

/-- Witness for claim C5: the template entity `5` of `c10main`, with a
comparator oracle that would claim to create operations if it ran. -/
theorem claim_C5_witness :
    overrideOf c10main 5 =
      some { reference := none, properties := [cexProp], storage := none } ∧
    BKE_lib_override_library_operations_create (fun m _ => m)
      (fun m _ _ => (m, true)) c10main 5 = (false, c10main) :=
  ⟨by decide,
   claim_C5 (fun m _ => m) (fun m _ _ => (m, true)) c10main 5
     { reference := none, properties := [cexProp], storage := none }
     (by decide) (Or.inl (by decide))⟩


/-- find? of a key commutes with a key-preserving map. -/
theorem find_map_keypres (l : List (Nat × IDRec))
    (f : Nat × IDRec → Nat × IDRec) (hf : ∀ p, (f p).1 = p.1) (k : Nat) :
    (l.map f).find? (fun p => p.1 = k) =
      (l.find? (fun p => p.1 = k)).map f := by
  induction l with
  | nil => rfl
  | cons q l ih =>
    rcases eq_or_ne q.1 k with h | h
    · rw [List.map_cons, List.find?_cons_of_pos _ (by simp [hf, h]),
        List.find?_cons_of_pos _ (by simp [h])]
      rfl
    · rw [List.map_cons, List.find?_cons_of_neg _ (by simp [hf, h]),
        List.find?_cons_of_neg _ (by simp [h]), ih]

/-- Lookup through the armature pose-cache invalidation pass. -/
theorem lookup_pose_clear (m : MainDB) (lk k : Nat) :
    (lib_override_update_armature_pose_clear m lk).lookup k =
      (m.lookup k).map (fun i =>
        if i.pose.isSome && i.ob_data == some lk then
          { i with
            pose_recalc := true,
            pose := (i.pose.map (fun l =>
              l.map (fun _ => (none : Option Nat)))) }
        else i) := by
  unfold MainDB.lookup lib_override_update_armature_pose_clear
  simp only
  rw [find_map_keypres _ _ (fun p => by
    rcases hc : (p.2.pose.isSome && p.2.ob_data == some lk) with _ | _ <;>
      simp [hc])]
  cases m.ids.find? (fun p => p.1 = k) with
  | none => rfl
  | some q =>
    by_cases hb : q.2.pose.isSome = true ∧ q.2.ob_data = some lk
    · simp [hb]
    · simp [hb]

/-- Lookup in a registry extended by one fresh entry. -/
theorem MainDB.lookup_append_fresh (m : MainDB) (c : IDRec) (k : Nat)
    (hbound : ∀ p ∈ m.ids, p.1 < m.nextKey) :
    (MainDB.mk (m.ids ++ [(m.nextKey, c)]) (m.nextKey + 1)).lookup k =
      if k = m.nextKey then some c else m.lookup k := by
  rw [MainDB.lookup_mk_append m.ids [(m.nextKey, c)] m.nextKey (m.nextKey + 1)
    k, MainDB.lookup_mk_self m m.nextKey k]
  rcases eq_or_ne k m.nextKey with h | h
  · subst h
    rw [MainDB.lookup_nextKey_none m hbound, if_pos rfl]
    unfold MainDB.lookup
    simp
  · rw [if_neg h]
    cases hmk : m.lookup k with
    | none =>
      unfold MainDB.lookup
      simp [Ne.symm h]
    | some r => rfl


/-- Lookup after deleting a data-block that has no override link: the
deleted key vanishes, nothing else moves. -/
theorem lookup_delete_noov (m : MainDB) (kk : Nat)
    (hnoov : ((m.lookup kk).bind (fun i => i.override_library)) = none)
    (k : Nat) :
    (BKE_id_delete m (some kk)).lookup k = if k = kk then none else
      m.lookup k := by
  have h1 : BKE_id_delete m (some kk) =
      { m with ids := m.ids.filter (fun p => p.1 ≠ kk) } := by
    simp [BKE_id_delete, hnoov]
  rw [h1, MainDB.lookup_filterKey]

/-- Claim C6: on a real override of a present, non-missing, plain linked
reference (no shape key, no differential storage), one step of
`BKE_lib_override_library_update` keeps the local data-block's identity —
it still answers at its key with its name, user count and override link —
while its owned content becomes the result of applying the recorded
operations (`rna_apply`) onto the shadow duplicate of the reference,
the shadow is freed (its fresh key answers nothing), and the local
data-block finishes with its REFOK tag set. -/
theorem claim_C6 (copy_fails : Nat → Bool)
    (rna_apply : IDRec → IDRec → Option IDRec → OverrideLib → Nat)
    (fuel : Nat) (m : MainDB) (localKey refKey : Nat) (li rr : IDRec)
    (ov : OverrideLib)
    (hloc : m.lookup localKey = some li)
    (hlov : li.override_library = some ov)
    (href : ov.reference = some refKey)
    (href2 : m.lookup refKey = some rr)
    (hmiss : rr.is_missing = false)
    (hplainref : rr.override_library = none)
    (hcf : copy_fails refKey = false)
    (hlik : li.key_ref = none)
    (hrrk : rr.key_ref = none)
    (hstor : ov.storage = none)
    (hbound : ∀ p ∈ m.ids, p.1 < m.nextKey) :
    nameOf (BKE_lib_override_library_update copy_fails rna_apply (fuel + 1) m localKey) localKey = some li.name ∧
    usOf (BKE_lib_override_library_update copy_fails rna_apply (fuel + 1) m localKey) localKey = some li.us ∧
    overrideOf (BKE_lib_override_library_update copy_fails rna_apply (fuel + 1) m localKey) localKey = some ov ∧
    refokOf (BKE_lib_override_library_update copy_fails rna_apply (fuel + 1) m localKey) localKey = some true ∧
    contentOf (BKE_lib_override_library_update copy_fails rna_apply (fuel + 1) m localKey) localKey = some (rna_apply
      { rr with
        lib := none, us := 1, tags := {}, newid := none,
        override_library := none, name := li.name } li none ov) ∧
    (BKE_lib_override_library_update copy_fails rna_apply (fuel + 1) m localKey).lookup m.nextKey = none := by
  have hlt : localKey < m.nextKey :=
    MainDB.lookup_lt_nextKey m localKey li hbound hloc
  have hne1 : ¬(localKey = m.nextKey) := by omega
  have hne2 : ¬(m.nextKey = localKey) := by omega
  have hcopy : BKE_id_copy copy_fails m refKey =
      (some m.nextKey,
        MainDB.mk (m.ids ++ [(m.nextKey,
          { rr with
            lib := none, us := 1, tags := {}, newid := none,
            override_library := none })]) (m.nextKey + 1)) := by
    simp [BKE_id_copy, hcf, href2, hrrk]
  have hA := fun (c : IDRec) (k : Nat) => MainDB.lookup_append_fresh m c k
    hbound
  have hdel := fun (mx : MainDB) (kk : Nat)
      (hx : ((mx.lookup kk).bind (fun i => i.override_library)) = none)
      (k : Nat) => lookup_delete_noov mx kk hx k
  by_cases hAR : li.idcode = IDCode.ID_AR
  · cases hrp : rr.pose with
    | none =>
      refine ⟨?_, ?_, ?_, ?_, ?_, ?_⟩ <;>
        simp [BKE_lib_override_library_update, nameOf, usOf, overrideOf, refokOf,
        contentOf, hloc, hlov, href, href2, hmiss, hplainref, hcopy, hA, hne1,
        hne2, hlik, hrrk, hstor, MainDB.lookup_updateId, BKE_lib_id_swap,
        hdel, lookup_pose_clear, hAR, hrp]
    | some pl =>
      by_cases hod : rr.ob_data = some localKey
      · refine ⟨?_, ?_, ?_, ?_, ?_, ?_⟩ <;>
          simp [BKE_lib_override_library_update, nameOf, usOf, overrideOf, refokOf,
        contentOf, hloc, hlov, href, href2, hmiss, hplainref, hcopy, hA, hne1,
        hne2, hlik, hrrk, hstor, MainDB.lookup_updateId, BKE_lib_id_swap,
        hdel, lookup_pose_clear, hAR, hrp, hod]
      · refine ⟨?_, ?_, ?_, ?_, ?_, ?_⟩ <;>
          simp [BKE_lib_override_library_update, nameOf, usOf, overrideOf, refokOf,
        contentOf, hloc, hlov, href, href2, hmiss, hplainref, hcopy, hA, hne1,
        hne2, hlik, hrrk, hstor, MainDB.lookup_updateId, BKE_lib_id_swap,
        hdel, lookup_pose_clear, hAR, hrp, hod]
  · refine ⟨?_, ?_, ?_, ?_, ?_, ?_⟩ <;>
      simp [BKE_lib_override_library_update, nameOf, usOf, overrideOf, refokOf,
        contentOf, hloc, hlov, href, href2, hmiss, hplainref, hcopy, hA, hne1,
        hne2, hlik, hrrk, hstor, MainDB.lookup_updateId, BKE_lib_id_swap,
        hdel, lookup_pose_clear, hAR]


/-- Witness for claim C6 on a concrete two-entry registry. -/
theorem claim_C6_witness :
    nameOf (BKE_lib_override_library_update (fun _ => false) c6apply 1 c6main 1) 1 = some c6li.name ∧
    usOf (BKE_lib_override_library_update (fun _ => false) c6apply 1 c6main 1) 1 = some c6li.us ∧
    overrideOf (BKE_lib_override_library_update (fun _ => false) c6apply 1 c6main 1) 1 = some c6ov ∧
    refokOf (BKE_lib_override_library_update (fun _ => false) c6apply 1 c6main 1) 1 = some true ∧
    contentOf (BKE_lib_override_library_update (fun _ => false) c6apply 1 c6main 1) 1 = some (c6apply
      { c6rr with
        lib := none, us := 1, tags := {}, newid := none,
        override_library := none, name := c6li.name } c6li none c6ov) ∧
    (BKE_lib_override_library_update (fun _ => false) c6apply 1 c6main 1).lookup c6main.nextKey = none :=
  claim_C6 (fun _ => false) c6apply 0 c6main 1 10 c6li c6rr c6ov (by decide)
    (by decide) (by decide) (by decide) (by decide) (by decide) (by decide)
    (by decide) (by decide) (by decide) (by decide)


/-- Claim C9 (counterexample): running the linked-group tagging twice
from root `1` of `c9main` without clearing tags does not reproduce the
same tagged set — mesh `3` is untagged after one run and tagged after
two, because the dependency pass's "already processed" bookkeeping is the
per-call relations mapping, not the tags: on the first run mesh `3` reads
the stale untagged state of in-progress mesh `2`, on the second run it
reads `2`'s final tagged state. -/
theorem claim_C9_counterexample :
    ((lib_override_linked_group_tag c9main 1 maskDOIT maskMISSING).lookup
        3).map (fun i => i.tags.doit) = some false ∧
    ((lib_override_linked_group_tag (lib_override_linked_group_tag c9main 1
        maskDOIT maskMISSING) 1 maskDOIT maskMISSING).lookup 3).map
        (fun i => i.tags.doit) = some true := by
  decide

/-- Claim C9 (amended): the short-circuit sentence itself holds — the
boundary-walk callback leaves the registry untouched and recurses no
further on an actual non-self pointer whose target already carries either
tag — but the dependency-closure pass does not consult tags to cut its
traversal, so double-run equality of the tagged sets fails in general
(see the counterexample). -/
theorem claim_C9_amended (libroot : Option Nat) (tagm missm : TagMask)
    (m : MainDB) (ownerKey idk : Nat) (e : LinkEdge) (idr : IDRec)
    (hemb : e.embedded = false) (hloop : e.loopback = false)
    (htgt : e.target = some idk) (hself : idk ≠ ownerKey)
    (hlk : m.lookup idk = some idr)
    (htag : idr.tags.hasAny (TagMask.union tagm missm) = true) :
    lib_override_linked_group_tag_cb libroot tagm missm m ownerKey e =
      (m, none) := by
  simp [lib_override_linked_group_tag_cb, hemb, hloop, htgt, hself, hlk,
    htag]

/-- Witness for the amended claim C9: a pointer to an already-tagged
object is left alone and not descended into. -/
theorem claim_C9_amended_witness :
    lib_override_linked_group_tag_cb (some 100) maskDOIT maskMISSING
      c9tagged 1 { target := some 7 } = (c9tagged, none) :=
  claim_C9_amended (some 100) maskDOIT maskMISSING c9tagged 1 7
    { target := some 7 }
    { name := "T", idcode := .ID_OB, lib := some 100, us := 1,
      tags := { doit := true } }
    (by decide) (by decide) (by decide) (by decide) (by decide) (by decide)


/-- Claim C8: when the creation step inside
`BKE_lib_override_library_resync` fails, resync reports failure right
there — the identity swaps, rule transplant and deletions never run — the
partial counterparts are rolled back (every worklist `newid` reset, no id
under a fresh key), and the group tags applied by the tagging phases are
still on every surviving entity: the registry keeps the post-tagging tag
state, not the pre-call one. -/
theorem claim_C8 (copy_fails : Nat → Bool)
    (rna_apply : IDRec → IDRec → Option IDRec → OverrideLib → Nat)
    (m : MainDB) (rootKey : Nat)
    (hnodup : ((resync_tag_phase m rootKey).ids.map Prod.fst).Nodup)
    (hbound : ∀ p ∈ (resync_tag_phase m rootKey).ids, p.1 < (resync_tag_phase m rootKey).nextKey)
    (hplain : ∀ p ∈ (resync_tag_phase m rootKey).ids, p.2.tags.doit = true →
      p.2.lib.isSome = true →
      p.2.newid = none ∧ p.2.override_library = none ∧ p.2.key_ref = none)
    (hbad : ∃ rk ∈ create_from_tag_todo (resync_tag_phase m rootKey), copy_fails rk = true) :
    ∃ mfin, BKE_lib_override_library_resync copy_fails rna_apply m rootKey =
        (false, mfin) ∧
      (∀ rk ∈ create_from_tag_todo (resync_tag_phase m rootKey), newidOf mfin rk = some none) ∧
      (∀ c, (resync_tag_phase m rootKey).nextKey ≤ c → mfin.lookup c = none) ∧
      (∀ k, k < (resync_tag_phase m rootKey).nextKey → tagsOf mfin k = tagsOf (resync_tag_phase m rootKey) k) := by
  have hents : ∀ rk ∈ create_from_tag_todo (resync_tag_phase m rootKey),
      ∃ ri, (resync_tag_phase m rootKey).lookup rk = some ri ∧ ri.newid = none ∧
        ri.override_library = none ∧ ri.key_ref = none := by
    intro rk hrk
    obtain ⟨ri, hri, hdoit, hlib, _⟩ := mem_todo_spec (resync_tag_phase m rootKey) rk hnodup hrk
    have hmem := MainDB.entry_mem_of_lookup (resync_tag_phase m rootKey) rk ri hri
    obtain ⟨ha, hb, hc⟩ := hplain (rk, ri) hmem hdoit hlib
    exact ⟨ri, hri, ha, hb, hc⟩
  have hlt : ∀ rk ∈ create_from_tag_todo (resync_tag_phase m rootKey), rk < (resync_tag_phase m rootKey).nextKey := by
    intro rk hrk
    obtain ⟨ri, hri, _, _, _⟩ := hents rk hrk
    exact MainDB.lookup_lt_nextKey (resync_tag_phase m rootKey) rk ri hbound hri
  have hnd := todo_nodup (resync_tag_phase m rootKey) hnodup
  obtain ⟨m1, hloop, hF1, _, hF3, hF4, hF5⟩ :=
    loop_failure_spec copy_fails (create_from_tag_todo (resync_tag_phase m rootKey)) (resync_tag_phase m rootKey) hents hbound
      hnd hbad
  obtain ⟨hC1, hC2, _, hC4⟩ :=
    cleanup_spec (create_from_tag_todo (resync_tag_phase m rootKey)) m1 (resync_tag_phase m rootKey).nextKey hlt hF1 hF3 hF4 hnd
  have hcft : BKE_lib_override_library_create_from_tag copy_fails (resync_tag_phase m rootKey) =
      (false, create_from_tag_cleanup m1 (create_from_tag_todo (resync_tag_phase m rootKey))) := by
    simp only [BKE_lib_override_library_create_from_tag, hloop]
  refine ⟨create_from_tag_cleanup m1 (create_from_tag_todo (resync_tag_phase m rootKey)), ?_, hC1,
    hC2, ?_⟩
  · simp only [BKE_lib_override_library_resync, hcft]
  · intro k hk
    rw [hC4 k hk, hF5 k hk]

/-- Witness for claim C8: in `c8main` the tagging phases tag `1`, `10`,
`11`; copying `11` fails, resync returns `false`, the rollback leaves no
fresh id and clears the `newid` pointers, and the three entities keep
their group tags. -/
theorem claim_C8_witness :
    ∃ mfin, BKE_lib_override_library_resync (fun k => k == 11)
        (fun d _ _ _ => d.content) c8main 1 = (false, mfin) ∧
      (∀ rk ∈ create_from_tag_todo (resync_tag_phase c8main 1),
        newidOf mfin rk = some none) ∧
      (∀ c, (resync_tag_phase c8main 1).nextKey ≤ c →
        mfin.lookup c = none) ∧
      (∀ k, k < (resync_tag_phase c8main 1).nextKey →
        tagsOf mfin k = tagsOf (resync_tag_phase c8main 1) k) :=
  claim_C8 (fun k => k == 11) (fun d _ _ _ => d.content) c8main 1
    (by decide) (by decide) (by decide) (by decide)


/-- The rule pre-clean of the resync apply loop: drop operations flagged
"id pointer matches reference", then drop rules left empty. -/
def c1filt (ps : List OverrideProp) : List OverrideProp :=
  (ps.map (fun pr =>
      { pr with operations := pr.operations.filter (fun op =>
          !op.flag_idpointer_match_reference) })).filter
      (fun pr => !pr.operations.isEmpty)

set_option maxHeartbeats 4000000 in
/-- Claim C1: after a successful resync of the override group of `1`
(old override of linked reference `10`, with plain local user `2`), the
surviving override entity — the newly created counterpart `12` — carries
the old override's name and registry slot (it heads the registry where
`1` used to), the old override `1` is deleted, the user `2` is remapped
to the new override, the old override's rules are transplanted onto it
(minus operations flagged "id pointer matches reference"), and no local
entity references the deleted old override. -/
theorem claim_C1 (nmR nmU nmRR nmC : String)
    (uR uU uRR uC cR cU cRR cC : Nat) (ps : List OverrideProp)
    (rna_apply : IDRec → IDRec → Option IDRec → OverrideLib → Nat) :
    (BKE_lib_override_library_resync (fun _ => false) rna_apply
      (c1main nmR nmU nmRR nmC uR uU uRR uC cR cU cRR cC ps) 1).1 = true ∧
    nameOf (BKE_lib_override_library_resync (fun _ => false) rna_apply
      (c1main nmR nmU nmRR nmC uR uU uRR uC cR cU cRR cC ps) 1).2 12 = some nmR ∧
    ((BKE_lib_override_library_resync (fun _ => false) rna_apply
      (c1main nmR nmU nmRR nmC uR uU uRR uC cR cU cRR cC ps) 1).2.ids.map Prod.fst) = [12, 2, 10, 11, 13] ∧
    (BKE_lib_override_library_resync (fun _ => false) rna_apply
      (c1main nmR nmU nmRR nmC uR uU uRR uC cR cU cRR cC ps) 1).2.lookup 1 = none ∧
    ((BKE_lib_override_library_resync (fun _ => false) rna_apply
      (c1main nmR nmU nmRR nmC uR uU uRR uC cR cU cRR cC ps) 1).2.lookup 2).map (fun i => i.links.map (fun e => e.target)) =
      some [some 12] ∧
    overrideOf (BKE_lib_override_library_resync (fun _ => false) rna_apply
      (c1main nmR nmU nmRR nmC uR uU uRR uC cR cU cRR cC ps) 1).2 12 = some
      { reference := some 10, properties := c1filt ps, storage := none } ∧
    (∀ k ∈ ([12, 2, 10, 11, 13] : List Nat), ∀ i,
      (BKE_lib_override_library_resync (fun _ => false) rna_apply
      (c1main nmR nmU nmRR nmC uR uU uRR uC cR cU cRR cC ps) 1).2.lookup k = some i → i.lib = none →
      ∀ e ∈ i.links, e.target ≠ some 1) := by
  have f0 : (c1main nmR nmU nmRR nmC uR uU uRR uC cR cU cRR cC ps).updateId 1
      (fun i => { i with tags := { i.tags with doit := true } }) =
    ({ ids := [(1, { name := nmR, idcode := .ID_OB, tags := { doit := true }, us := uR, override_library := some { reference := some 10, properties := ps }, content := cR }), (2, { name := nmU, idcode := .ID_OB, us := uU, links := [{ target := some 1 }], content := cU }), (10, { name := nmRR, idcode := .ID_OB, lib := some 100, us := uRR, links := [{ target := some 11 }], content := cRR }), (11, { name := nmC, idcode := .ID_OB, lib := some 100, us := uC, content := cC })], nextKey := 12 } : MainDB) := rfl
  have floc : lib_override_local_group_tag
    ({ ids := [(1, { name := nmR, idcode := .ID_OB, tags := { doit := true }, us := uR, override_library := some { reference := some 10, properties := ps }, content := cR }), (2, { name := nmU, idcode := .ID_OB, us := uU, links := [{ target := some 1 }], content := cU }), (10, { name := nmRR, idcode := .ID_OB, lib := some 100, us := uRR, links := [{ target := some 11 }], content := cRR }), (11, { name := nmC, idcode := .ID_OB, lib := some 100, us := uC, content := cC })], nextKey := 12 } : MainDB) 1 maskDOIT maskMISSING =
    ({ ids := [(1, { name := nmR, idcode := .ID_OB, tags := { doit := true }, us := uR, override_library := some { reference := some 10, properties := ps }, content := cR }), (2, { name := nmU, idcode := .ID_OB, us := uU, links := [{ target := some 1 }], content := cU }), (10, { name := nmRR, idcode := .ID_OB, lib := some 100, us := uRR, links := [{ target := some 11 }], content := cRR }), (11, { name := nmC, idcode := .ID_OB, lib := some 100, us := uC, content := cC })], nextKey := 12 } : MainDB) := rfl
  have fov : ((({ ids := [(1, { name := nmR, idcode := .ID_OB, tags := { doit := true }, us := uR, override_library := some { reference := some 10, properties := ps }, content := cR }), (2, { name := nmU, idcode := .ID_OB, us := uU, links := [{ target := some 1 }], content := cU }), (10, { name := nmRR, idcode := .ID_OB, lib := some 100, us := uRR, links := [{ target := some 11 }], content := cRR }), (11, { name := nmC, idcode := .ID_OB, lib := some 100, us := uC, content := cC })], nextKey := 12 } : MainDB)).lookup 1).bind (fun i => i.override_library) =
    some { reference := some 10, properties := ps } := rfl
  have frootL : (({ ids := [(1, { name := nmR, idcode := .ID_OB, tags := { doit := true }, us := uR, override_library := some { reference := some 10, properties := ps }, content := cR }), (2, { name := nmU, idcode := .ID_OB, us := uU, links := [{ target := some 1 }], content := cU }), (10, { name := nmRR, idcode := .ID_OB, lib := some 100, us := uRR, links := [{ target := some 11 }], content := cRR }), (11, { name := nmC, idcode := .ID_OB, lib := some 100, us := uC, content := cC })], nextKey := 12 } : MainDB)).lookup 10 =
    some { name := nmRR, idcode := .ID_OB, lib := some 100, us := uRR, links := [{ target := some 11 }], content := cRR } := rfl
  have frel : (({ ids := [(1, { name := nmR, idcode := .ID_OB, tags := { doit := true }, us := uR, override_library := some { reference := some 10, properties := ps }, content := cR }), (2, { name := nmU, idcode := .ID_OB, us := uU, links := [{ target := some 1 }], content := cU }), (10, { name := nmRR, idcode := .ID_OB, lib := some 100, us := uRR, links := [{ target := some 11 }], content := cRR }), (11, { name := nmC, idcode := .ID_OB, lib := some 100, us := uC, content := cC })], nextKey := 12 } : MainDB)).ids.map Prod.fst = [1, 2, 10, 11] := rfl
  have fwalk : group_tag_walk
      (lib_override_linked_group_tag_cb (some 100) maskDOIT maskMISSING)
      10
      ({ ids := [(1, { name := nmR, idcode := .ID_OB, tags := { doit := true }, us := uR, override_library := some { reference := some 10, properties := ps }, content := cR }), (2, { name := nmU, idcode := .ID_OB, us := uU, links := [{ target := some 1 }], content := cU }), (10, { name := nmRR, idcode := .ID_OB, lib := some 100, us := uRR, links := [{ target := some 11 }], content := cRR }), (11, { name := nmC, idcode := .ID_OB, lib := some 100, us := uC, content := cC })], nextKey := 12 } : MainDB) [] [10] =
    ({ ids := [(1, { name := nmR, idcode := .ID_OB, tags := { doit := true }, us := uR, override_library := some { reference := some 10, properties := ps }, content := cR }), (2, { name := nmU, idcode := .ID_OB, us := uU, links := [{ target := some 1 }], content := cU }), (10, { name := nmRR, idcode := .ID_OB, lib := some 100, us := uRR, links := [{ target := some 11 }], content := cRR }), (11, { name := nmC, idcode := .ID_OB, lib := some 100, tags := { doit := true }, us := uC, content := cC })], nextKey := 12 } : MainDB) := rfl
  have fbone : boneshape_untag ({ ids := [(1, { name := nmR, idcode := .ID_OB, tags := { doit := true }, us := uR, override_library := some { reference := some 10, properties := ps }, content := cR }), (2, { name := nmU, idcode := .ID_OB, us := uU, links := [{ target := some 1 }], content := cU }), (10, { name := nmRR, idcode := .ID_OB, lib := some 100, us := uRR, links := [{ target := some 11 }], content := cRR }), (11, { name := nmC, idcode := .ID_OB, lib := some 100, tags := { doit := true }, us := uC, content := cC })], nextKey := 12 } : MainDB) maskDOIT maskMISSING =
    ({ ids := [(1, { name := nmR, idcode := .ID_OB, tags := { doit := true }, us := uR, override_library := some { reference := some 10, properties := ps }, content := cR }), (2, { name := nmU, idcode := .ID_OB, us := uU, links := [{ target := some 1 }], content := cU }), (10, { name := nmRR, idcode := .ID_OB, lib := some 100, us := uRR, links := [{ target := some 11 }], content := cRR }), (11, { name := nmC, idcode := .ID_OB, lib := some 100, tags := { doit := true }, us := uC, content := cC })], nextKey := 12 } : MainDB) := rfl
  have fdep : hierarchy_dependencies_recursive_tag maskDOIT maskMISSING
      6 ({ ids := [(1, { name := nmR, idcode := .ID_OB, tags := { doit := true }, us := uR, override_library := some { reference := some 10, properties := ps }, content := cR }), (2, { name := nmU, idcode := .ID_OB, us := uU, links := [{ target := some 1 }], content := cU }), (10, { name := nmRR, idcode := .ID_OB, lib := some 100, us := uRR, links := [{ target := some 11 }], content := cRR }), (11, { name := nmC, idcode := .ID_OB, lib := some 100, tags := { doit := true }, us := uC, content := cC })], nextKey := 12 } : MainDB) [1, 2, 10, 11] 10 =
    (({ ids := [(1, { name := nmR, idcode := .ID_OB, tags := { doit := true }, us := uR, override_library := some { reference := some 10, properties := ps }, content := cR }), (2, { name := nmU, idcode := .ID_OB, us := uU, links := [{ target := some 1 }], content := cU }), (10, { name := nmRR, idcode := .ID_OB, lib := some 100, tags := { doit := true }, us := uRR, links := [{ target := some 11 }], content := cRR }), (11, { name := nmC, idcode := .ID_OB, lib := some 100, tags := { doit := true }, us := uC, content := cC })], nextKey := 12 } : MainDB), [1, 2], true) := rfl
  have flink : lib_override_linked_group_tag ({ ids := [(1, { name := nmR, idcode := .ID_OB, tags := { doit := true }, us := uR, override_library := some { reference := some 10, properties := ps }, content := cR }), (2, { name := nmU, idcode := .ID_OB, us := uU, links := [{ target := some 1 }], content := cU }), (10, { name := nmRR, idcode := .ID_OB, lib := some 100, us := uRR, links := [{ target := some 11 }], content := cRR }), (11, { name := nmC, idcode := .ID_OB, lib := some 100, us := uC, content := cC })], nextKey := 12 } : MainDB) 10 maskDOIT
      maskMISSING =
    ({ ids := [(1, { name := nmR, idcode := .ID_OB, tags := { doit := true }, us := uR, override_library := some { reference := some 10, properties := ps }, content := cR }), (2, { name := nmU, idcode := .ID_OB, us := uU, links := [{ target := some 1 }], content := cU }), (10, { name := nmRR, idcode := .ID_OB, lib := some 100, tags := { doit := true }, us := uRR, links := [{ target := some 11 }], content := cRR }), (11, { name := nmC, idcode := .ID_OB, lib := some 100, tags := { doit := true }, us := uC, content := cC })], nextKey := 12 } : MainDB) := by
    simp [lib_override_linked_group_tag, mainTotalLinks, frel, frootL,
      fwalk, fbone, fdep]
  have h1 : resync_tag_phase (c1main nmR nmU nmRR nmC uR uU uRR uC cR cU cRR cC ps) 1 =
    ({ ids := [(1, { name := nmR, idcode := .ID_OB, tags := { doit := true }, us := uR, override_library := some { reference := some 10, properties := ps }, content := cR }), (2, { name := nmU, idcode := .ID_OB, us := uU, links := [{ target := some 1 }], content := cU }), (10, { name := nmRR, idcode := .ID_OB, lib := some 100, tags := { doit := true }, us := uRR, links := [{ target := some 11 }], content := cRR }), (11, { name := nmC, idcode := .ID_OB, lib := some 100, tags := { doit := true }, us := uC, content := cC })], nextKey := 12 } : MainDB) := by
    simp only [resync_tag_phase, f0, floc, fov, flink]
  have h2 : resync_linkedref_to_old
    ({ ids := [(1, { name := nmR, idcode := .ID_OB, tags := { doit := true }, us := uR, override_library := some { reference := some 10, properties := ps }, content := cR }), (2, { name := nmU, idcode := .ID_OB, us := uU, links := [{ target := some 1 }], content := cU }), (10, { name := nmRR, idcode := .ID_OB, lib := some 100, tags := { doit := true }, us := uRR, links := [{ target := some 11 }], content := cRR }), (11, { name := nmC, idcode := .ID_OB, lib := some 100, tags := { doit := true }, us := uC, content := cC })], nextKey := 12 } : MainDB) = [(10, 1)] := rfl
  have h3a : create_from_tag_todo
    ({ ids := [(1, { name := nmR, idcode := .ID_OB, tags := { doit := true }, us := uR, override_library := some { reference := some 10, properties := ps }, content := cR }), (2, { name := nmU, idcode := .ID_OB, us := uU, links := [{ target := some 1 }], content := cU }), (10, { name := nmRR, idcode := .ID_OB, lib := some 100, tags := { doit := true }, us := uRR, links := [{ target := some 11 }], content := cRR }), (11, { name := nmC, idcode := .ID_OB, lib := some 100, tags := { doit := true }, us := uC, content := cC })], nextKey := 12 } : MainDB) = [10, 11] := rfl
  have e1 : lib_override_library_create_from (fun _ => false)
    ({ ids := [(1, { name := nmR, idcode := .ID_OB, tags := { doit := true }, us := uR, override_library := some { reference := some 10, properties := ps }, content := cR }), (2, { name := nmU, idcode := .ID_OB, us := uU, links := [{ target := some 1 }], content := cU }), (10, { name := nmRR, idcode := .ID_OB, lib := some 100, tags := { doit := true }, us := uRR, links := [{ target := some 11 }], content := cRR }), (11, { name := nmC, idcode := .ID_OB, lib := some 100, tags := { doit := true }, us := uC, content := cC })], nextKey := 12 } : MainDB) 10 =
    (some 12, ({ ids := [(1, { name := nmR, idcode := .ID_OB, tags := { doit := true }, us := uR, override_library := some { reference := some 10, properties := ps }, content := cR }), (2, { name := nmU, idcode := .ID_OB, us := uU, links := [{ target := some 1 }], content := cU }), (10, { name := nmRR, idcode := .ID_OB, lib := some 100, tags := { doit := true }, us := uRR + 1, links := [{ target := some 11 }], content := cRR }), (11, { name := nmC, idcode := .ID_OB, lib := some 100, tags := { doit := true }, us := uC, content := cC }), (12, { name := nmRR, idcode := .ID_OB, us := 0, override_library := some { reference := some 10 }, links := [{ target := some 11 }], content := cRR })], nextKey := 13 } : MainDB)) := rfl
  have e2 : (({ ids := [(1, { name := nmR, idcode := .ID_OB, tags := { doit := true }, us := uR, override_library := some { reference := some 10, properties := ps }, content := cR }), (2, { name := nmU, idcode := .ID_OB, us := uU, links := [{ target := some 1 }], content := cU }), (10, { name := nmRR, idcode := .ID_OB, lib := some 100, tags := { doit := true }, us := uRR, links := [{ target := some 11 }], content := cRR }), (11, { name := nmC, idcode := .ID_OB, lib := some 100, tags := { doit := true }, us := uC, content := cC })], nextKey := 12 } : MainDB)).lookup 10 =
    some { name := nmRR, idcode := .ID_OB, lib := some 100, tags := { doit := true }, us := uRR, links := [{ target := some 11 }], content := cRR } := rfl
  have e3 : (({ ids := [(1, { name := nmR, idcode := .ID_OB, tags := { doit := true }, us := uR, override_library := some { reference := some 10, properties := ps }, content := cR }), (2, { name := nmU, idcode := .ID_OB, us := uU, links := [{ target := some 1 }], content := cU }), (10, { name := nmRR, idcode := .ID_OB, lib := some 100, tags := { doit := true }, us := uRR + 1, links := [{ target := some 11 }], content := cRR }), (11, { name := nmC, idcode := .ID_OB, lib := some 100, tags := { doit := true }, us := uC, content := cC }), (12, { name := nmRR, idcode := .ID_OB, us := 0, override_library := some { reference := some 10 }, links := [{ target := some 11 }], content := cRR })], nextKey := 13 } : MainDB)).updateId 10 (fun i => { i with newid := some 12 }) =
    ({ ids := [(1, { name := nmR, idcode := .ID_OB, tags := { doit := true }, us := uR, override_library := some { reference := some 10, properties := ps }, content := cR }), (2, { name := nmU, idcode := .ID_OB, us := uU, links := [{ target := some 1 }], content := cU }), (10, { name := nmRR, idcode := .ID_OB, lib := some 100, tags := { doit := true }, us := uRR + 1, newid := some 12, links := [{ target := some 11 }], content := cRR }), (11, { name := nmC, idcode := .ID_OB, lib := some 100, tags := { doit := true }, us := uC, content := cC }), (12, { name := nmRR, idcode := .ID_OB, us := 0, override_library := some { reference := some 10 }, links := [{ target := some 11 }], content := cRR })], nextKey := 13 } : MainDB) := rfl
  have e4 : ((({ ids := [(1, { name := nmR, idcode := .ID_OB, tags := { doit := true }, us := uR, override_library := some { reference := some 10, properties := ps }, content := cR }), (2, { name := nmU, idcode := .ID_OB, us := uU, links := [{ target := some 1 }], content := cU }), (10, { name := nmRR, idcode := .ID_OB, lib := some 100, tags := { doit := true }, us := uRR + 1, newid := some 12, links := [{ target := some 11 }], content := cRR }), (11, { name := nmC, idcode := .ID_OB, lib := some 100, tags := { doit := true }, us := uC, content := cC }), (12, { name := nmRR, idcode := .ID_OB, us := 0, override_library := some { reference := some 10 }, links := [{ target := some 11 }], content := cRR })], nextKey := 13 } : MainDB)).lookup 10).bind (fun i => i.newid) = some 12 := rfl
  have e5 : (({ ids := [(1, { name := nmR, idcode := .ID_OB, tags := { doit := true }, us := uR, override_library := some { reference := some 10, properties := ps }, content := cR }), (2, { name := nmU, idcode := .ID_OB, us := uU, links := [{ target := some 1 }], content := cU }), (10, { name := nmRR, idcode := .ID_OB, lib := some 100, tags := { doit := true }, us := uRR + 1, newid := some 12, links := [{ target := some 11 }], content := cRR }), (11, { name := nmC, idcode := .ID_OB, lib := some 100, tags := { doit := true }, us := uC, content := cC }), (12, { name := nmRR, idcode := .ID_OB, us := 0, override_library := some { reference := some 10 }, links := [{ target := some 11 }], content := cRR })], nextKey := 13 } : MainDB)).updateId 12
      (fun i => { i with tags := { i.tags with doit := true } }) =
    ({ ids := [(1, { name := nmR, idcode := .ID_OB, tags := { doit := true }, us := uR, override_library := some { reference := some 10, properties := ps }, content := cR }), (2, { name := nmU, idcode := .ID_OB, us := uU, links := [{ target := some 1 }], content := cU }), (10, { name := nmRR, idcode := .ID_OB, lib := some 100, tags := { doit := true }, us := uRR + 1, newid := some 12, links := [{ target := some 11 }], content := cRR }), (11, { name := nmC, idcode := .ID_OB, lib := some 100, tags := { doit := true }, us := uC, content := cC }), (12, { name := nmRR, idcode := .ID_OB, tags := { doit := true }, us := 0, override_library := some { reference := some 10 }, links := [{ target := some 11 }], content := cRR })], nextKey := 13 } : MainDB) := rfl
  have e6 : ((({ ids := [(1, { name := nmR, idcode := .ID_OB, tags := { doit := true }, us := uR, override_library := some { reference := some 10, properties := ps }, content := cR }), (2, { name := nmU, idcode := .ID_OB, us := uU, links := [{ target := some 1 }], content := cU }), (10, { name := nmRR, idcode := .ID_OB, lib := some 100, tags := { doit := true }, us := uRR + 1, newid := some 12, links := [{ target := some 11 }], content := cRR }), (11, { name := nmC, idcode := .ID_OB, lib := some 100, tags := { doit := true }, us := uC, content := cC }), (12, { name := nmRR, idcode := .ID_OB, tags := { doit := true }, us := 0, override_library := some { reference := some 10 }, links := [{ target := some 11 }], content := cRR })], nextKey := 13 } : MainDB)).lookup 10).bind (fun i => i.key_ref) = none := rfl
  have e7 : lib_override_library_create_from (fun _ => false)
    ({ ids := [(1, { name := nmR, idcode := .ID_OB, tags := { doit := true }, us := uR, override_library := some { reference := some 10, properties := ps }, content := cR }), (2, { name := nmU, idcode := .ID_OB, us := uU, links := [{ target := some 1 }], content := cU }), (10, { name := nmRR, idcode := .ID_OB, lib := some 100, tags := { doit := true }, us := uRR + 1, newid := some 12, links := [{ target := some 11 }], content := cRR }), (11, { name := nmC, idcode := .ID_OB, lib := some 100, tags := { doit := true }, us := uC, content := cC }), (12, { name := nmRR, idcode := .ID_OB, tags := { doit := true }, us := 0, override_library := some { reference := some 10 }, links := [{ target := some 11 }], content := cRR })], nextKey := 13 } : MainDB) 11 =
    (some 13, ({ ids := [(1, { name := nmR, idcode := .ID_OB, tags := { doit := true }, us := uR, override_library := some { reference := some 10, properties := ps }, content := cR }), (2, { name := nmU, idcode := .ID_OB, us := uU, links := [{ target := some 1 }], content := cU }), (10, { name := nmRR, idcode := .ID_OB, lib := some 100, tags := { doit := true }, us := uRR + 1, newid := some 12, links := [{ target := some 11 }], content := cRR }), (11, { name := nmC, idcode := .ID_OB, lib := some 100, tags := { doit := true }, us := uC + 1, content := cC }), (12, { name := nmRR, idcode := .ID_OB, tags := { doit := true }, us := 0, override_library := some { reference := some 10 }, links := [{ target := some 11 }], content := cRR }), (13, { name := nmC, idcode := .ID_OB, us := 0, override_library := some { reference := some 11 }, content := cC })], nextKey := 14 } : MainDB)) := rfl
  have e8 : (({ ids := [(1, { name := nmR, idcode := .ID_OB, tags := { doit := true }, us := uR, override_library := some { reference := some 10, properties := ps }, content := cR }), (2, { name := nmU, idcode := .ID_OB, us := uU, links := [{ target := some 1 }], content := cU }), (10, { name := nmRR, idcode := .ID_OB, lib := some 100, tags := { doit := true }, us := uRR + 1, newid := some 12, links := [{ target := some 11 }], content := cRR }), (11, { name := nmC, idcode := .ID_OB, lib := some 100, tags := { doit := true }, us := uC, content := cC }), (12, { name := nmRR, idcode := .ID_OB, tags := { doit := true }, us := 0, override_library := some { reference := some 10 }, links := [{ target := some 11 }], content := cRR })], nextKey := 13 } : MainDB)).lookup 11 =
    some { name := nmC, idcode := .ID_OB, lib := some 100, tags := { doit := true }, us := uC, content := cC } := rfl
  have e9 : (({ ids := [(1, { name := nmR, idcode := .ID_OB, tags := { doit := true }, us := uR, override_library := some { reference := some 10, properties := ps }, content := cR }), (2, { name := nmU, idcode := .ID_OB, us := uU, links := [{ target := some 1 }], content := cU }), (10, { name := nmRR, idcode := .ID_OB, lib := some 100, tags := { doit := true }, us := uRR + 1, newid := some 12, links := [{ target := some 11 }], content := cRR }), (11, { name := nmC, idcode := .ID_OB, lib := some 100, tags := { doit := true }, us := uC + 1, content := cC }), (12, { name := nmRR, idcode := .ID_OB, tags := { doit := true }, us := 0, override_library := some { reference := some 10 }, links := [{ target := some 11 }], content := cRR }), (13, { name := nmC, idcode := .ID_OB, us := 0, override_library := some { reference := some 11 }, content := cC })], nextKey := 14 } : MainDB)).updateId 11 (fun i => { i with newid := some 13 }) =
    ({ ids := [(1, { name := nmR, idcode := .ID_OB, tags := { doit := true }, us := uR, override_library := some { reference := some 10, properties := ps }, content := cR }), (2, { name := nmU, idcode := .ID_OB, us := uU, links := [{ target := some 1 }], content := cU }), (10, { name := nmRR, idcode := .ID_OB, lib := some 100, tags := { doit := true }, us := uRR + 1, newid := some 12, links := [{ target := some 11 }], content := cRR }), (11, { name := nmC, idcode := .ID_OB, lib := some 100, tags := { doit := true }, us := uC + 1, newid := some 13, content := cC }), (12, { name := nmRR, idcode := .ID_OB, tags := { doit := true }, us := 0, override_library := some { reference := some 10 }, links := [{ target := some 11 }], content := cRR }), (13, { name := nmC, idcode := .ID_OB, us := 0, override_library := some { reference := some 11 }, content := cC })], nextKey := 14 } : MainDB) := rfl
  have e10 : ((({ ids := [(1, { name := nmR, idcode := .ID_OB, tags := { doit := true }, us := uR, override_library := some { reference := some 10, properties := ps }, content := cR }), (2, { name := nmU, idcode := .ID_OB, us := uU, links := [{ target := some 1 }], content := cU }), (10, { name := nmRR, idcode := .ID_OB, lib := some 100, tags := { doit := true }, us := uRR + 1, newid := some 12, links := [{ target := some 11 }], content := cRR }), (11, { name := nmC, idcode := .ID_OB, lib := some 100, tags := { doit := true }, us := uC + 1, newid := some 13, content := cC }), (12, { name := nmRR, idcode := .ID_OB, tags := { doit := true }, us := 0, override_library := some { reference := some 10 }, links := [{ target := some 11 }], content := cRR }), (13, { name := nmC, idcode := .ID_OB, us := 0, override_library := some { reference := some 11 }, content := cC })], nextKey := 14 } : MainDB)).lookup 11).bind (fun i => i.newid) = some 13 := rfl
  have e11 : (({ ids := [(1, { name := nmR, idcode := .ID_OB, tags := { doit := true }, us := uR, override_library := some { reference := some 10, properties := ps }, content := cR }), (2, { name := nmU, idcode := .ID_OB, us := uU, links := [{ target := some 1 }], content := cU }), (10, { name := nmRR, idcode := .ID_OB, lib := some 100, tags := { doit := true }, us := uRR + 1, newid := some 12, links := [{ target := some 11 }], content := cRR }), (11, { name := nmC, idcode := .ID_OB, lib := some 100, tags := { doit := true }, us := uC + 1, newid := some 13, content := cC }), (12, { name := nmRR, idcode := .ID_OB, tags := { doit := true }, us := 0, override_library := some { reference := some 10 }, links := [{ target := some 11 }], content := cRR }), (13, { name := nmC, idcode := .ID_OB, us := 0, override_library := some { reference := some 11 }, content := cC })], nextKey := 14 } : MainDB)).updateId 13
      (fun i => { i with tags := { i.tags with doit := true } }) =
    ({ ids := [(1, { name := nmR, idcode := .ID_OB, tags := { doit := true }, us := uR, override_library := some { reference := some 10, properties := ps }, content := cR }), (2, { name := nmU, idcode := .ID_OB, us := uU, links := [{ target := some 1 }], content := cU }), (10, { name := nmRR, idcode := .ID_OB, lib := some 100, tags := { doit := true }, us := uRR + 1, newid := some 12, links := [{ target := some 11 }], content := cRR }), (11, { name := nmC, idcode := .ID_OB, lib := some 100, tags := { doit := true }, us := uC + 1, newid := some 13, content := cC }), (12, { name := nmRR, idcode := .ID_OB, tags := { doit := true }, us := 0, override_library := some { reference := some 10 }, links := [{ target := some 11 }], content := cRR }), (13, { name := nmC, idcode := .ID_OB, tags := { doit := true }, us := 0, override_library := some { reference := some 11 }, content := cC })], nextKey := 14 } : MainDB) := rfl
  have e12 : ((({ ids := [(1, { name := nmR, idcode := .ID_OB, tags := { doit := true }, us := uR, override_library := some { reference := some 10, properties := ps }, content := cR }), (2, { name := nmU, idcode := .ID_OB, us := uU, links := [{ target := some 1 }], content := cU }), (10, { name := nmRR, idcode := .ID_OB, lib := some 100, tags := { doit := true }, us := uRR + 1, newid := some 12, links := [{ target := some 11 }], content := cRR }), (11, { name := nmC, idcode := .ID_OB, lib := some 100, tags := { doit := true }, us := uC + 1, newid := some 13, content := cC }), (12, { name := nmRR, idcode := .ID_OB, tags := { doit := true }, us := 0, override_library := some { reference := some 10 }, links := [{ target := some 11 }], content := cRR }), (13, { name := nmC, idcode := .ID_OB, tags := { doit := true }, us := 0, override_library := some { reference := some 11 }, content := cC })], nextKey := 14 } : MainDB)).lookup 11).bind (fun i => i.key_ref) = none := rfl
  have h3b : create_from_tag_loop (fun _ => false)
    ({ ids := [(1, { name := nmR, idcode := .ID_OB, tags := { doit := true }, us := uR, override_library := some { reference := some 10, properties := ps }, content := cR }), (2, { name := nmU, idcode := .ID_OB, us := uU, links := [{ target := some 1 }], content := cU }), (10, { name := nmRR, idcode := .ID_OB, lib := some 100, tags := { doit := true }, us := uRR, links := [{ target := some 11 }], content := cRR }), (11, { name := nmC, idcode := .ID_OB, lib := some 100, tags := { doit := true }, us := uC, content := cC })], nextKey := 12 } : MainDB) [10, 11] =
    (true, ({ ids := [(1, { name := nmR, idcode := .ID_OB, tags := { doit := true }, us := uR, override_library := some { reference := some 10, properties := ps }, content := cR }), (2, { name := nmU, idcode := .ID_OB, us := uU, links := [{ target := some 1 }], content := cU }), (10, { name := nmRR, idcode := .ID_OB, lib := some 100, tags := { doit := true }, us := uRR + 1, newid := some 12, links := [{ target := some 11 }], content := cRR }), (11, { name := nmC, idcode := .ID_OB, lib := some 100, tags := { doit := true }, us := uC + 1, newid := some 13, content := cC }), (12, { name := nmRR, idcode := .ID_OB, tags := { doit := true }, us := 0, override_library := some { reference := some 10 }, links := [{ target := some 11 }], content := cRR }), (13, { name := nmC, idcode := .ID_OB, tags := { doit := true }, us := 0, override_library := some { reference := some 11 }, content := cC })], nextKey := 14 } : MainDB)) := by
    simp [create_from_tag_loop, e1, e2, e3, e4, e5, e6, e7, e8, e9, e10,
      e11, e12]
  have h3c : create_from_tag_remap
    ({ ids := [(1, { name := nmR, idcode := .ID_OB, tags := { doit := true }, us := uR, override_library := some { reference := some 10, properties := ps }, content := cR }), (2, { name := nmU, idcode := .ID_OB, us := uU, links := [{ target := some 1 }], content := cU }), (10, { name := nmRR, idcode := .ID_OB, lib := some 100, tags := { doit := true }, us := uRR + 1, newid := some 12, links := [{ target := some 11 }], content := cRR }), (11, { name := nmC, idcode := .ID_OB, lib := some 100, tags := { doit := true }, us := uC + 1, newid := some 13, content := cC }), (12, { name := nmRR, idcode := .ID_OB, tags := { doit := true }, us := 0, override_library := some { reference := some 10 }, links := [{ target := some 11 }], content := cRR }), (13, { name := nmC, idcode := .ID_OB, tags := { doit := true }, us := 0, override_library := some { reference := some 11 }, content := cC })], nextKey := 14 } : MainDB) [10, 11] =
    ({ ids := [(1, { name := nmR, idcode := .ID_OB, tags := { doit := true }, us := uR, override_library := some { reference := some 10, properties := ps }, content := cR }), (2, { name := nmU, idcode := .ID_OB, us := uU, links := [{ target := some 1 }], content := cU }), (10, { name := nmRR, idcode := .ID_OB, lib := some 100, tags := { doit := true }, us := uRR + 1, newid := some 12, links := [{ target := some 11 }], content := cRR }), (11, { name := nmC, idcode := .ID_OB, lib := some 100, tags := { doit := true }, us := uC + 1, newid := some 13, content := cC }), (12, { name := nmRR, idcode := .ID_OB, tags := { doit := true }, us := 0, override_library := some { reference := some 10 }, links := [{ target := some 13 }], content := cRR }), (13, { name := nmC, idcode := .ID_OB, tags := { doit := true }, us := 0, override_library := some { reference := some 11 }, content := cC })], nextKey := 14 } : MainDB) := rfl
  have h3 : BKE_lib_override_library_create_from_tag (fun _ => false)
    ({ ids := [(1, { name := nmR, idcode := .ID_OB, tags := { doit := true }, us := uR, override_library := some { reference := some 10, properties := ps }, content := cR }), (2, { name := nmU, idcode := .ID_OB, us := uU, links := [{ target := some 1 }], content := cU }), (10, { name := nmRR, idcode := .ID_OB, lib := some 100, tags := { doit := true }, us := uRR, links := [{ target := some 11 }], content := cRR }), (11, { name := nmC, idcode := .ID_OB, lib := some 100, tags := { doit := true }, us := uC, content := cC })], nextKey := 12 } : MainDB) =
    (true, ({ ids := [(1, { name := nmR, idcode := .ID_OB, tags := { doit := true }, us := uR, override_library := some { reference := some 10, properties := ps }, content := cR }), (2, { name := nmU, idcode := .ID_OB, us := uU, links := [{ target := some 1 }], content := cU }), (10, { name := nmRR, idcode := .ID_OB, lib := some 100, tags := { doit := true }, us := uRR + 1, newid := some 12, links := [{ target := some 11 }], content := cRR }), (11, { name := nmC, idcode := .ID_OB, lib := some 100, tags := { doit := true }, us := uC + 1, newid := some 13, content := cC }), (12, { name := nmRR, idcode := .ID_OB, tags := { doit := true }, us := 0, override_library := some { reference := some 10 }, links := [{ target := some 13 }], content := cRR }), (13, { name := nmC, idcode := .ID_OB, tags := { doit := true }, us := 0, override_library := some { reference := some 11 }, content := cC })], nextKey := 14 } : MainDB)) := by
    simp only [BKE_lib_override_library_create_from_tag, h3a, h3b, h3c]
  have h4 : resync_swap_phase
    ({ ids := [(1, { name := nmR, idcode := .ID_OB, tags := { doit := true }, us := uR, override_library := some { reference := some 10, properties := ps }, content := cR }), (2, { name := nmU, idcode := .ID_OB, us := uU, links := [{ target := some 1 }], content := cU }), (10, { name := nmRR, idcode := .ID_OB, lib := some 100, tags := { doit := true }, us := uRR + 1, newid := some 12, links := [{ target := some 11 }], content := cRR }), (11, { name := nmC, idcode := .ID_OB, lib := some 100, tags := { doit := true }, us := uC + 1, newid := some 13, content := cC }), (12, { name := nmRR, idcode := .ID_OB, tags := { doit := true }, us := 0, override_library := some { reference := some 10 }, links := [{ target := some 13 }], content := cRR }), (13, { name := nmC, idcode := .ID_OB, tags := { doit := true }, us := 0, override_library := some { reference := some 11 }, content := cC })], nextKey := 14 } : MainDB) [(10, 1)] =
    ({ ids := [(12, { name := nmR, idcode := .ID_OB, tags := { doit := true }, us := 0, override_library := some { reference := some 10, properties := ps }, links := [{ target := some 13 }], content := cRR }), (2, { name := nmU, idcode := .ID_OB, us := uU, links := [{ target := some 12 }], content := cU }), (10, { name := nmRR, idcode := .ID_OB, lib := some 100, tags := { doit := true }, us := uRR + 1, newid := some 12, links := [{ target := some 11 }], content := cRR }), (11, { name := nmC, idcode := .ID_OB, lib := some 100, tags := { doit := true }, us := uC + 1, newid := some 13, content := cC }), (1, { name := nmRR, idcode := .ID_OB, tags := { doit := true }, us := uR, override_library := some { reference := some 10, properties := ps }, content := cR }), (13, { name := nmC, idcode := .ID_OB, tags := { doit := true }, us := 0, override_library := some { reference := some 11 }, content := cC })], nextKey := 14 } : MainDB) := rfl
  have h5 : resync_apply_phase rna_apply
    ({ ids := [(12, { name := nmR, idcode := .ID_OB, tags := { doit := true }, us := 0, override_library := some { reference := some 10, properties := ps }, links := [{ target := some 13 }], content := cRR }), (2, { name := nmU, idcode := .ID_OB, us := uU, links := [{ target := some 12 }], content := cU }), (10, { name := nmRR, idcode := .ID_OB, lib := some 100, tags := { doit := true }, us := uRR + 1, newid := some 12, links := [{ target := some 11 }], content := cRR }), (11, { name := nmC, idcode := .ID_OB, lib := some 100, tags := { doit := true }, us := uC + 1, newid := some 13, content := cC }), (1, { name := nmRR, idcode := .ID_OB, tags := { doit := true }, us := uR, override_library := some { reference := some 10, properties := ps }, content := cR }), (13, { name := nmC, idcode := .ID_OB, tags := { doit := true }, us := 0, override_library := some { reference := some 11 }, content := cC })], nextKey := 14 } : MainDB) [(10, 1)] =
    ({ ids := [(12, { name := nmR, idcode := .ID_OB, tags := { doit := true }, us := 0, override_library := some { reference := some 10, properties := c1filt ps }, links := [{ target := some 13 }], content := rna_apply { name := nmR, idcode := .ID_OB, tags := { doit := true }, us := 0, override_library := some { reference := some 10, properties := c1filt ps }, links := [{ target := some 13 }], content := cRR } { name := nmRR, idcode := .ID_OB, tags := { doit := true }, us := uR, override_library := some { reference := some 10, properties := ps }, content := cR } none { reference := some 10, properties := c1filt ps } }), (2, { name := nmU, idcode := .ID_OB, us := uU, links := [{ target := some 12 }], content := cU }), (10, { name := nmRR, idcode := .ID_OB, lib := some 100, tags := { doit := true }, us := uRR + 1, newid := some 12, links := [{ target := some 11 }], content := cRR }), (11, { name := nmC, idcode := .ID_OB, lib := some 100, tags := { doit := true }, us := uC + 1, newid := some 13, content := cC }), (1, { name := nmRR, idcode := .ID_OB, tags := { doit := true }, us := uR, override_library := some { reference := some 10, properties := ps }, content := cR }), (13, { name := nmC, idcode := .ID_OB, tags := { doit := true }, us := 0, override_library := some { reference := some 11 }, content := cC })], nextKey := 14 } : MainDB) := rfl
  have h6 : resync_delete_select
    ({ ids := [(12, { name := nmR, idcode := .ID_OB, tags := { doit := true }, us := 0, override_library := some { reference := some 10, properties := c1filt ps }, links := [{ target := some 13 }], content := rna_apply { name := nmR, idcode := .ID_OB, tags := { doit := true }, us := 0, override_library := some { reference := some 10, properties := c1filt ps }, links := [{ target := some 13 }], content := cRR } { name := nmRR, idcode := .ID_OB, tags := { doit := true }, us := uR, override_library := some { reference := some 10, properties := ps }, content := cR } none { reference := some 10, properties := c1filt ps } }), (2, { name := nmU, idcode := .ID_OB, us := uU, links := [{ target := some 12 }], content := cU }), (10, { name := nmRR, idcode := .ID_OB, lib := some 100, tags := { doit := true }, us := uRR + 1, newid := some 12, links := [{ target := some 11 }], content := cRR }), (11, { name := nmC, idcode := .ID_OB, lib := some 100, tags := { doit := true }, us := uC + 1, newid := some 13, content := cC }), (1, { name := nmRR, idcode := .ID_OB, tags := { doit := true }, us := uR, override_library := some { reference := some 10, properties := ps }, content := cR }), (13, { name := nmC, idcode := .ID_OB, tags := { doit := true }, us := 0, override_library := some { reference := some 11 }, content := cC })], nextKey := 14 } : MainDB) [(10, 1)] =
    ({ ids := [(12, { name := nmR, idcode := .ID_OB, us := 0, override_library := some { reference := some 10, properties := c1filt ps }, links := [{ target := some 13 }], content := rna_apply { name := nmR, idcode := .ID_OB, tags := { doit := true }, us := 0, override_library := some { reference := some 10, properties := c1filt ps }, links := [{ target := some 13 }], content := cRR } { name := nmRR, idcode := .ID_OB, tags := { doit := true }, us := uR, override_library := some { reference := some 10, properties := ps }, content := cR } none { reference := some 10, properties := c1filt ps } }), (2, { name := nmU, idcode := .ID_OB, us := uU, links := [{ target := some 12 }], content := cU }), (10, { name := nmRR, idcode := .ID_OB, lib := some 100, us := uRR + 1, newid := some 12, links := [{ target := some 11 }], content := cRR }), (11, { name := nmC, idcode := .ID_OB, lib := some 100, us := uC + 1, newid := some 13, content := cC }), (1, { name := nmRR, idcode := .ID_OB, tags := { doit := true }, us := uR, override_library := some { reference := some 10, properties := ps }, content := cR }), (13, { name := nmC, idcode := .ID_OB, us := 0, override_library := some { reference := some 11 }, content := cC })], nextKey := 14 } : MainDB) := rfl
  have h7 : multi_tagged_delete
    ({ ids := [(12, { name := nmR, idcode := .ID_OB, us := 0, override_library := some { reference := some 10, properties := c1filt ps }, links := [{ target := some 13 }], content := rna_apply { name := nmR, idcode := .ID_OB, tags := { doit := true }, us := 0, override_library := some { reference := some 10, properties := c1filt ps }, links := [{ target := some 13 }], content := cRR } { name := nmRR, idcode := .ID_OB, tags := { doit := true }, us := uR, override_library := some { reference := some 10, properties := ps }, content := cR } none { reference := some 10, properties := c1filt ps } }), (2, { name := nmU, idcode := .ID_OB, us := uU, links := [{ target := some 12 }], content := cU }), (10, { name := nmRR, idcode := .ID_OB, lib := some 100, us := uRR + 1, newid := some 12, links := [{ target := some 11 }], content := cRR }), (11, { name := nmC, idcode := .ID_OB, lib := some 100, us := uC + 1, newid := some 13, content := cC }), (1, { name := nmRR, idcode := .ID_OB, tags := { doit := true }, us := uR, override_library := some { reference := some 10, properties := ps }, content := cR }), (13, { name := nmC, idcode := .ID_OB, us := 0, override_library := some { reference := some 11 }, content := cC })], nextKey := 14 } : MainDB) =
    ({ ids := [(12, { name := nmR, idcode := .ID_OB, us := 0, override_library := some { reference := some 10, properties := c1filt ps }, links := [{ target := some 13 }], content := rna_apply { name := nmR, idcode := .ID_OB, tags := { doit := true }, us := 0, override_library := some { reference := some 10, properties := c1filt ps }, links := [{ target := some 13 }], content := cRR } { name := nmRR, idcode := .ID_OB, tags := { doit := true }, us := uR, override_library := some { reference := some 10, properties := ps }, content := cR } none { reference := some 10, properties := c1filt ps } }), (2, { name := nmU, idcode := .ID_OB, us := uU, links := [{ target := some 12 }], content := cU }), (10, { name := nmRR, idcode := .ID_OB, lib := some 100, us := uRR + 1, newid := some 12, links := [{ target := some 11 }], content := cRR }), (11, { name := nmC, idcode := .ID_OB, lib := some 100, us := uC + 1, newid := some 13, content := cC }), (13, { name := nmC, idcode := .ID_OB, us := 0, override_library := some { reference := some 11 }, content := cC })], nextKey := 14 } : MainDB) := rfl
  have h8 : main_tag_all_clear_doit (main_clear_newpoins
    ({ ids := [(12, { name := nmR, idcode := .ID_OB, us := 0, override_library := some { reference := some 10, properties := c1filt ps }, links := [{ target := some 13 }], content := rna_apply { name := nmR, idcode := .ID_OB, tags := { doit := true }, us := 0, override_library := some { reference := some 10, properties := c1filt ps }, links := [{ target := some 13 }], content := cRR } { name := nmRR, idcode := .ID_OB, tags := { doit := true }, us := uR, override_library := some { reference := some 10, properties := ps }, content := cR } none { reference := some 10, properties := c1filt ps } }), (2, { name := nmU, idcode := .ID_OB, us := uU, links := [{ target := some 12 }], content := cU }), (10, { name := nmRR, idcode := .ID_OB, lib := some 100, us := uRR + 1, newid := some 12, links := [{ target := some 11 }], content := cRR }), (11, { name := nmC, idcode := .ID_OB, lib := some 100, us := uC + 1, newid := some 13, content := cC }), (13, { name := nmC, idcode := .ID_OB, us := 0, override_library := some { reference := some 11 }, content := cC })], nextKey := 14 } : MainDB)) =
    ({ ids := [(12, { name := nmR, idcode := .ID_OB, us := 0, override_library := some { reference := some 10, properties := c1filt ps }, links := [{ target := some 13 }], content := rna_apply { name := nmR, idcode := .ID_OB, tags := { doit := true }, us := 0, override_library := some { reference := some 10, properties := c1filt ps }, links := [{ target := some 13 }], content := cRR } { name := nmRR, idcode := .ID_OB, tags := { doit := true }, us := uR, override_library := some { reference := some 10, properties := ps }, content := cR } none { reference := some 10, properties := c1filt ps } }), (2, { name := nmU, idcode := .ID_OB, us := uU, links := [{ target := some 12 }], content := cU }), (10, { name := nmRR, idcode := .ID_OB, lib := some 100, us := uRR + 1, links := [{ target := some 11 }], content := cRR }), (11, { name := nmC, idcode := .ID_OB, lib := some 100, us := uC + 1, content := cC }), (13, { name := nmC, idcode := .ID_OB, us := 0, override_library := some { reference := some 11 }, content := cC })], nextKey := 14 } : MainDB) := rfl
  have hmain : BKE_lib_override_library_resync (fun _ => false) rna_apply
      (c1main nmR nmU nmRR nmC uR uU uRR uC cR cU cRR cC ps) 1 =
      (true, ({ ids := [(12, { name := nmR, idcode := .ID_OB, us := 0, override_library := some { reference := some 10, properties := c1filt ps }, links := [{ target := some 13 }], content := rna_apply { name := nmR, idcode := .ID_OB, tags := { doit := true }, us := 0, override_library := some { reference := some 10, properties := c1filt ps }, links := [{ target := some 13 }], content := cRR } { name := nmRR, idcode := .ID_OB, tags := { doit := true }, us := uR, override_library := some { reference := some 10, properties := ps }, content := cR } none { reference := some 10, properties := c1filt ps } }), (2, { name := nmU, idcode := .ID_OB, us := uU, links := [{ target := some 12 }], content := cU }), (10, { name := nmRR, idcode := .ID_OB, lib := some 100, us := uRR + 1, links := [{ target := some 11 }], content := cRR }), (11, { name := nmC, idcode := .ID_OB, lib := some 100, us := uC + 1, content := cC }), (13, { name := nmC, idcode := .ID_OB, us := 0, override_library := some { reference := some 11 }, content := cC })], nextKey := 14 } : MainDB)) := by
    simp only [BKE_lib_override_library_resync, h1, h2, h3, h4, h5, h6, h7,
      h8]
  refine ⟨?_, ?_, ?_, ?_, ?_, ?_, ?_⟩
  · rw [hmain]
  · rw [hmain]
    rfl
  · rw [hmain]
    rfl
  · rw [hmain]
    rfl
  · rw [hmain]
    rfl
  · rw [hmain]
    rfl
  · intro k hk i hi hl e he
    rw [hmain] at hi
    fin_cases hk
    · have h12 : i.links.map (fun e => e.target) = [some 13] := by
        have h0 := Option.some_inj.mp hi
        rw [← h0]
        rfl
      have h13 : e.target ∈ i.links.map (fun e => e.target) :=
        List.mem_map_of_mem _ he
      rw [h12] at h13
      rw [List.mem_singleton.mp h13]
      decide
    · have h12 : i.links.map (fun e => e.target) = [some 12] := by
        have h0 := Option.some_inj.mp hi
        rw [← h0]
        rfl
      have h13 : e.target ∈ i.links.map (fun e => e.target) :=
        List.mem_map_of_mem _ he
      rw [h12] at h13
      rw [List.mem_singleton.mp h13]
      decide
    · have h12 : i.lib = some 100 := by
        have h0 := Option.some_inj.mp hi
        rw [← h0]
      rw [hl] at h12
      cases h12
    · have h12 : i.lib = some 100 := by
        have h0 := Option.some_inj.mp hi
        rw [← h0]
      rw [hl] at h12
      cases h12
    · have h12 : i.links.map (fun e => e.target) = [] := by
        have h0 := Option.some_inj.mp hi
        rw [← h0]
        rfl
      have h13 : e.target ∈ i.links.map (fun e => e.target) :=
        List.mem_map_of_mem _ he
      rw [h12] at h13
      cases h13


/-- Claim C3 (corrected): for a property holding exactly one operation
recorded with local name "LegA" and reference name "Leg", the query
(reference "Leg", local "LegA") finds the operation, the query
(reference "Leg", local "LegB") finds nothing, and — contrary to the
original claim — the query with an unspecified (NULL) reference name and
local name "LegA" also finds nothing, because a NULL query reference name
only matches an operation whose recorded reference name is NULL too. -/
theorem claim_C3_amended (p : OverrideProp) (op : OverrideOp)
    (hops : p.operations = [op])
    (hloc : op.subitem_local_name = some "LegA")
    (href : op.subitem_reference_name = some "Leg")
    (refidx locidx : Int) (strict : Bool) :
    (BKE_lib_override_library_property_operation_find p
        (some "Leg") (some "LegA") refidx locidx strict).1 = some op ∧
    (BKE_lib_override_library_property_operation_find p
        (some "Leg") (some "LegB") refidx locidx strict).1 = none ∧
    (BKE_lib_override_library_property_operation_find p
        none (some "LegA") refidx locidx strict).1 = none := by
  refine ⟨?_, ?_, ?_⟩ <;>
    simp [BKE_lib_override_library_property_operation_find,
      BLI_findstring_ptr, hops, hloc, href, List.find?]

/-- Witness for C3's amended claim at the concrete property `c3prop`. -/
theorem claim_C3_amended_witness :
    (BKE_lib_override_library_property_operation_find c3prop
        (some "Leg") (some "LegA") (-1) (-1) true).1 = some c3op ∧
    (BKE_lib_override_library_property_operation_find c3prop
        (some "Leg") (some "LegB") (-1) (-1) true).1 = none ∧
    (BKE_lib_override_library_property_operation_find c3prop
        none (some "LegA") (-1) (-1) true).1 = none :=
  claim_C3_amended c3prop c3op rfl rfl rfl (-1) (-1) true

/-- Counterexample to claim C3 as stated: on the concrete property
`c3prop` (exactly one operation, local name "LegA", reference name "Leg"),
the query with unspecified (NULL) reference name and local name "LegA"
returns no operation, while the claim demands it return the operation. -/
theorem claim_C3_counterexample :
    c3prop.operations = [c3op] ∧
    c3op.subitem_local_name = some "LegA" ∧
    c3op.subitem_reference_name = some "Leg" ∧
    (BKE_lib_override_library_property_operation_find c3prop
        none (some "LegA") (-1) (-1) true).1 ≠ some c3op :=
  ⟨rfl, rfl, rfl, by decide⟩

/-- If `f` preserves the override link, `updateId` preserves `overrideOf`. -/
theorem overrideOf_updateId_preserve (m : MainDB) (k k' : Nat) (f : IDRec → IDRec)
    (hf : ∀ i, (f i).override_library = i.override_library) :
    overrideOf (m.updateId k f) k' = overrideOf m k' := by
  simp only [overrideOf, MainDB.lookup_updateId]
  by_cases h : k' = k
  · subst h
    cases m.lookup k' <;> simp [hf]
  · simp [h]

/-- If `f` preserves the REFOK tag, `updateId` preserves `refokOf`. -/
theorem refokOf_updateId_preserve (m : MainDB) (k k' : Nat) (f : IDRec → IDRec)
    (hf : ∀ i, (f i).tags.refok = i.tags.refok) :
    refokOf (m.updateId k f) k' = refokOf m k' := by
  simp only [refokOf, MainDB.lookup_updateId]
  by_cases h : k' = k
  · subst h
    cases m.lookup k' <;> simp [hf]
  · simp [h]

/-- User-count bumps do not change override links. -/
theorem overrideOf_us_plus (m : MainDB) (k : Option Nat) (k' : Nat) :
    overrideOf (id_us_plus m k) k' = overrideOf m k' := by
  cases k with
  | none => rfl
  | some kk => exact overrideOf_updateId_preserve m kk k' _ (fun i => rfl)

/-- User-count drops do not change override links. -/
theorem overrideOf_us_min (m : MainDB) (k : Option Nat) (k' : Nat) :
    overrideOf (id_us_min m k) k' = overrideOf m k' := by
  cases k with
  | none => rfl
  | some kk => exact overrideOf_updateId_preserve m kk k' _ (fun i => rfl)

/-- User-count bumps do not change REFOK tags. -/
theorem refokOf_us_plus (m : MainDB) (k : Option Nat) (k' : Nat) :
    refokOf (id_us_plus m k) k' = refokOf m k' := by
  cases k with
  | none => rfl
  | some kk => exact refokOf_updateId_preserve m kk k' _ (fun i => rfl)

/-- User-count drops do not change REFOK tags. -/
theorem refokOf_us_min (m : MainDB) (k : Option Nat) (k' : Nat) :
    refokOf (id_us_min m k) k' = refokOf m k' := by
  cases k with
  | none => rfl
  | some kk => exact refokOf_updateId_preserve m kk k' _ (fun i => rfl)

/-- Claim C4: `init(local, reference)` either clones a template found at
the end of the reference's override chain (fixing the reference up to the
requested one), or generates a fresh empty override link; in both cases
the resulting link references the given reference, whose user count grows
by one, and the local data-block's REFOK tag is cleared. -/
theorem claim_C4 (m : MainDB) (localKey refKey ak : Nat) (lid rid : IDRec)
    (hl : m.lookup localKey = some lid)
    (hlov : lid.override_library = none)
    (hr : m.lookup refKey = some rid)
    (hwalk : ancestorWalk m (some refKey) (m.ids.length + 1) = some (some ak))
    (hne1 : localKey ≠ refKey) (hne2 : ak ≠ localKey) :
    overrideOf (BKE_lib_override_library_init m localKey (some refKey)) localKey =
      some { reference := some refKey,
             properties := (match overrideOf m ak with
                            | some tov => tov.properties
                            | none => []),
             storage := none } ∧
    refokOf (BKE_lib_override_library_init m localKey (some refKey)) localKey =
      some false ∧
    usOf (BKE_lib_override_library_init m localKey (some refKey)) refKey =
      some (rid.us + 1) := by
  cases hov : overrideOf m ak with
  | none =>
    have hov' : (m.lookup ak).bind (fun i => i.override_library) = none := hov
    unfold BKE_lib_override_library_init
    rw [hwalk]
    simp only [hov', hov]
    refine ⟨?_, ?_, ?_⟩
    · rw [lib_override_init_empty, overrideOf_us_plus]
      simp [overrideOf, MainDB.lookup_updateId, hl, hlov]
    · rw [lib_override_init_empty, refokOf_us_plus]
      simp [refokOf, MainDB.lookup_updateId, hl]
    · simp [lib_override_init_empty, usOf, id_us_plus, MainDB.lookup_updateId,
        hl, hr, hne1, Ne.symm hne1]
  | some tov =>
    have hov' : (m.lookup ak).bind (fun i => i.override_library) = some tov := hov
    rcases ancestorWalk_stop m (some refKey) (m.ids.length + 1) ak hwalk with
      hnone | ⟨i, hi, hio⟩ | ⟨i, iov, hi, hio, href⟩
    · rw [hnone] at hov'; simp at hov'
    · rw [hi] at hov'; simp [hio] at hov'
    · have hov2 : iov = tov := by rw [hi] at hov'; simpa [hio] using hov'
      subst hov2
      unfold BKE_lib_override_library_init
      rw [hwalk]
      simp only [hov', hov]
      rcases eq_or_ne ak refKey with hak | hak
      · subst hak
        rw [hi] at hr
        injection hr with hir
        subst hir
        simp [BKE_lib_override_library_copy, lib_override_init_empty,
          overrideOf_us_plus, overrideOf_us_min, refokOf_us_plus, refokOf_us_min,
          overrideOf, refokOf, usOf, id_us_plus, id_us_min,
          MainDB.lookup_updateId, hl, hi, hlov, hio, href, hne1, Ne.symm hne1,
          hne2, Ne.symm hne2, op_copy_list_id, prop_copy_list_id]
      · simp [BKE_lib_override_library_copy, lib_override_init_empty,
          overrideOf_us_plus, overrideOf_us_min, refokOf_us_plus, refokOf_us_min,
          overrideOf, refokOf, usOf, id_us_plus, id_us_min,
          MainDB.lookup_updateId, hl, hi, hlov, hio, href, hne1, Ne.symm hne1,
          hne2, Ne.symm hne2, hak, Ne.symm hak, op_copy_list_id,
          prop_copy_list_id, hr]

/-- Witness for C4 on the concrete registry `c4main` (plain reference, so
the empty-override branch is exercised). -/
theorem claim_C4_witness :
    overrideOf (BKE_lib_override_library_init c4main 0 (some 1)) 0 =
      some { reference := some 1,
             properties := (match overrideOf c4main 1 with
                            | some tov => tov.properties
                            | none => []),
             storage := none } ∧
    refokOf (BKE_lib_override_library_init c4main 0 (some 1)) 0 = some false ∧
    usOf (BKE_lib_override_library_init c4main 0 (some 1)) 1 =
      some ((plainLinked "Chair").us + 1) :=
  claim_C4 c4main 0 1 1 { name := "Chair", idcode := .ID_OB, us := 1 }
    (plainLinked "Chair") (by decide) (by decide) (by decide) (by decide)
    (by decide) (by decide)

/-- Claim C10: copying from an override template makes the template itself
the reference of the destination's override link, takes a user of it, and
clears the destination's REFOK tag, in both shallow and deep mode (stated
for destinations that do not already reference the template). -/
theorem claim_C10 (m : MainDB) (dstKey srcKey : Nat) (dst src : IDRec)
    (sov : OverrideLib)
    (hd : m.lookup dstKey = some dst) (hs : m.lookup srcKey = some src)
    (hsov : src.override_library = some sov) (htmpl : sov.reference = none)
    (hold : ∀ dov, dst.override_library = some dov → dov.reference ≠ some srcKey)
    (hne : dstKey ≠ srcKey) (deep : Bool) :
    (overrideOf (BKE_lib_override_library_copy m dstKey srcKey deep) dstKey).map
        (fun o => o.reference) = some (some srcKey) ∧
    usOf (BKE_lib_override_library_copy m dstKey srcKey deep) srcKey =
      some (src.us + 1) ∧
    refokOf (BKE_lib_override_library_copy m dstKey srcKey deep) dstKey =
      some false := by
  cases hdov : dst.override_library with
  | none =>
    simp only [BKE_lib_override_library_copy, hd, hs, hsov, htmpl, hdov]
    cases deep <;>
      simp [lib_override_init_empty, id_us_plus, id_us_min,
        MainDB.lookup_updateId, overrideOf, refokOf, usOf, hd, hs, hdov, hsov,
        hne, Ne.symm hne]
  | some dov =>
    have hdref : dov.reference ≠ some srcKey := hold dov hdov
    simp only [BKE_lib_override_library_copy, hd, hs, hsov, htmpl, hdov]
    simp only [BKE_lib_override_library_clear, hd, hdov]
    cases hdr : dov.reference with
    | none =>
      cases deep <;>
        simp [id_us_plus, id_us_min, MainDB.lookup_updateId, overrideOf,
          refokOf, usOf, hd, hs, hdov, hsov, hne, Ne.symm hne]
    | some x =>
      have hx : x ≠ srcKey := fun hc => hdref (by rw [hdr, hc])
      rcases eq_or_ne x dstKey with hxd | hxd
      · subst hxd
        cases deep <;>
          simp [id_us_plus, id_us_min, MainDB.lookup_updateId, overrideOf,
            refokOf, usOf, hd, hs, hdov, hsov, hne, Ne.symm hne, hx,
            Ne.symm hx]
      · cases deep <;>
          simp [id_us_plus, id_us_min, MainDB.lookup_updateId, overrideOf,
            refokOf, usOf, hd, hs, hdov, hsov, hne, Ne.symm hne, hx,
            Ne.symm hx, hxd, Ne.symm hxd]

/-- Witness for C10 on the concrete registry `c10main` (deep mode). -/
theorem claim_C10_witness :
    (overrideOf (BKE_lib_override_library_copy c10main 0 5 true) 0).map
        (fun o => o.reference) = some (some 5) ∧
    usOf (BKE_lib_override_library_copy c10main 0 5 true) 5 =
      some ((({ name := "LampTemplate", idcode := .ID_OB, us := 1,
                override_library := some { reference := none,
                                           properties := [cexProp] } } : IDRec)).us + 1) ∧
    refokOf (BKE_lib_override_library_copy c10main 0 5 true) 0 = some false :=
  claim_C10 c10main 0 5 { name := "Lamp", idcode := .ID_OB, us := 1 }
    { name := "LampTemplate", idcode := .ID_OB, us := 1,
      override_library := some { reference := none, properties := [cexProp] } }
    { reference := none, properties := [cexProp] }
    (by decide) (by decide) (by decide) (by decide)
    (by intro dov h; simp at h) (by decide) true

/-- Counterexample to claim C7 as stated: on `c7main`, entity `1` has an
override link to source `10`, which is non-template (its own reference is
`20`) and carries one recorded property; clearing entity `1`'s link and
running init against `10` yields an empty property list, while a single
deep copy from `10` duplicates its property — the two are not deep-equal. -/
theorem claim_C7_counterexample :
    overrideOf c7main 1 = some { reference := some 10 } ∧
    (overrideOf c7main 10).map (fun o => o.reference) = some (some 20) ∧
    overridePropsOf
        (BKE_lib_override_library_init (BKE_lib_override_library_clear c7main 1 true)
          1 (some 10)) 1 ≠
      overridePropsOf (BKE_lib_override_library_copy c7main 1 10 true) 1 :=
  ⟨by decide, by decide, by decide⟩

/-- Claim C7 (corrected): clear followed by init derives the new link's
property list from the template ancestor of the reference chain — empty
when the chain ends on a non-template — rather than from the source, so it
reproduces a deep copy from the source only when the source's own property
list equals that derived list; in particular when the source's reference
chain ends on a non-template and the source's property list is empty, both
routes produce an (equal) empty property list. -/
theorem claim_C7_amended (m : MainDB) (ek sk ak : Nat) (e s : IDRec)
    (sov : OverrideLib)
    (he : m.lookup ek = some e)
    (hs : m.lookup sk = some s)
    (hsov : s.override_library = some sov)
    (hnt : sov.reference.isSome)
    (hprops : sov.properties = [])
    (heov : ∃ eov, e.override_library = some eov)
    (hne : ek ≠ sk)
    (hwalk : ancestorWalk (BKE_lib_override_library_clear m ek true) (some sk)
        ((BKE_lib_override_library_clear m ek true).ids.length + 1) = some (some ak))
    (hak : overrideOf (BKE_lib_override_library_clear m ek true) ak = none) :
    overridePropsOf
        (BKE_lib_override_library_init (BKE_lib_override_library_clear m ek true)
          ek (some sk)) ek = some [] ∧
    overridePropsOf (BKE_lib_override_library_copy m ek sk true) ek = some [] := by
  obtain ⟨eov, heov⟩ := heov
  constructor
  · have hak' : ((BKE_lib_override_library_clear m ek true).lookup ak).bind
        (fun i => i.override_library) = none := hak
    unfold BKE_lib_override_library_init
    rw [hwalk]
    simp only [hak']
    simp only [lib_override_init_empty, BKE_lib_override_library_clear, he, heov]
    cases hor : eov.reference with
    | none =>
      simp [overridePropsOf, overrideOf, MainDB.lookup_updateId, id_us_plus,
        id_us_min, he, heov, hne, Ne.symm hne]
    | some y =>
      rcases eq_or_ne ek y with hy | hy
      · subst hy
        simp [overridePropsOf, overrideOf, MainDB.lookup_updateId, id_us_plus,
          id_us_min, he, heov, hne, Ne.symm hne]
      · simp [overridePropsOf, overrideOf, MainDB.lookup_updateId, id_us_plus,
          id_us_min, he, heov, hne, Ne.symm hne, hy, Ne.symm hy]
  · simp only [BKE_lib_override_library_copy, he, hs, hsov, heov]
    simp only [BKE_lib_override_library_clear, he, heov]
    cases hnr : sov.reference with
    | none => rw [hnr] at hnt; simp at hnt
    | some r =>
      cases hor : eov.reference with
      | none =>
        rcases eq_or_ne ek r with hrek | hrek
        · subst hrek
          simp [overridePropsOf, overrideOf, MainDB.lookup_updateId, id_us_plus,
            id_us_min, he, heov, hs, hsov, hprops, prop_copy_list_id]
        · simp [overridePropsOf, overrideOf, MainDB.lookup_updateId, id_us_plus,
            id_us_min, he, heov, hs, hsov, hprops, prop_copy_list_id, hrek,
            Ne.symm hrek]
      | some y =>
        rcases eq_or_ne ek y with hy | hy
        · subst hy
          rcases eq_or_ne ek r with hrek | hrek
          · subst hrek
            simp [overridePropsOf, overrideOf, MainDB.lookup_updateId,
              id_us_plus, id_us_min, he, heov, hs, hsov, hprops,
              prop_copy_list_id]
          · simp [overridePropsOf, overrideOf, MainDB.lookup_updateId,
              id_us_plus, id_us_min, he, heov, hs, hsov, hprops,
              prop_copy_list_id, hrek, Ne.symm hrek]
        · rcases eq_or_ne ek r with hrek | hrek
          · subst hrek
            simp [overridePropsOf, overrideOf, MainDB.lookup_updateId,
              id_us_plus, id_us_min, he, heov, hs, hsov, hprops,
              prop_copy_list_id, hy, Ne.symm hy]
          · rcases eq_or_ne r y with hry | hry
            · subst hry
              simp [overridePropsOf, overrideOf, MainDB.lookup_updateId,
                id_us_plus, id_us_min, he, heov, hs, hsov, hprops,
                prop_copy_list_id, hy, Ne.symm hy, hrek, Ne.symm hrek]
            · simp [overridePropsOf, overrideOf, MainDB.lookup_updateId,
                id_us_plus, id_us_min, he, heov, hs, hsov, hprops,
                prop_copy_list_id, hy, Ne.symm hy, hrek, Ne.symm hrek,
                hry, Ne.symm hry]

/-- Witness for C7's amended claim on `c7mainEmpty` (source with empty
property list, chain ending on the plain linked data-block `20`). -/
theorem claim_C7_amended_witness :
    overridePropsOf
        (BKE_lib_override_library_init
          (BKE_lib_override_library_clear c7mainEmpty 1 true) 1 (some 10)) 1 =
      some [] ∧
    overridePropsOf (BKE_lib_override_library_copy c7mainEmpty 1 10 true) 1 =
      some [] :=
  claim_C7_amended c7mainEmpty 1 10 20
    { name := "Chair", idcode := .ID_OB, us := 1,
      override_library := some { reference := some 10 } }
    { name := "Chair", idcode := .ID_OB, lib := some 100, us := 2,
      override_library := some { reference := some 20 } }
    { reference := some 20 }
    (by decide) (by decide) (by decide) (by decide) (by decide)
    ⟨{ reference := some 10 }, by decide⟩ (by decide) (by decide) (by decide)


end LibOverride
